import Mathlib

/-!
# aMobile `Controller`: a shallow embedding of `src/controller.mjs`

The on-screen joystick controller is embedded as pure functions over explicit state.

* JavaScript numbers are exact rationals (`ℚ`); `NaN` and the infinities are not represented.
* Option values arrive as dynamically typed `JSVal`s, so the validation in `build` can be
  followed branch by branch.
* The geometry helpers of `vendor/utils.min.mjs` are not part of this source file; they are a
  parameter `Utils` of every function that calls them.
* The process-wide `MobileHandler` (zone registry, active controllers, touched instances,
  logger) is an explicit value threaded through `build` and `reset`.
* A `TypeError` raised by the source is a `Fault.typeError`; a computation that the source
  continues with `undefined` operands is a `Fault.undefinedOperand`.
* Calls of the user callbacks are recorded, in order, in `Controller.emitted`.
-/

namespace AMobile

/-! ## Values -/

/-- A point `{ x, y }`. -/
structure Pos where
  x : ℚ
  y : ℚ
  deriving DecidableEq, Repr

/-- A dynamically typed JavaScript value, as far as the controller inspects it. Functions and
objects are identified by a number. -/
inductive JSVal where
  | undefined
  | null
  | bool (b : Bool)
  | num (q : ℚ)
  | str (s : String)
  | func (id : Nat)
  | object (id : Nat)
  deriving DecidableEq, Repr

namespace JSVal

/-- JavaScript truthiness (`if (v)`). -/
def truthy : JSVal → Bool
  | undefined => false
  | null => false
  | bool b => b
  | num q => decide (q ≠ 0)
  | str s => decide (s ≠ "")
  | func _ => true
  | object _ => true

/-- Holds when `typeof v === 'string'`. -/
def isString : JSVal → Bool
  | str _ => true
  | _ => false

/-- Holds when `typeof v === 'function'`. -/
def isFunction : JSVal → Bool
  | func _ => true
  | _ => false

/-- The number `v` when `typeof v === 'number'`. -/
def asNumber? : JSVal → Option ℚ
  | num q => some q
  | _ => none

/-- The number `v` when `Number.isInteger(v)`. -/
def asInteger? : JSVal → Option ℚ
  | num q => if q.isInt then some q else none
  | _ => none

/-- The string `v` when `typeof v === 'string'`. -/
def asString? : JSVal → Option String
  | str s => some s
  | _ => none

end JSVal

/-- `String.prototype.toLowerCase`, on the ASCII letters. -/
def toLowerCase (s : String) : String :=
  String.mk (s.data.map Char.toLower)

/-- How a call can leave the model. With `typeError` the source throws a `TypeError`. With
`undefinedOperand` the source does not throw: it goes on computing with `undefined` operands
(the options are the empty object a hard reset leaves) and returns, having stored values
such as `undefined` and `NaN` that are no rationals; the controller state after such a call
is not represented. -/
inductive Fault where
  | typeError
  | undefinedOperand
  deriving DecidableEq, Repr

/-! ## The geometry kernel (`Utils`), a parameter -/

/-- The five functions of `vendor/utils.min.mjs` the controller calls. -/
structure Utils where
  getDistance : Pos → Pos → ℚ
  getAngle : Pos → Pos → ℚ
  calculateNewPositionFromDistanceAndAngle : Pos → ℚ → ℚ → Pos
  normalizeRanged : ℚ → ℚ → ℚ → ℚ
  convertRaWAngleToVyloCoords : ℚ → ℚ

/-! ## Options -/

/-- The behaviour of a controller (`options.type`). -/
inductive ControllerType where
  | stationary
  | static
  | traversal
  deriving DecidableEq, Repr

/-- The `position` option as `build` sees it: `undefined`/`null` (reading `.constructor`
throws), a value whose constructor is not `Object`, or a plain object with fields `x`, `y`. -/
inductive PositionArg where
  | nullish
  | notPlainObject
  | plain (x y : JSVal)
  deriving DecidableEq, Repr

/-- The `callback` option as `setup` sees it: `undefined`/`null` (reading a property throws),
or a value with the three properties (each `undefined` when absent). -/
inductive CallbackArg where
  | nullish
  | bundle (onTouchBegin onRelease onMove : JSVal)
  deriving DecidableEq, Repr

/-- The options object handed to `build`, before validation. -/
structure RawOptions where
  type : JSVal
  size : JSVal
  position : PositionArg
  lockedDimension : JSVal
  zone : JSVal
  inactiveAlpha : JSVal
  transitionTime : JSVal
  scale : JSVal
  plane : JSVal
  layer : JSVal
  atlasName : JSVal
  joystickIconName : JSVal
  joyringIconName : JSVal
  callback : CallbackArg
  deriving DecidableEq, Repr

/-- The default parameter value of `build` (line 272). -/
def RawOptions.default : RawOptions where
  type := .str "stationary"
  size := .num 100
  position := .plain (.num 100) (.num 100)
  lockedDimension := .null
  zone := .null
  inactiveAlpha := .num (1 / 2)
  transitionTime := .num 500
  scale := .num 1
  plane := .num 1
  layer := .num 1
  atlasName := .str ""
  joystickIconName := .str ""
  joyringIconName := .str ""
  callback := .bundle .null .null .null

/-- The options object once `build` has validated it (the same object, each validated field
now of its checked type). `lockedDimension`, `zone` and `callback` are stored as given, except
that `build` may have replaced `lockedDimension` by `null`. -/
structure Options where
  type : ControllerType
  size : ℚ
  position : Pos
  lockedDimension : JSVal
  zone : JSVal
  inactiveAlpha : ℚ
  transitionTime : ℚ
  scale : ℚ
  plane : ℚ
  layer : ℚ
  atlasName : String
  joystickIconName : String
  joyringIconName : String
  callback : CallbackArg
  deriving DecidableEq, Repr

/-- The field `this.options`: `null` (line 69), the empty object `{}` left by a hard reset
(line 243), or a validated options object. -/
inductive OptionsRef where
  | null
  | empty
  | opts (o : Options)
  deriving DecidableEq, Repr

/-! ## Elements, controller, handler -/

/-- The outer ring element. Constant cosmetic fields (`color`, `anchor`, `interfaceType`,
`touchOpacity`) and the back references are left out. -/
structure Joyring where
  atlasName : String
  iconName : String
  scale : ℚ
  plane : ℚ
  layer : ℚ
  width : ℚ
  height : ℚ
  halfSize : ℚ
  originalPos : Pos
  onTouchBegin : JSVal
  xPos : ℚ
  yPos : ℚ
  alpha : ℚ
  shown : Bool
  deriving DecidableEq, Repr

/-- The inner stick element. -/
structure Joystick where
  atlasName : String
  iconName : String
  scale : ℚ
  startPos : Pos
  width : ℚ
  height : ℚ
  plane : ℚ
  layer : ℚ
  anglePoint : ℚ
  halfSize : ℚ
  originalPos : Pos
  xPos : ℚ
  yPos : ℚ
  alpha : ℚ
  shown : Bool
  deriving DecidableEq, Repr

/-- The alpha tween of a controller: stopped, or animating from `start` to `finish`. -/
inductive TweenState where
  | idle
  | animating (start finish duration : ℚ)
  deriving DecidableEq, Repr

/-- A call of a user callback made by the controller. -/
inductive Emitted where
  | onRelease (angle : ℚ)
  | onMove (normalizedX normalizedY angle : ℚ) (inCenter : Bool)
  deriving DecidableEq, Repr

/-- A `Controller` instance. `id` is the identity of the object; the same number identifies
its joyring among the handler's touched instances. -/
structure Controller where
  id : Nat
  tween : TweenState
  joyring : Joyring
  joystick : Joystick
  options : OptionsRef
  lockedDimension : JSVal
  zone : JSVal
  activeInZone : Bool
  controllingFinger : Option Nat
  active : Bool
  onRelease : JSVal
  onMove : JSVal
  emitted : List Emitted
  deriving DecidableEq, Repr

/-- The messages `build` hands to the logger. -/
inductive Diagnostic where
  | sizeNotInteger
  | typeNotString
  | zoneRequired
  | atlasNameNotString
  | traversalCannotBeLocked
  | invalidLockedDimension
  | joystickIconNameNotString
  | joyringIconNameNotString
  | scaleNotInteger
  | positionXNotNumber
  | positionYNotNumber
  | positionNotObject
  deriving DecidableEq, Repr

/-- Whether a message is logged with `.error` (the others with `.warn`). -/
def Diagnostic.isError : Diagnostic → Bool
  | .zoneRequired => true
  | _ => false

/-- The state of `MobileHandler` the controller reads and writes. `zonedLeft` and
`zonedRight` are `zonedControllers['left']` and `zonedControllers['right']`, `none` standing
for `undefined` and `null`. -/
structure MobileHandler where
  reservedScreenZones : List JSVal
  zonedLeft : Option Nat
  zonedRight : Option Nat
  activeControllers : List Nat
  touchedInstances : List Nat
  logged : List Diagnostic
  deriving DecidableEq, Repr

/-- The handler before any controller exists. -/
def MobileHandler.initial : MobileHandler where
  reservedScreenZones := []
  zonedLeft := none
  zonedRight := none
  activeControllers := []
  touchedInstances := []
  logged := []

/-- A call of `MobileHandler.logger.prefix(...).warn` or `.error`. -/
def MobileHandler.log (h : MobileHandler) (d : Diagnostic) : MobileHandler :=
  { h with logged := h.logged ++ [d] }

/-- The assignment `MobileHandler.zonedControllers[zone] = v` for `zone` one of `'left'`,
`'right'`. -/
def MobileHandler.setZoned (h : MobileHandler) (zone : JSVal) (v : Option Nat) : MobileHandler :=
  if zone = .str "left" then { h with zonedLeft := v }
  else if zone = .str "right" then { h with zonedRight := v }
  else h

/-- The read `MobileHandler.zonedControllers[zone]`. -/
def MobileHandler.zoned (h : MobileHandler) (zone : JSVal) : Option Nat :=
  if zone = .str "left" then h.zonedLeft
  else if zone = .str "right" then h.zonedRight
  else none

/-- The constant `Controller.MAX_LAYER`. -/
def MAX_LAYER : ℚ := 1999998

/-- A fresh interface element for the ring, before `setup` configures it. -/
def Joyring.fresh : Joyring where
  atlasName := ""
  iconName := ""
  scale := 1
  plane := 0
  layer := 0
  width := 0
  height := 0
  halfSize := 0
  originalPos := ⟨0, 0⟩
  onTouchBegin := .undefined
  xPos := 0
  yPos := 0
  alpha := 1
  shown := false

/-- A fresh interface element for the stick, before `setup` configures it. -/
def Joystick.fresh : Joystick where
  atlasName := ""
  iconName := ""
  scale := 1
  startPos := ⟨0, 0⟩
  width := 0
  height := 0
  plane := 0
  layer := 0
  anglePoint := 0
  halfSize := 0
  originalPos := ⟨0, 0⟩
  xPos := 0
  yPos := 0
  alpha := 1
  shown := false

/-- The instance as the field initialisers (lines 27-111) and the first step of `build`
(lines 273-278, which create the two elements) leave it. -/
def Controller.fresh (id : Nat) : Controller where
  id := id
  tween := .idle
  joyring := Joyring.fresh
  joystick := Joystick.fresh
  options := .null
  lockedDimension := .null
  zone := .null
  activeInZone := false
  controllingFinger := none
  active := false
  onRelease := .null
  onMove := .null
  emitted := []

/-- The engine call `setPos(x, y)` on the ring. -/
def Joyring.setPos (r : Joyring) (x y : ℚ) : Joyring :=
  { r with xPos := x, yPos := y }

/-- The engine call `setPos(x, y)` on the stick. -/
def Joystick.setPos (s : Joystick) (x y : ℚ) : Joystick :=
  { s with xPos := x, yPos := y }

/-! ## Axis lock -/

namespace Controller

/-- `lock(pDimension)` (lines 513-526). A truthy argument is lowered with `toLowerCase`,
which only strings have. -/
def lock (c : Controller) (pDimension : JSVal) : Except Fault Controller :=
  let lowered : Except Fault JSVal :=
    if pDimension.truthy then
      match pDimension with
      | .str s => .ok (.str (toLowerCase s))
      | _ => .error .typeError
    else .ok pDimension
  match lowered with
  | .error f => .error f
  | .ok d =>
    if d.isString then
      if d = .str "horizontal" then .ok { c with lockedDimension := .str "horizontal" }
      else if d = .str "vertical" then .ok { c with lockedDimension := .str "vertical" }
      else .ok { c with lockedDimension := .str "both" }
    else .ok c

/-- `unlock(pDimension)` (lines 531-552). -/
def unlock (c : Controller) (pDimension : JSVal) : Except Fault Controller :=
  let lowered : Except Fault JSVal :=
    if pDimension.truthy then
      match pDimension with
      | .str s => .ok (.str (toLowerCase s))
      | _ => .error .typeError
    else .ok pDimension
  match lowered with
  | .error f => .error f
  | .ok d =>
    if d.isString then
      if d = .str "horizontal" then
        if c.lockedDimension = .str "both" then .ok { c with lockedDimension := .str "vertical" }
        else .ok { c with lockedDimension := .null }
      else if d = .str "vertical" then
        if c.lockedDimension = .str "both" then .ok { c with lockedDimension := .str "horizontal" }
        else .ok { c with lockedDimension := .null }
      else .ok { c with lockedDimension := .null }
    else .ok c

/-! ## Transition, show, reset -/

/-- `handleTransition(pFade)` (lines 183-207). With `options` the empty object the guard of
line 189 is false and nothing happens. -/
def handleTransition (c : Controller) (pFade : Bool) : Except Fault Controller :=
  match c.options with
  | .null => .error .typeError
  | .empty => .ok c
  | .opts o =>
    let start := c.joyring.alpha
    if o.inactiveAlpha ≠ 0 ∨ o.inactiveAlpha = 0 then
      let finish := if pFade then o.inactiveAlpha else 1
      if start = finish then .ok { c with tween := .idle }
      else .ok { c with tween := .animating start finish o.transitionTime }
    else .ok c

/-- `show()` (lines 571-577). -/
def show' (c : Controller) : Except Fault Controller :=
  let r := c.joyring.setPos c.joyring.originalPos.x c.joyring.originalPos.y
  let s := c.joystick.setPos c.joystick.originalPos.x c.joystick.originalPos.y
  handleTransition
    { c with joyring := { r with shown := true }, joystick := { s with shown := true } } true

/-- The handler after the hard branch of `reset` (lines 233-240 and 244-246): the zone of
the controller is released and its ring leaves the touched instances. -/
def releaseRegistry (h : MobileHandler) (c : Controller) : MobileHandler :=
  let h1 :=
    if c.zone.truthy then
      let h0 :=
        if c.zone ∈ h.reservedScreenZones then
          { h with reservedScreenZones := h.reservedScreenZones.erase c.zone }
        else h
      if c.zone = .str "left" ∨ c.zone = .str "right" then h0.setZoned c.zone none else h0
    else h
  if c.id ∈ h1.touchedInstances then
    { h1 with touchedInstances := h1.touchedInstances.erase c.id }
  else h1

/-- `reset(pSoft)` (lines 213-248). With `options` null the first read throws before any
write. With `options` the empty object the source does not throw: it returns with
`joystick.alpha` and `joyring.layer` undefined and `joystick.layer` `NaN`, a controller state
outside the model, so the result is `Fault.undefinedOperand`; the registry is still
updated. -/
def reset (h : MobileHandler) (c : Controller) (pSoft : Bool) :
    MobileHandler × Except Fault Controller :=
  match c.options with
  | .null => (h, .error .typeError)
  | .empty => (if pSoft then h else releaseRegistry h c, .error .undefinedOperand)
  | .opts o =>
    let angle := c.joystick.anglePoint
    let s := { c.joystick with
      alpha := o.inactiveAlpha, startPos := ⟨0, 0⟩, anglePoint := 0, layer := o.layer + 10 }
    let r := { c.joyring with layer := o.layer }
    let c1 := { c with joystick := s, joyring := r, activeInZone := false, controllingFinger := none }
    let c2 :=
      if c1.active then
        if c1.onRelease.isFunction then
          { c1 with active := false, emitted := c1.emitted ++ [.onRelease angle] }
        else { c1 with active := false }
      else c1
    if pSoft then (h, .ok c2)
    else
      (releaseRegistry h c2,
        .ok { c2 with
          onRelease := .null, onMove := .null,
          joyring := { c2.joyring with onTouchBegin := .null },
          zone := .null, lockedDimension := .null, options := .empty })

/-! ## Construction -/

/-- Lines 279-282: `size` must be an integer, else 100. -/
def checkSize (v : JSVal) : ℚ × List Diagnostic :=
  match v.asInteger? with
  | some q => (q, [])
  | none => (100, [.sizeNotInteger])

/-- Lines 285-292: `type` must be one of the three names, else `'stationary'`. -/
def checkType (v : JSVal) : ControllerType × List Diagnostic :=
  match v with
  | .str s =>
    if s = "traversal" then (.traversal, [])
    else if s = "static" then (.static, [])
    else (.stationary, [])
  | _ => (.stationary, [.typeNotString])

/-- Lines 294-308: the zone check. `none` is the early return of line 300. -/
def claimZone (h : MobileHandler) (c : Controller) (type : ControllerType) (zone : JSVal) :
    Option (MobileHandler × Controller) :=
  if type = .traversal ∨ type = .static then
    if h.reservedScreenZones.length ≠ 0 ∧
        (¬ zone.truthy ∨ ¬ zone.isString ∨ zone ∈ h.reservedScreenZones) then
      none
    else if zone = .str "left" ∨ zone = .str "right" then
      some (({ h with reservedScreenZones := h.reservedScreenZones ++ [zone] }).setZoned zone
        (some c.id), { c with zone := zone })
    else some (h, c)
  else some (h, c)

/-- Lines 310-313, 325-333: a name option must be a string, else `''`. -/
def checkString (v : JSVal) (d : Diagnostic) : String × List Diagnostic :=
  match v.asString? with
  | some s => (s, [])
  | none => ("", [d])

/-- Lines 316-323: a truthy `lockedDimension` is kept (with a warning) on a traversal
controller, and otherwise replaced by `null` unless it is one of the three names. -/
def checkLockedDimension (type : ControllerType) (v : JSVal) : JSVal × List Diagnostic :=
  if v.truthy then
    if type = .traversal then (v, [.traversalCannotBeLocked])
    else if ¬ v.isString ∨ (v ≠ .str "both" ∧ v ≠ .str "vertical" ∧ v ≠ .str "horizontal") then
      (.null, [.invalidLockedDimension])
    else (v, [])
  else (v, [])

/-- Lines 336-342, 350-356: a numeric option must be a number, else the default. -/
def checkNumber (v : JSVal) (dflt : ℚ) : ℚ :=
  match v.asNumber? with
  | some q => q
  | none => dflt

/-- Lines 345-348: `scale` must be an integer, else 1. -/
def checkScale (v : JSVal) : ℚ × List Diagnostic :=
  match v.asInteger? with
  | some q => (q, [])
  | none => (1, [.scaleNotInteger])

/-- Lines 358-370: `position`. `none` is the `TypeError` of reading `.constructor` of
`undefined` or `null`. -/
def checkPosition (p : PositionArg) : Option (Pos × List Diagnostic) :=
  match p with
  | .nullish => none
  | .notPlainObject => some (⟨100, 100⟩, [.positionNotObject])
  | .plain x y =>
    let cx : ℚ × List Diagnostic :=
      match x.asInteger? with
      | some q => (q, [])
      | none => (100, [.positionXNotNumber])
    let cy : ℚ × List Diagnostic :=
      match y.asInteger? with
      | some q => (q, [])
      | none => (100, [.positionYNotNumber])
    some (⟨cx.1, cy.1⟩, cx.2 ++ cy.2)

/-- `setup()` (lines 122-177). The engine calls that add the elements to the interface are
not represented. The handler changes only at line 175, after every statement that can throw. -/
def setup (h : MobileHandler) (c : Controller) : MobileHandler × Except Fault Controller :=
  match c.options with
  | .null => (h, .error .typeError)
  | .empty => (h, .error .typeError)
  | .opts o =>
    let r := { c.joyring with
      atlasName := o.atlasName, iconName := o.joyringIconName, scale := 1,
      plane := o.plane, layer := o.layer, width := o.size, height := o.size }
    let r := { r with halfSize := r.width / 2, originalPos := ⟨o.position.x, o.position.y⟩ }
    let s := { c.joystick with
      atlasName := o.atlasName, iconName := o.joystickIconName, scale := 1,
      startPos := ⟨0, 0⟩, width := o.size / 2, height := o.size / 2, plane := o.plane,
      layer := o.layer + 1, anglePoint := 0 }
    let s := { s with halfSize := s.width / 2 }
    let s := { s with
      originalPos := ⟨r.originalPos.x + s.halfSize, r.originalPos.y + s.halfSize⟩ }
    match o.callback with
    | .nullish => (h, .error .typeError)
    | .bundle onTouchBegin onRelease onMove =>
      let c1 := { c with
        joyring := { r with onTouchBegin := onTouchBegin }, joystick := s,
        onRelease := onRelease, onMove := onMove, lockedDimension := o.lockedDimension }
      match c1.lock c1.lockedDimension with
      | .error f => (h, .error f)
      | .ok c2 =>
        ({ h with activeControllers := h.activeControllers ++ [c2.id] }, c2.show')

/-- How a call of `build` ends: it ran to the end, it returned early at the zone check
(line 300) leaving the instance as it was, or it threw. -/
inductive BuildResult where
  | built (c : Controller)
  | rejected (c : Controller)
  | threw (f : Fault)
  deriving DecidableEq, Repr

/-- `build(pOptions)` (lines 272-373); `none` is the omitted argument, which takes the
default value. The returned handler carries every write made before the call ended. -/
def build (h : MobileHandler) (c : Controller) (pOptions : Option RawOptions) :
    MobileHandler × BuildResult :=
  let p := pOptions.getD RawOptions.default
  let size := checkSize p.size
  let type := checkType p.type
  let h1 := { h with logged := h.logged ++ size.2 ++ type.2 }
  match claimZone h1 c type.1 p.zone with
  | none => (h1.log .zoneRequired, .rejected c)
  | some (h2, c1) =>
    let atlasName := checkString p.atlasName .atlasNameNotString
    let lockedDimension := checkLockedDimension type.1 p.lockedDimension
    let joystickIconName := checkString p.joystickIconName .joystickIconNameNotString
    let joyringIconName := checkString p.joyringIconName .joyringIconNameNotString
    let scale := checkScale p.scale
    let h3 := { h2 with
      logged := h2.logged ++ atlasName.2 ++ lockedDimension.2 ++ joystickIconName.2
        ++ joyringIconName.2 ++ scale.2 }
    match checkPosition p.position with
    | none => (h3, .threw .typeError)
    | some position =>
      let o : Options := {
        type := type.1, size := size.1, position := position.1,
        lockedDimension := lockedDimension.1, zone := p.zone,
        inactiveAlpha := checkNumber p.inactiveAlpha (1 / 2),
        transitionTime := checkNumber p.transitionTime 500,
        scale := scale.1, plane := checkNumber p.plane 1, layer := checkNumber p.layer 1,
        atlasName := atlasName.1, joystickIconName := joystickIconName.1,
        joyringIconName := joyringIconName.1, callback := p.callback }
      let h4 := { h3 with logged := h3.logged ++ position.2 }
      match setup h4 { c1 with options := .opts o } with
      | (h5, .ok c2) => (h5, .built c2)
      | (h5, .error f) => (h5, .threw f)

/-- The constructor (lines 115-117): `new Controller(pOptions)` runs `build` on a fresh
instance. Unless `build` throws, the `new` expression evaluates to the instance, also when
`build` returned early. -/
def new (h : MobileHandler) (id : Nat) (pOptions : Option RawOptions) :
    MobileHandler × BuildResult :=
  build h (Controller.fresh id) pOptions

/-! ## Update and release -/

/-- Lines 418-422 and 461-465: the locked coordinate of the touch position is overwritten by
the start position's. -/
def lockTouchPos (lockedDimension : JSVal) (startPos touchPos : Pos) : Pos :=
  if lockedDimension = .str "horizontal" then { touchPos with y := startPos.y }
  else if lockedDimension = .str "vertical" then { touchPos with x := startPos.x }
  else touchPos

/-- The locals `distance`, `angle`, `clampedDistance`, `clampedPos` of `update`. -/
structure Clamp where
  distance : ℚ
  angle : ℚ
  clampedDistance : ℚ
  clampedPos : Pos

/-- Lines 423-426, 441-444 and 466-469: the four locals, computed from the start position,
the touch position and the radius `joyring.halfSize`. -/
def clamp (K : Utils) (startPos touchPos : Pos) (halfSize : ℚ) : Clamp :=
  let distance := K.getDistance startPos touchPos
  let angle := K.getAngle startPos touchPos
  let clampedDistance := min distance halfSize
  { distance := distance, angle := angle, clampedDistance := clampedDistance,
    clampedPos := K.calculateNewPositionFromDistanceAndAngle startPos clampedDistance angle }

/-- Lines 475-491: the stage after the positions are set. `startingPos` is the local of
line 483 (the caller passes `startPos` for a stationary controller and `joystick.startPos`
otherwise). -/
def afterPosition (K : Utils) (c : Controller) (startingPos touchPos : Pos) (m : Clamp) :
    Controller :=
  let anglePoint := K.convertRaWAngleToVyloCoords m.angle
  let centerThreshold := c.joyring.width * (1 / 10)
  let inCenter := decide (|m.clampedDistance| < centerThreshold)
  let normalizedX := K.normalizeRanged startingPos.x
    (touchPos.x - c.joyring.halfSize) (touchPos.x + c.joyring.halfSize)
  let normalizedY := K.normalizeRanged startingPos.y
    (touchPos.y - c.joyring.halfSize) (touchPos.y + c.joyring.halfSize)
  let c1 := { c with joystick := { c.joystick with anglePoint := anglePoint } }
  if c1.onMove.isFunction then
    { c1 with emitted := c1.emitted ++ [.onMove normalizedX normalizedY anglePoint inCenter] }
  else c1

/-- Lines 431-436: the first touch of a static or traversal controller. -/
def touchStart (c : Controller) (touchPos : Pos) : Controller :=
  let s := { c.joystick with startPos := touchPos }
  let r := c.joyring.setPos (touchPos.x - s.halfSize) (touchPos.y - s.halfSize)
  { c with joyring := r, joystick := s.setPos touchPos.x touchPos.y }

/-- Lines 438-456: a later update of a traversal controller. -/
def traverse (K : Utils) (c : Controller) (touchPos : Pos) : Controller :=
  let m := clamp K c.joystick.startPos touchPos c.joyring.halfSize
  let s := c.joystick.setPos touchPos.x touchPos.y
  let parentAngle := K.getAngle touchPos s.startPos
  let parentClampedPos :=
    K.calculateNewPositionFromDistanceAndAngle touchPos m.clampedDistance parentAngle
  let r := c.joyring.setPos (parentClampedPos.x - s.halfSize) (parentClampedPos.y - s.halfSize)
  let s :=
    if m.distance > m.clampedDistance then
      { s with startPos := ⟨r.xPos + s.halfSize, r.yPos + s.halfSize⟩ }
    else s
  let c1 := { c with joyring := r, joystick := s }
  afterPosition K c1 c1.joystick.startPos touchPos m

/-- Lines 392-395: what a touch start does before the positions are computed. The call
`handleTransition()` passes no argument, so `pFade` is falsy. -/
def beginTouch (c : Controller) : Except Fault Controller :=
  match c.handleTransition false with
  | .error f => .error f
  | .ok c0 =>
    .ok { c0 with
      joyring := { c0.joyring with layer := MAX_LAYER },
      joystick := { c0.joystick with layer := MAX_LAYER + 10 },
      active := true }

/-- Lines 398-491: the body of `if (this.active)`. With `options` the empty object the
source takes neither branch, runs on with an undefined angle and returns; the model does not
follow it there and stops with `Fault.undefinedOperand`. -/
def whileActive (K : Utils) (c : Controller) (pX pY : ℚ) (pTouchStart : Bool) :
    Except Fault Controller :=
  let touchPos : Pos := ⟨pX - c.joystick.halfSize, pY - c.joystick.halfSize⟩
  match c.options with
  | .null => .error .typeError
  | .empty => .error .undefinedOperand
  | .opts o =>
    match o.type with
    | .stationary =>
      let startPos := c.joystick.originalPos
      let touchPos := lockTouchPos c.lockedDimension startPos touchPos
      let m := clamp K startPos touchPos c.joyring.halfSize
      let c2 := { c with joystick := c.joystick.setPos m.clampedPos.x m.clampedPos.y }
      .ok (afterPosition K c2 startPos touchPos m)
    | .traversal =>
      if pTouchStart then .ok (touchStart c touchPos)
      else .ok (traverse K c touchPos)
    | .static =>
      if pTouchStart then .ok (touchStart c touchPos)
      else
        let touchPos := lockTouchPos c.lockedDimension c.joystick.startPos touchPos
        let m := clamp K c.joystick.startPos touchPos c.joyring.halfSize
        let c2 := { c with joystick := c.joystick.setPos m.clampedPos.x m.clampedPos.y }
        .ok (afterPosition K c2 c2.joystick.startPos touchPos m)

/-- `update(pX, pY, pTouchStart)` (lines 389-493). A `TypeError` is thrown before the first
write and leaves the instance as it was. On the emptied options of a controller after a hard
reset the source completes (a touch start raises the layers and sets `active`); that state
is outside the model, which returns `Fault.undefinedOperand`. -/
def update (K : Utils) (c : Controller) (pX pY : ℚ) (pTouchStart : Bool) :
    Except Fault Controller :=
  if c.lockedDimension = .str "both" then .ok c
  else
    match (if pTouchStart then beginTouch c else .ok c) with
    | .error f => .error f
    | .ok c1 =>
      if c1.active then whileActive K c1 pX pY pTouchStart
      else .ok c1

/-- `release(pForce)` (lines 499-508). -/
def release (h : MobileHandler) (c : Controller) (pForce : Bool) :
    MobileHandler × Except Fault Controller :=
  if c.lockedDimension = .str "both" then (h, .ok c)
  else
    let afterReset : MobileHandler × Except Fault Controller :=
      if ¬ pForce then reset h c true else (h, .ok c)
    match afterReset with
    | (h1, .error f) => (h1, .error f)
    | (h1, .ok c1) =>
      let r := c1.joyring.setPos c1.joyring.originalPos.x c1.joyring.originalPos.y
      let s := c1.joystick.setPos c1.joystick.originalPos.x c1.joystick.originalPos.y
      (h1, handleTransition { c1 with joyring := r, joystick := s } true)

/-- `hide()` (lines 563-567). -/
def hide (h : MobileHandler) (c : Controller) : MobileHandler × Except Fault Controller :=
  reset h
    { c with
      joyring := { c.joyring with shown := false },
      joystick := { c.joystick with shown := false } } true

/-- The type read by `getType()` (lines 378-380), when the options are set. -/
def getType (c : Controller) : Option ControllerType :=
  match c.options with
  | .opts o => some o.type
  | _ => none

/-- The position at which the stick is drawn, `(joystick.xPos, joystick.yPos)`. -/
def joystickPos (c : Controller) : Pos := ⟨c.joystick.xPos, c.joystick.yPos⟩

/-- The position at which the ring is drawn, `(joyring.xPos, joyring.yPos)`. -/
def joyringPos (c : Controller) : Pos := ⟨c.joyring.xPos, c.joyring.yPos⟩

/-- The centre of the stick on screen: its position plus half its size. A touch at
`(pX, pY)` asks for the stick centred there (line 402). -/
def joystickCentre (c : Controller) : Pos :=
  ⟨c.joystick.xPos + c.joystick.halfSize, c.joystick.yPos + c.joystick.halfSize⟩

/-- The centre of the ring on screen: its position plus half its size. -/
def joyringCentre (c : Controller) : Pos :=
  ⟨c.joyring.xPos + c.joyring.halfSize, c.joyring.yPos + c.joyring.halfSize⟩

/-- The position of a stick centred on the ring, `joyring pos + joystick.halfSize` (the
expression of lines 454-455). -/
def joyringAnchor (c : Controller) : Pos :=
  ⟨c.joyring.xPos + c.joystick.halfSize, c.joyring.yPos + c.joystick.halfSize⟩

/-- The centre of the stick when it sits on the anchor `joystick.startPos` of a static or
traversal controller. -/
def anchorCentre (c : Controller) : Pos :=
  ⟨c.joystick.startPos.x + c.joystick.halfSize, c.joystick.startPos.y + c.joystick.halfSize⟩

/-- The local `startingPos` of line 483: the anchor the update measures from. -/
def startingPos (type : ControllerType) (c : Controller) : Pos :=
  if type = .stationary then c.joystick.originalPos else c.joystick.startPos

/-- Updates applied one after the other, stopping at the first fault. -/
def updates (K : Utils) (c : Controller) : List (ℚ × ℚ × Bool) → Except Fault Controller
  | [] => .ok c
  | (pX, pY, pTouchStart) :: rest =>
    match update K c pX pY pTouchStart with
    | .error f => .error f
    | .ok c1 => updates K c1 rest

end Controller

/-! ## Assumptions on the geometry kernel -/

namespace Utils

/-- Distances are not negative. -/
def DistanceNonneg (K : Utils) : Prop :=
  ∀ a b : Pos, 0 ≤ K.getDistance a b

/-- Walking a distance `d ≥ 0` from `o` towards `p` ends at distance `d` from `o`. -/
def RoundTrip (K : Utils) : Prop :=
  ∀ (o p : Pos) (d : ℚ), 0 ≤ d →
    K.getDistance o (K.calculateNewPositionFromDistanceAndAngle o d (K.getAngle o p)) = d

/-- Walking from `o` towards `p` the distance between them ends at `p`. -/
def Reconstructs (K : Utils) : Prop :=
  ∀ o p : Pos,
    K.calculateNewPositionFromDistanceAndAngle o (K.getDistance p o) (K.getAngle o p) = p

/-- Walking from `o` towards a point on the same horizontal (vertical) line, no farther than
that point, stays on the line. -/
def KeepsAxis (K : Utils) : Prop :=
  ∀ (o p : Pos) (d : ℚ), 0 ≤ d → d ≤ K.getDistance o p →
    (p.y = o.y → (K.calculateNewPositionFromDistanceAndAngle o d (K.getAngle o p)).y = o.y) ∧
    (p.x = o.x → (K.calculateNewPositionFromDistanceAndAngle o d (K.getAngle o p)).x = o.x)

/-- A point is at distance zero from itself. -/
def DistanceSelf (K : Utils) : Prop :=
  ∀ p : Pos, K.getDistance p p = 0

/-- Along a horizontal line the kernel is exact: the point `w > 0` to the right of `a` is at
distance `w`, and walking `d` from `a` towards it ends `d` to the right of `a`. -/
def ExactAlongHorizontal (K : Utils) : Prop :=
  ∀ (a : Pos) (w d : ℚ), 0 < w →
    K.getDistance a ⟨a.x + w, a.y⟩ = w ∧
    K.calculateNewPositionFromDistanceAndAngle a d (K.getAngle a ⟨a.x + w, a.y⟩) = ⟨a.x + d, a.y⟩

end Utils

/-! ## A rational kernel

A concrete kernel over `ℚ`, on which the functions above can be evaluated: the taxicab
metric with directions measured along the unit diamond. Along a horizontal or vertical line
it agrees with Euclidean geometry. -/

/-- The direction of `(dx, dy)` as a number in `[0, 4)`; `0` for the zero vector. -/
def diamondAngle (dx dy : ℚ) : ℚ :=
  if dx = 0 ∧ dy = 0 then 0
  else if 0 ≤ dy then
    if 0 ≤ dx then dy / (dx + dy) else 1 + (-dx) / (-dx + dy)
  else
    if dx < 0 then 2 + (-dy) / (-dx - dy) else 3 + dx / (dx - dy)

/-- The point of the unit diamond in direction `t`. -/
def diamondDir (t : ℚ) : Pos :=
  if t < 1 then ⟨1 - t, t⟩
  else if t < 2 then ⟨1 - t, 2 - t⟩
  else if t < 3 then ⟨t - 3, 2 - t⟩
  else ⟨t - 3, t - 4⟩

/-- The taxicab kernel. -/
def taxicab : Utils where
  getDistance a b := |b.x - a.x| + |b.y - a.y|
  getAngle a b := diamondAngle (b.x - a.x) (b.y - a.y)
  calculateNewPositionFromDistanceAndAngle o d t :=
    ⟨o.x + d * (diamondDir t).x, o.y + d * (diamondDir t).y⟩
  normalizeRanged v lo hi := if hi = lo then 0 else 2 * (v - lo) / (hi - lo) - 1
  convertRaWAngleToVyloCoords a := a

/-! ## The zone registry: conflicts, reachable states, invariant -/

/-- The value of the expression `new Controller(pOptions)`: the instance, unless `build`
threw. An early return inside `build` does not stop the constructor from returning the
instance (lines 115-117). -/
def Controller.BuildResult.instance? : Controller.BuildResult → Option Controller
  | .built c => some c
  | .rejected c => some c
  | .threw _ => none

/-- The condition under which `build` logs the zone error and returns (lines 294-300): the
validated type is static or traversal, some zone is reserved, and the `zone` option is falsy,
not a string, or already reserved. -/
def zoneConflict (h : MobileHandler) (p : RawOptions) : Prop :=
  ((Controller.checkType p.type).1 = .traversal ∨ (Controller.checkType p.type).1 = .static) ∧
  h.reservedScreenZones.length ≠ 0 ∧
  (¬ p.zone.truthy ∨ ¬ p.zone.isString ∨ p.zone ∈ h.reservedScreenZones)

instance (h : MobileHandler) (p : RawOptions) : Decidable (zoneConflict h p) := by
  unfold zoneConflict
  infer_instance

/-- The handler states reachable from the initial one by calls of `build` (the constructor
is `build` on a fresh instance) and of `reset`, made on any controller with any argument. -/
inductive Reachable : MobileHandler → Prop where
  | initial : Reachable MobileHandler.initial
  | build (h : MobileHandler) (c : Controller) (pOptions : Option RawOptions) :
      Reachable h → Reachable (Controller.build h c pOptions).1
  | reset (h : MobileHandler) (c : Controller) (pSoft : Bool) :
      Reachable h → Reachable (Controller.reset h c pSoft).1

/-- The invariant of the zone registry: no zone is reserved twice, only `'left'` and
`'right'` are reserved, and each of the two is reserved exactly when `zonedControllers` maps
it to a controller. -/
def ZoneInvariant (h : MobileHandler) : Prop :=
  h.reservedScreenZones.Nodup ∧
  (∀ z ∈ h.reservedScreenZones, z = .str "left" ∨ z = .str "right") ∧
  (.str "left" ∈ h.reservedScreenZones ↔ h.zonedLeft.isSome) ∧
  (.str "right" ∈ h.reservedScreenZones ↔ h.zonedRight.isSome)

/-! ## Sample controllers -/

/-- Options of size 100 at position (100, 100) with the callbacks `onRelease` and `onMove`
bound; the other fields take the values of the default options. -/
def demoOptions (type : String) (lockedDimension zone : JSVal) : RawOptions :=
  { RawOptions.default with
    type := .str type, lockedDimension := lockedDimension, zone := zone,
    callback := .bundle .null (.func 1) (.func 2) }

/-- The controller that `new Controller(demoOptions ...)` returns (see `new_demo_stationary`
and its siblings), written out field by field. -/
def demo (type : ControllerType) (lockedDimension zone : JSVal) : Controller where
  id := 0
  tween := .animating 1 (1 / 2) 500
  joyring := {
    atlasName := "", iconName := "", scale := 1, plane := 1, layer := 1, width := 100,
    height := 100, halfSize := 50, originalPos := ⟨100, 100⟩, onTouchBegin := .null,
    xPos := 100, yPos := 100, alpha := 1, shown := true }
  joystick := {
    atlasName := "", iconName := "", scale := 1, startPos := ⟨0, 0⟩, width := 50,
    height := 50, plane := 1, layer := 2, anglePoint := 0, halfSize := 25,
    originalPos := ⟨125, 125⟩, xPos := 125, yPos := 125, alpha := 1, shown := true }
  options := .opts {
    type := type, size := 100, position := ⟨100, 100⟩,
    lockedDimension := lockedDimension, zone := zone, inactiveAlpha := 1 / 2,
    transitionTime := 500, scale := 1, plane := 1, layer := 1, atlasName := "",
    joystickIconName := "", joyringIconName := "",
    callback := .bundle .null (.func 1) (.func 2) }
  lockedDimension := lockedDimension
  zone := zone
  activeInZone := false
  controllingFinger := none
  active := false
  onRelease := .func 1
  onMove := .func 2
  emitted := []

/-- The sample controller after a touch start at `(300, 300)`, for a static or traversal
type: ring at `(250, 250)`, stick and anchor at `(275, 275)`. -/
def demoTouched (type : ControllerType) (lockedDimension zone : JSVal) : Controller :=
  { demo type lockedDimension zone with
    tween := .idle
    active := true
    joyring := { (demo type lockedDimension zone).joyring with
      layer := MAX_LAYER, xPos := 250, yPos := 250 }
    joystick := { (demo type lockedDimension zone).joystick with
      layer := MAX_LAYER + 10, startPos := ⟨275, 275⟩, xPos := 275, yPos := 275 } }

/-- The traversal sample controller after a touch start at `(300, 300)` followed by
`lock('both')`. -/
def demoLockedBoth : Controller :=
  { demoTouched .traversal .null .null with lockedDimension := .str "both" }

/-- The handler after a first controller, number 0, has taken the zone `'left'`. -/
def oneZoned : MobileHandler :=
  { MobileHandler.initial with
    reservedScreenZones := [.str "left"], zonedLeft := some 0, activeControllers := [0] }

/-- The handler after a second controller, number 1, has taken the zone `'right'`. -/
def twoZoned : MobileHandler :=
  { MobileHandler.initial with
    reservedScreenZones := [.str "left", .str "right"], zonedLeft := some 0,
    zonedRight := some 1, activeControllers := [0, 1] }

/-! ## Readings of the controller state used in the statements -/

/-- Whether the axis lock covers the dimension `d`: `lockedDimension` is `d` itself or
`'both'`, the values `update` compares it with (lines 390, 418-421 and 461-464). -/
def Controller.lockedIn (c : Controller) (d : String) : Bool :=
  decide (c.lockedDimension = .str d ∨ c.lockedDimension = .str "both")

/-- The local `touchPos` of `update` as the branch taken leaves it (lines 402, 418-422 and
461-465): the stick position asked for, `(pX, pY)` less the stick's half size, with the locked
coordinate overwritten by the anchor's on a stationary or static controller. -/
def Controller.touchPosOf (type : ControllerType) (c : Controller) (pX pY : ℚ) : Pos :=
  match type with
  | .traversal => ⟨pX - c.joystick.halfSize, pY - c.joystick.halfSize⟩
  | _ =>
    Controller.lockTouchPos c.lockedDimension (Controller.startingPos type c)
      ⟨pX - c.joystick.halfSize, pY - c.joystick.halfSize⟩

/-! ## Sequences of dispatcher calls -/

/-- A call the touch dispatcher makes on a controller: `update(pX, pY, pTouchStart)` or
`release(pForce)`. -/
inductive TouchCall where
  | update (pX pY : ℚ) (pTouchStart : Bool)
  | release (pForce : Bool)
  deriving DecidableEq, Repr

/-- One call of `update` or `release` on a controller. -/
def Controller.perform (K : Utils) (h : MobileHandler) (c : Controller) :
    TouchCall → MobileHandler × Except Fault Controller
  | .update pX pY pTouchStart => (h, Controller.update K c pX pY pTouchStart)
  | .release pForce => Controller.release h c pForce

/-- Calls of `update` and `release` made one after the other, stopping at the first fault. -/
def Controller.performAll (K : Utils) (h : MobileHandler) (c : Controller) :
    List TouchCall → MobileHandler × Except Fault Controller
  | [] => (h, .ok c)
  | call :: rest =>
    match Controller.perform K h c call with
    | (h1, .error f) => (h1, .error f)
    | (h1, .ok c1) => Controller.performAll K h1 c1 rest

/-! ## The documented defaults

The validation of the options as the documentation of `build` words it, field by field, to
be compared with what `build` stores. -/

/-- An option documented as "the given value if it is an integer, else the default". -/
def documentedInteger (v : JSVal) (dflt : ℚ) : ℚ :=
  match v with
  | .num q => if q.den = 1 then q else dflt
  | _ => dflt

/-- An option documented as "the given number, else the default". -/
def documentedNumber (v : JSVal) (dflt : ℚ) : ℚ :=
  match v with
  | .num q => q
  | _ => dflt

/-- An option documented as "the given string, else `''`". -/
def documentedString (v : JSVal) : String :=
  match v with
  | .str s => s
  | _ => ""

/-- The type: the given value if it is `'stationary'`, `'static'` or `'traversal'`, else
`'stationary'`. -/
def documentedType (v : JSVal) : ControllerType :=
  if v = .str "static" then .static
  else if v = .str "traversal" then .traversal
  else .stationary

/-- The position: `x` and `y` the given values if integers, else 100; `{100, 100}` if the
position is not a plain object. -/
def documentedPosition (p : PositionArg) : Pos :=
  match p with
  | .plain x y => ⟨documentedInteger x 100, documentedInteger y 100⟩
  | _ => ⟨100, 100⟩

/-! ## Further assumptions on the geometry kernel -/

/-- Two points are no farther apart along either axis than their distance. -/
def Utils.AxisDominated (K : Utils) : Prop :=
  ∀ a b : Pos, |b.x - a.x| ≤ K.getDistance a b ∧ |b.y - a.y| ≤ K.getDistance a b

/-- A value inside the window `[lo, hi]` is normalised into `[-1, 1]`. -/
def Utils.NormalizeWithin (K : Utils) : Prop :=
  ∀ v lo hi : ℚ, lo ≤ v → v ≤ hi →
    -1 ≤ K.normalizeRanged v lo hi ∧ K.normalizeRanged v lo hi ≤ 1

/-! ## More sample states -/

/-- The static sample controller after a touch start at `(300, 300)` and a drag to
`(300, 340)` under the taxicab kernel (see `update_demoTouched_drag`): the stick is drawn at
`(275, 315)`, the stored angle is 1, and `onMove` has been called once. -/
def demoDragged : Controller :=
  { demoTouched .static .null .null with
    joystick := { (demoTouched .static .null .null).joystick with
      xPos := 275, yPos := 315, anglePoint := 1 }
    emitted := [.onMove 0 (-4 / 5) 1 false] }

/-- The handler `oneZoned` once the ring of controller 0 is among the touched instances. -/
def oneZonedTouched : MobileHandler :=
  { oneZoned with touchedInstances := [0] }

/-- The static sample controller holding the zone `'left'`, touched at `(300, 300)` by the
finger 7. -/
def demoHeld : Controller :=
  { demoTouched .static .null (.str "left") with controllingFinger := some 7 }

/-- Options with several invalid fields: `size` a string, `type` a number, `position.y` a
fraction, `inactiveAlpha` null, `scale` a fraction, `layer` a string, `atlasName` a number;
the other fields valid. -/
def mixedOptions : RawOptions :=
  { type := .num 3, size := .str "big", position := .plain (.num 7) (.num (1 / 2)),
    lockedDimension := .str "diagonal", zone := .str "left", inactiveAlpha := .null,
    transitionTime := .num 250, scale := .num (3 / 2), plane := .num 4, layer := .str "top",
    atlasName := .num 0, joystickIconName := .str "stick", joyringIconName := .str "ring",
    callback := .bundle .null (.func 1) (.func 2) }

/-! ## A last assumption on the geometry kernel -/

/-- The distance between two points does not depend on their order. -/
def Utils.DistanceSymm (K : Utils) : Prop :=
  ∀ a b : Pos, K.getDistance a b = K.getDistance b a

/-! ### The taxicab kernel satisfies the assumptions -/

theorem diamondDir_diamondAngle (dx dy : ℚ) (h : ¬ (dx = 0 ∧ dy = 0)) :
    diamondDir (diamondAngle dx dy) = ⟨dx / (|dx| + |dy|), dy / (|dx| + |dy|)⟩ := by
  unfold diamondAngle
  rw [if_neg h]
  by_cases hy : 0 ≤ dy
  · rw [if_pos hy]
    by_cases hx : 0 ≤ dx
    · rw [if_pos hx, abs_of_nonneg hx, abs_of_nonneg hy]
      have hs : 0 < dx + dy := by
        rcases lt_or_eq_of_le hx with h1 | h1
        · linarith
        · rcases lt_or_eq_of_le hy with h2 | h2
          · linarith
          · exact absurd ⟨h1.symm, h2.symm⟩ h
      by_cases h0 : dx = 0
      · subst h0
        have hy0 : dy ≠ 0 := fun e => h ⟨rfl, e⟩
        have : dy / (0 + dy) = 1 := by rw [zero_add]; exact div_self hy0
        rw [this]
        simp [diamondDir]
        norm_num
      · have hxpos : 0 < dx := lt_of_le_of_ne hx (Ne.symm h0)
        have hlt : dy / (dx + dy) < 1 := by rw [div_lt_one hs]; linarith
        unfold diamondDir
        rw [if_pos hlt]
        congr 1
        field_simp
    · rw [if_neg hx]
      have hx' : dx < 0 := lt_of_not_ge hx
      rw [abs_of_neg hx', abs_of_nonneg hy]
      have hs : 0 < -dx + dy := by linarith
      have hs' : -dx + dy ≠ 0 := ne_of_gt hs
      have hge : 0 ≤ -dx / (-dx + dy) := div_nonneg (by linarith) (le_of_lt hs)
      by_cases h0 : dy = 0
      · subst h0
        have : -dx / (-dx + 0) = 1 := by rw [add_zero]; exact div_self (by linarith)
        rw [this]
        unfold diamondDir
        norm_num
        have hdx : dx ≠ 0 := ne_of_lt hx'
        rw [div_neg, div_self hdx]
      · have hypos : 0 < dy := lt_of_le_of_ne hy (Ne.symm h0)
        have hlt : -dx / (-dx + dy) < 1 := by rw [div_lt_one hs]; linarith
        unfold diamondDir
        rw [if_neg (by linarith), if_pos (by linarith)]
        congr 1
        · field_simp
        · field_simp
          ring
  · rw [if_neg hy]
    have hy' : dy < 0 := lt_of_not_ge hy
    by_cases hx : dx < 0
    · rw [if_pos hx, abs_of_neg hx, abs_of_neg hy']
      have hs : 0 < -dx - dy := by linarith
      have hs2 : -dx + -dy = -dx - dy := by ring
      have hge : 0 ≤ -dy / (-dx - dy) := div_nonneg (by linarith) (le_of_lt hs)
      have hlt : -dy / (-dx - dy) < 1 := by rw [div_lt_one hs]; linarith
      unfold diamondDir
      rw [if_neg (by linarith), if_neg (by linarith), if_pos (by linarith), hs2]
      have hs' : -dx - dy ≠ 0 := ne_of_gt hs
      congr 1
      · field_simp
        ring
      · field_simp
    · rw [if_neg hx]
      have hx' : 0 ≤ dx := le_of_not_lt hx
      rw [abs_of_nonneg hx', abs_of_neg hy']
      have hs : 0 < dx - dy := by linarith
      have hs2 : dx + -dy = dx - dy := by ring
      have hge : 0 ≤ dx / (dx - dy) := div_nonneg hx' (le_of_lt hs)
      unfold diamondDir
      rw [if_neg (by linarith), if_neg (by linarith), if_neg (by linarith), hs2]
      have hs' : dx - dy ≠ 0 := ne_of_gt hs
      congr 1
      · ring
      · field_simp
        ring

theorem diamondDir_zero : diamondDir (diamondAngle 0 0) = ⟨1, 0⟩ := by
  simp [diamondAngle, diamondDir]


theorem diamondDir_norm (dx dy : ℚ) :
    |(diamondDir (diamondAngle dx dy)).x| + |(diamondDir (diamondAngle dx dy)).y| = 1 := by
  by_cases h : dx = 0 ∧ dy = 0
  · obtain ⟨rfl, rfl⟩ := h
    rw [diamondDir_zero]
    norm_num
  · rw [diamondDir_diamondAngle dx dy h]
    have hs : 0 < |dx| + |dy| := by
      by_contra hc
      have h1 : |dx| + |dy| = 0 := le_antisymm (not_lt.mp hc) (by positivity)
      have h2 : |dx| = 0 := by linarith [abs_nonneg dx, abs_nonneg dy]
      have h3 : |dy| = 0 := by linarith [abs_nonneg dx, abs_nonneg dy]
      exact h ⟨abs_eq_zero.mp h2, abs_eq_zero.mp h3⟩
    show |dx / (|dx| + |dy|)| + |dy / (|dx| + |dy|)| = 1
    rw [abs_div, abs_div, abs_of_pos hs, ← add_div, div_self (ne_of_gt hs)]

theorem taxicab_distanceNonneg : taxicab.DistanceNonneg := by
  intro a b
  show 0 ≤ |b.x - a.x| + |b.y - a.y|
  positivity

theorem taxicab_roundTrip : taxicab.RoundTrip := by
  intro o p d hd
  show |o.x + d * (diamondDir (diamondAngle (p.x - o.x) (p.y - o.y))).x - o.x|
      + |o.y + d * (diamondDir (diamondAngle (p.x - o.x) (p.y - o.y))).y - o.y| = d
  rw [add_sub_cancel_left, add_sub_cancel_left, abs_mul, abs_mul, abs_of_nonneg hd, ← mul_add,
    diamondDir_norm, mul_one]

theorem taxicab_reconstructs : taxicab.Reconstructs := by
  intro o p
  show (⟨o.x + (|o.x - p.x| + |o.y - p.y|) * (diamondDir (diamondAngle (p.x - o.x) (p.y - o.y))).x,
      o.y + (|o.x - p.x| + |o.y - p.y|) * (diamondDir (diamondAngle (p.x - o.x) (p.y - o.y))).y⟩ : Pos) = p
  obtain ⟨px, py⟩ := p
  obtain ⟨ox, oy⟩ := o
  simp only
  by_cases h : px - ox = 0 ∧ py - oy = 0
  · obtain ⟨h1, h2⟩ := h
    have e1 : ox - px = 0 := by linarith
    have e2 : oy - py = 0 := by linarith
    rw [e1, e2]
    simp only [abs_zero, add_zero, zero_mul]
    congr 1 <;> linarith
  · rw [diamondDir_diamondAngle _ _ h, abs_sub_comm ox px, abs_sub_comm oy py]
    have hs : |px - ox| + |py - oy| ≠ 0 := by
      intro hc
      have h2 : |px - ox| = 0 := by linarith [abs_nonneg (px - ox), abs_nonneg (py - oy)]
      have h3 : |py - oy| = 0 := by linarith [abs_nonneg (px - ox), abs_nonneg (py - oy)]
      exact h ⟨abs_eq_zero.mp h2, abs_eq_zero.mp h3⟩
    congr 1
    · show ox + (|px - ox| + |py - oy|) * ((px - ox) / (|px - ox| + |py - oy|)) = px
      rw [mul_div_cancel₀ _ hs]; ring
    · show oy + (|px - ox| + |py - oy|) * ((py - oy) / (|px - ox| + |py - oy|)) = py
      rw [mul_div_cancel₀ _ hs]; ring

theorem taxicab_keepsAxis : taxicab.KeepsAxis := by
  intro o p d hd hle
  have hle' : d ≤ |p.x - o.x| + |p.y - o.y| := hle
  constructor
  · intro hy
    show o.y + d * (diamondDir (diamondAngle (p.x - o.x) (p.y - o.y))).y = o.y
    have e : p.y - o.y = 0 := by linarith
    rw [e]
    by_cases h : p.x - o.x = 0
    · rw [h, diamondDir_zero]; simp
    · rw [diamondDir_diamondAngle _ _ (fun hc => h hc.1)]; simp
  · intro hx
    show o.x + d * (diamondDir (diamondAngle (p.x - o.x) (p.y - o.y))).x = o.x
    have e : p.x - o.x = 0 := by linarith
    rw [e] at hle' ⊢
    by_cases h : p.y - o.y = 0
    · rw [h] at hle'
      simp at hle'
      have hd0 : d = 0 := le_antisymm hle' hd
      rw [hd0]; simp
    · rw [diamondDir_diamondAngle _ _ (fun hc => h hc.2)]; simp

open Controller

/-! ## Lemmas on the stages of `update` -/

theorem handleTransition_opts (c : Controller) (o : Options) (pFade : Bool)
    (h : c.options = .opts o) :
    ∃ tw, c.handleTransition pFade = .ok { c with tween := tw } := by
  cases c
  simp only at h
  subst h
  unfold handleTransition
  simp only
  split_ifs <;> exact ⟨_, rfl⟩

theorem beginTouch_opts (c : Controller) (o : Options) (h : c.options = .opts o) :
    ∃ tw, c.beginTouch = .ok { c with
      tween := tw,
      joyring := { c.joyring with layer := MAX_LAYER },
      joystick := { c.joystick with layer := MAX_LAYER + 10 },
      active := true } := by
  obtain ⟨tw, htw⟩ := handleTransition_opts c o false h
  exact ⟨tw, by unfold beginTouch; rw [htw]⟩

@[simp] theorem lockTouchPos_null (startPos touchPos : Pos) :
    lockTouchPos .null startPos touchPos = touchPos := by
  simp [lockTouchPos]

theorem clamp_distance (K : Utils) (hK : K.RoundTrip) (hN : K.DistanceNonneg)
    (a t : Pos) (r : ℚ) (hr : 0 ≤ r) :
    K.getDistance a (clamp K a t r).clampedPos = min (K.getDistance a t) r := by
  unfold clamp
  exact hK a t _ (le_min (hN a t) hr)

@[simp] theorem afterPosition_joystickPos (K : Utils) (c : Controller) (sp tp : Pos)
    (m : Clamp) : (afterPosition K c sp tp m).joystickPos = c.joystickPos := by
  unfold afterPosition joystickPos
  simp only
  split <;> rfl

@[simp] theorem afterPosition_joyring (K : Utils) (c : Controller) (sp tp : Pos) (m : Clamp) :
    (afterPosition K c sp tp m).joyring = c.joyring := by
  unfold afterPosition
  simp only
  split <;> rfl

@[simp] theorem afterPosition_startPos (K : Utils) (c : Controller) (sp tp : Pos) (m : Clamp) :
    (afterPosition K c sp tp m).joystick.startPos = c.joystick.startPos := by
  unfold afterPosition
  simp only
  split <;> rfl

@[simp] theorem afterPosition_halfSize (K : Utils) (c : Controller) (sp tp : Pos) (m : Clamp) :
    (afterPosition K c sp tp m).joystick.halfSize = c.joystick.halfSize := by
  unfold afterPosition
  simp only
  split <;> rfl

@[simp] theorem afterPosition_xPos (K : Utils) (c : Controller) (sp tp : Pos) (m : Clamp) :
    (afterPosition K c sp tp m).joystick.xPos = c.joystick.xPos := by
  unfold afterPosition
  simp only
  split <;> rfl

@[simp] theorem afterPosition_yPos (K : Utils) (c : Controller) (sp tp : Pos) (m : Clamp) :
    (afterPosition K c sp tp m).joystick.yPos = c.joystick.yPos := by
  unfold afterPosition
  simp only
  split <;> rfl

@[simp] theorem afterPosition_originalPos (K : Utils) (c : Controller) (sp tp : Pos) (m : Clamp) :
    (afterPosition K c sp tp m).joystick.originalPos = c.joystick.originalPos := by
  unfold afterPosition
  simp only
  split <;> rfl

@[simp] theorem afterPosition_lockedDimension (K : Utils) (c : Controller) (sp tp : Pos)
    (m : Clamp) : (afterPosition K c sp tp m).lockedDimension = c.lockedDimension := by
  unfold afterPosition
  simp only
  split <;> rfl

@[simp] theorem afterPosition_options (K : Utils) (c : Controller) (sp tp : Pos)
    (m : Clamp) : (afterPosition K c sp tp m).options = c.options := by
  unfold afterPosition
  simp only
  split <;> rfl

@[simp] theorem afterPosition_active (K : Utils) (c : Controller) (sp tp : Pos)
    (m : Clamp) : (afterPosition K c sp tp m).active = c.active := by
  unfold afterPosition
  simp only
  split <;> rfl


@[simp] theorem touchStart_joystickPos (c : Controller) (tp : Pos) :
    (touchStart c tp).joystickPos = tp := by
  simp [touchStart, joystickPos, Joystick.setPos]

@[simp] theorem touchStart_joyringAnchor (c : Controller) (tp : Pos) :
    (touchStart c tp).joyringAnchor = tp := by
  simp [touchStart, joyringAnchor, Joystick.setPos, Joyring.setPos]

@[simp] theorem touchStart_startPos (c : Controller) (tp : Pos) :
    (touchStart c tp).joystick.startPos = tp := by
  simp [touchStart, Joystick.setPos]

@[simp] theorem traverse_joystickPos (K : Utils) (c : Controller) (tp : Pos) :
    (Controller.traverse K c tp).joystickPos = tp := by
  simp only [Controller.traverse, joystickPos, afterPosition_xPos, afterPosition_yPos,
    Joystick.setPos]
  split_ifs <;> rfl

theorem traverse_joyringAnchor (K : Utils) (c : Controller) (tp : Pos) :
    (Controller.traverse K c tp).joyringAnchor =
      K.calculateNewPositionFromDistanceAndAngle tp
        (min (K.getDistance c.joystick.startPos tp) c.joyring.halfSize)
        (K.getAngle tp c.joystick.startPos) := by
  simp only [Controller.traverse, joyringAnchor, afterPosition_joyring, afterPosition_halfSize,
    Joystick.setPos, Joyring.setPos, clamp]
  split_ifs <;> simp

theorem traverse_startPos (K : Utils) (c : Controller) (tp : Pos) :
    (Controller.traverse K c tp).joystick.startPos =
      if min (K.getDistance c.joystick.startPos tp) c.joyring.halfSize
          < K.getDistance c.joystick.startPos tp then
        K.calculateNewPositionFromDistanceAndAngle tp
          (min (K.getDistance c.joystick.startPos tp) c.joyring.halfSize)
          (K.getAngle tp c.joystick.startPos)
      else c.joystick.startPos := by
  simp only [Controller.traverse, afterPosition_startPos, Joystick.setPos, Joyring.setPos, clamp,
    gt_iff_lt]
  split_ifs <;> simp


/-! ## Lemmas on the sample controllers -/


theorem taxicab_distanceSelf : taxicab.DistanceSelf := by
  intro p
  show |p.x - p.x| + |p.y - p.y| = 0
  simp

theorem taxicab_exactAlongHorizontal : taxicab.ExactAlongHorizontal := by
  intro a w d hw
  constructor
  · show |a.x + w - a.x| + |a.y - a.y| = w
    rw [add_sub_cancel_left, sub_self, abs_zero, add_zero, abs_of_pos hw]
  · show (⟨a.x + d * (diamondDir (diamondAngle (a.x + w - a.x) (a.y - a.y))).x,
        a.y + d * (diamondDir (diamondAngle (a.x + w - a.x) (a.y - a.y))).y⟩ : Pos) = ⟨a.x + d, a.y⟩
    rw [add_sub_cancel_left, sub_self, diamondDir_diamondAngle w 0 (fun h => (ne_of_gt hw) h.1)]
    simp [abs_of_pos hw, ne_of_gt hw]

theorem new_demo_stationary :
    Controller.new MobileHandler.initial 0 (some (demoOptions "stationary" .null .null))
      = ({ MobileHandler.initial with activeControllers := [0] }, .built (demo .stationary .null .null)) := by
  simp [Controller.new, build, demoOptions, RawOptions.default, checkSize, checkType, claimZone,
    checkString, checkLockedDimension, checkScale, checkPosition, checkNumber, setup,
    Controller.fresh, Joyring.fresh, Joystick.fresh, lock, show', handleTransition,
    JSVal.asInteger?, JSVal.asString?, JSVal.asNumber?, JSVal.truthy, JSVal.isString,
    Joyring.setPos, Joystick.setPos, MobileHandler.initial, Rat.isInt, demo]
  norm_num

theorem new_demo_traversal :
    Controller.new MobileHandler.initial 0 (some (demoOptions "traversal" .null .null))
      = ({ MobileHandler.initial with activeControllers := [0] }, .built (demo .traversal .null .null)) := by
  simp [Controller.new, build, demoOptions, RawOptions.default, checkSize, checkType, claimZone,
    checkString, checkLockedDimension, checkScale, checkPosition, checkNumber, setup,
    Controller.fresh, Joyring.fresh, Joystick.fresh, lock, show', handleTransition,
    JSVal.asInteger?, JSVal.asString?, JSVal.asNumber?, JSVal.truthy, JSVal.isString,
    Joyring.setPos, Joystick.setPos, MobileHandler.initial, Rat.isInt, demo]
  norm_num

theorem update_demo_touchStart (K : Utils) (type : ControllerType) (ld z : JSVal)
    (ht : type ≠ .stationary) (hl : ld ≠ .str "both") :
    update K (demo type ld z) 300 300 true = .ok (demoTouched type ld z) := by
  cases type
  · exact absurd rfl ht
  · simp [update, hl, beginTouch, handleTransition, whileActive, demo, demoTouched, touchStart,
      Joystick.setPos, Joyring.setPos]
    norm_num
  · simp [update, hl, beginTouch, handleTransition, whileActive, demo, demoTouched, touchStart,
      Joystick.setPos, Joyring.setPos]
    norm_num

/-! ## C1: stationary and static controllers clamp the stick to the radius -/

/-- C1. For a stationary controller that is active during the update (already active, or the
update is a touch start) and for an active static controller on an update that is not a touch
start, with radius `joyring.halfSize ≥ 0` and not locked on both axes: `update` succeeds and
draws the stick at a point whose distance from the anchor equals
`min (distance anchor touch) radius`, where `touch` is the touch position (the stick position
asked for, `(pX, pY)` less the stick's half size) with the locked coordinate overwritten by the
anchor's; so the distance never exceeds the radius. The anchor is `joystick.originalPos` for
a stationary controller and `joystick.startPos` for a static one. The kernel is assumed to
return non-negative distances and to satisfy the round-trip law. -/
theorem update_clamps_joystick_to_radius (K : Utils) (hK : K.RoundTrip)
    (hN : K.DistanceNonneg) (c : Controller) (o : Options) (pX pY : ℚ) (pTouchStart : Bool)
    (hopts : c.options = .opts o)
    (hlock : c.lockedDimension ≠ .str "both")
    (hr : 0 ≤ c.joyring.halfSize)
    (hmode : (o.type = .stationary ∧ (c.active = true ∨ pTouchStart = true)) ∨
      (o.type = .static ∧ c.active = true ∧ pTouchStart = false)) :
    ∃ c', update K c pX pY pTouchStart = .ok c' ∧
      K.getDistance (startingPos o.type c) c'.joystickPos
        = min (K.getDistance (startingPos o.type c)
            (lockTouchPos c.lockedDimension (startingPos o.type c)
              ⟨pX - c.joystick.halfSize, pY - c.joystick.halfSize⟩))
            c.joyring.halfSize ∧
      K.getDistance (startingPos o.type c) c'.joystickPos ≤ c.joyring.halfSize := by
  rcases hmode with ⟨ht, hact⟩ | ⟨ht, hact, hts⟩
  · have hcl := clamp_distance K hK hN c.joystick.originalPos
      (lockTouchPos c.lockedDimension c.joystick.originalPos
        ⟨pX - c.joystick.halfSize, pY - c.joystick.halfSize⟩) c.joyring.halfSize hr
    cases pTouchStart
    · have ha : c.active = true := by simpa using hact
      refine ⟨_, by simp [update, whileActive, hlock, ha, hopts, ht]; rfl, ?_⟩
      simp only [startingPos, ht, if_true, afterPosition_joystickPos]
      simp only [joystickPos, Joystick.setPos]
      exact ⟨hcl, hcl ▸ min_le_right _ _⟩
    · obtain ⟨tw, hb⟩ := beginTouch_opts c o hopts
      refine ⟨_, by simp [update, whileActive, hlock, hb, hopts, ht]; rfl, ?_⟩
      simp only [startingPos, ht, if_true, afterPosition_joystickPos]
      simp only [joystickPos, Joystick.setPos]
      exact ⟨hcl, hcl ▸ min_le_right _ _⟩
  · subst hts
    have hne : o.type ≠ .stationary := by rw [ht]; decide
    have hcl := clamp_distance K hK hN c.joystick.startPos
      (lockTouchPos c.lockedDimension c.joystick.startPos
        ⟨pX - c.joystick.halfSize, pY - c.joystick.halfSize⟩) c.joyring.halfSize hr
    refine ⟨_, by simp [update, whileActive, hlock, hact, hopts, ht]; rfl, ?_⟩
    simp only [startingPos, hne, if_false, afterPosition_joystickPos]
    simp only [joystickPos, Joystick.setPos]
    exact ⟨hcl, hcl ▸ min_le_right _ _⟩

/-- C1 at a concrete input: the stationary sample controller (size 100, so radius 50, as
built by the constructor), horizontally locked, first touched at `(250, 180)` under the taxicab
kernel. The locked touch position is `(225, 125)`, at distance 100 from the anchor
`(125, 125)`, and the stick is drawn at distance `min 100 50 = 50`. -/
theorem update_clamps_joystick_to_radius_witness :
    (Controller.new MobileHandler.initial 0
        (some (demoOptions "stationary" (.str "horizontal") .null))).2
      = .built (demo .stationary (.str "horizontal") .null) ∧
    (demo .stationary (.str "horizontal") .null).joyring.halfSize = 100 / 2 ∧
    ∃ c', update taxicab (demo .stationary (.str "horizontal") .null) 250 180 true = .ok c' ∧
      taxicab.getDistance ⟨125, 125⟩ c'.joystickPos = min 100 50 ∧
      taxicab.getDistance ⟨125, 125⟩ c'.joystickPos ≤ 50 := by
  refine ⟨?_, by norm_num [demo], ?_⟩
  · simp [Controller.new, build, demoOptions, RawOptions.default, checkSize, checkType,
      claimZone, checkString, checkLockedDimension, checkScale, checkPosition, checkNumber,
      setup, Controller.fresh, Joyring.fresh, Joystick.fresh, lock, show', handleTransition,
      JSVal.asInteger?, JSVal.asString?, JSVal.asNumber?, JSVal.truthy, JSVal.isString,
      Joyring.setPos, Joystick.setPos, MobileHandler.initial, Rat.isInt, demo, toLowerCase]
    norm_num
  · obtain ⟨c', h1, h2, h3⟩ := update_clamps_joystick_to_radius taxicab taxicab_roundTrip
      taxicab_distanceNonneg (demo .stationary (.str "horizontal") .null) _ 250 180 true rfl
      (by decide) (by norm_num [demo]) (Or.inl ⟨rfl, Or.inr rfl⟩)
    norm_num [startingPos, demo, lockTouchPos, taxicab] at h2 h3
    refine ⟨c', h1, ?_, ?_⟩
    · norm_num [taxicab]
      exact h2
    · norm_num [taxicab]
      exact h3

/-! ## C2: a traversal controller draws the stick at the touch and trails the ring -/

/-- C2, refuted as stated. A traversal controller can be locked: the sample traversal
controller, touched at `(300, 300)` and then locked with `lock('both')`, is an active
traversal controller with radius 50, and for every kernel its update to `(330, 420)` returns
at the guard of line 390 without any change: the stick stays at `(275, 275)` instead of the
touch position `(305, 395)`. -/
theorem traversal_locked_on_both_axes_ignores_update :
    update taxicab (demo .traversal .null .null) 300 300 true
      = .ok (demoTouched .traversal .null .null) ∧
    (demoTouched .traversal .null .null).lock (.str "both") = .ok demoLockedBoth ∧
    demoLockedBoth.getType = some .traversal ∧
    demoLockedBoth.active = true ∧
    demoLockedBoth.joyring.halfSize = 50 ∧
    (∀ K : Utils, update K demoLockedBoth 330 420 false = .ok demoLockedBoth) ∧
    demoLockedBoth.joystickPos = ⟨275, 275⟩ ∧
    demoLockedBoth.joystickPos
      ≠ ⟨330 - demoLockedBoth.joystick.halfSize, 420 - demoLockedBoth.joystick.halfSize⟩ := by
  refine ⟨update_demo_touchStart taxicab .traversal .null .null (by decide) (by decide),
    ?_, rfl, rfl, rfl, ?_, rfl, ?_⟩
  · simp [lock, JSVal.truthy, JSVal.isString, demoLockedBoth, toLowerCase]
  · intro K
    simp [update, demoLockedBoth]
  · norm_num [demoLockedBoth, demoTouched, demo, joystickPos]

/-- C2, amended by the condition that the controller is not locked on both axes. For a
traversal controller with radius `joyring.halfSize ≥ 0` that is not locked on
both axes. On an update that is not a touch start, if the controller is active, the stick is
drawn exactly at the (unclamped) touch position, and the ring is placed so that the distance
between the stick and the ring's centre point (`joyringAnchor`, the stick position centred on
the ring) is `min (distance anchor touch) radius`; it never exceeds the radius and is the
radius whenever the touch is farther than the radius from the anchor. On a touch start the
ring's centre point coincides with the stick, so their distance is 0. The kernel is assumed
to return non-negative distances, distance 0 from a point to itself, and to satisfy the
round-trip law. -/
theorem traversal_ring_trails_joystick (K : Utils) (hK : K.RoundTrip)
    (hN : K.DistanceNonneg) (hZ : K.DistanceSelf)
    (c : Controller) (o : Options) (pX pY : ℚ)
    (hopts : c.options = .opts o) (ht : o.type = .traversal)
    (hlock : c.lockedDimension ≠ .str "both") (hr : 0 ≤ c.joyring.halfSize) :
    (c.active = true →
      ∃ c', update K c pX pY false = .ok c' ∧
        c'.joystickPos = ⟨pX - c.joystick.halfSize, pY - c.joystick.halfSize⟩ ∧
        K.getDistance c'.joystickPos c'.joyringAnchor
          = min (K.getDistance c.joystick.startPos
              ⟨pX - c.joystick.halfSize, pY - c.joystick.halfSize⟩) c.joyring.halfSize ∧
        K.getDistance c'.joystickPos c'.joyringAnchor ≤ c.joyring.halfSize ∧
        (c.joyring.halfSize < K.getDistance c.joystick.startPos
            ⟨pX - c.joystick.halfSize, pY - c.joystick.halfSize⟩ →
          K.getDistance c'.joystickPos c'.joyringAnchor = c.joyring.halfSize)) ∧
    (∃ c', update K c pX pY true = .ok c' ∧
        c'.joystickPos = ⟨pX - c.joystick.halfSize, pY - c.joystick.halfSize⟩ ∧
        c'.joyringAnchor = c'.joystickPos ∧
        K.getDistance c'.joystickPos c'.joyringAnchor = 0) := by
  constructor
  · intro hact
    refine ⟨_, by simp [update, whileActive, hlock, hact, hopts, ht]; rfl, ?_⟩
    have key := hK ⟨pX - c.joystick.halfSize, pY - c.joystick.halfSize⟩ c.joystick.startPos
        (min (K.getDistance c.joystick.startPos
              ⟨pX - c.joystick.halfSize, pY - c.joystick.halfSize⟩) c.joyring.halfSize)
        (le_min (hN _ _) hr)
    rw [traverse_joystickPos, traverse_joyringAnchor]
    refine ⟨rfl, key, ?_, ?_⟩
    · rw [key]; exact min_le_right _ _
    · intro hlt
      rw [key]; exact min_eq_right (le_of_lt hlt)
  · obtain ⟨tw, hb⟩ := beginTouch_opts c o hopts
    refine ⟨_, by simp [update, whileActive, hlock, hb, hopts, ht]; rfl, ?_⟩
    rw [touchStart_joystickPos, touchStart_joyringAnchor]
    exact ⟨rfl, rfl, hZ _⟩

/-- C2, amended, at a concrete input: the traversal sample controller (radius 50) after a
touch start at `(300, 300)`, dragged to `(330, 420)` under the taxicab kernel. The touch position
`(305, 395)` is at distance 150 from the anchor `(275, 275)`; the stick is drawn at
`(305, 395)` and the ring's centre point is at distance 50 from it. A touch start at
`(330, 420)` puts both at `(305, 395)`. -/
theorem traversal_ring_trails_joystick_witness :
    update taxicab (demo .traversal .null .null) 300 300 true
      = .ok (demoTouched .traversal .null .null) ∧
    (∃ c', update taxicab (demoTouched .traversal .null .null) 330 420 false = .ok c' ∧
      c'.joystickPos = ⟨305, 395⟩ ∧
      taxicab.getDistance c'.joystickPos c'.joyringAnchor = 50) ∧
    (∃ c', update taxicab (demoTouched .traversal .null .null) 330 420 true = .ok c' ∧
      c'.joystickPos = ⟨305, 395⟩ ∧ c'.joyringAnchor = ⟨305, 395⟩ ∧
      taxicab.getDistance c'.joystickPos c'.joyringAnchor = 0) := by
  have h := traversal_ring_trails_joystick taxicab taxicab_roundTrip taxicab_distanceNonneg
    taxicab_distanceSelf (demoTouched .traversal .null .null) _ 330 420 rfl rfl (by decide)
    (by norm_num [demoTouched, demo])
  refine ⟨update_demo_touchStart taxicab .traversal .null .null (by decide) (by decide), ?_, ?_⟩
  · obtain ⟨c', h1, h2, h3, -, h5⟩ := h.1 rfl
    norm_num [demoTouched, demo, taxicab] at h2 h5
    refine ⟨c', h1, h2, ?_⟩
    norm_num [taxicab]
    exact h5
  · obtain ⟨c', h1, h2, h3, h4⟩ := h.2
    norm_num [demoTouched, demo] at h2
    exact ⟨c', h1, h2, h3.trans h2, h4⟩

/-! ## C3: the anchor of a traversal controller follows once the leash is taut -/

/-- C3, refuted as stated. Two updates of a traversal controller that are not touch starts
and leave the anchor where it is, although the touch position is farther from it than the
radius 50. The sample controller that was never touched is not active: its update to
`(400, 300)` does nothing for every kernel, and the anchor stays `(0, 0)`, at taxicab distance
650 from the touch position `(375, 275)`. The controller touched at `(300, 300)` and then
locked on both axes returns at line 390 for every kernel, and the anchor stays `(275, 275)`,
at distance 100 from the touch position. -/
theorem traversal_anchor_stays_when_update_is_skipped :
    (demo .traversal .null .null).getType = some .traversal ∧
    (∀ K : Utils, update K (demo .traversal .null .null) 400 300 false
      = .ok (demo .traversal .null .null)) ∧
    (demo .traversal .null .null).joystick.startPos = ⟨0, 0⟩ ∧
    taxicab.getDistance ⟨0, 0⟩ ⟨400 - 25, 300 - 25⟩ = 650 ∧
    demoLockedBoth.getType = some .traversal ∧
    (∀ K : Utils, update K demoLockedBoth 400 300 false = .ok demoLockedBoth) ∧
    demoLockedBoth.joystick.startPos = ⟨275, 275⟩ ∧
    taxicab.getDistance ⟨275, 275⟩ ⟨400 - 25, 300 - 25⟩ = 100 ∧
    demoLockedBoth.joyring.halfSize = 50 := by
  refine ⟨rfl, ?_, rfl, by norm_num [taxicab], rfl, ?_, rfl, by norm_num [taxicab], rfl⟩
  · intro K
    simp [update, demo]
  · intro K
    simp [update, demoLockedBoth]

/-- C3, amended by the conditions that the controller is active and not locked on both
axes. For such a traversal controller, on an update that is not a touch start: if the
distance between the anchor `joystick.startPos` and the touch position exceeds the radius,
the anchor is replaced by the ring's new centre point, which is the point at distance
`radius` from the touch position in the direction of the old anchor; otherwise the anchor is
unchanged and the ring stays centred on it. The second part assumes that the kernel, walking
from a point towards another the distance between them, arrives. -/
theorem traversal_anchor_follows (K : Utils) (hR : K.Reconstructs)
    (c : Controller) (o : Options) (pX pY : ℚ)
    (hopts : c.options = .opts o) (ht : o.type = .traversal)
    (hlock : c.lockedDimension ≠ .str "both") (hact : c.active = true) :
    ∃ c', update K c pX pY false = .ok c' ∧
      (c.joyring.halfSize < K.getDistance c.joystick.startPos
          ⟨pX - c.joystick.halfSize, pY - c.joystick.halfSize⟩ →
        c'.joystick.startPos = c'.joyringAnchor ∧
        c'.joyringAnchor = K.calculateNewPositionFromDistanceAndAngle
          ⟨pX - c.joystick.halfSize, pY - c.joystick.halfSize⟩ c.joyring.halfSize
          (K.getAngle ⟨pX - c.joystick.halfSize, pY - c.joystick.halfSize⟩ c.joystick.startPos)) ∧
      (K.getDistance c.joystick.startPos
          ⟨pX - c.joystick.halfSize, pY - c.joystick.halfSize⟩ ≤ c.joyring.halfSize →
        c'.joystick.startPos = c.joystick.startPos ∧ c'.joyringAnchor = c.joystick.startPos) := by
  refine ⟨_, by simp [update, whileActive, hlock, hact, hopts, ht]; rfl, ?_, ?_⟩
  · intro hlt
    rw [traverse_startPos, traverse_joyringAnchor, min_eq_right (le_of_lt hlt), if_pos hlt]
    exact ⟨rfl, rfl⟩
  · intro hle
    rw [traverse_startPos, traverse_joyringAnchor, min_eq_left hle, if_neg (lt_irrefl _)]
    exact ⟨rfl, hR _ _⟩

/-- C3, amended, at the input of the claim, in screen coordinates of the centres, under the
taxicab kernel (which is exact along the horizontal line of the example): radius 50; a touch
start at
`(300, 300)` centres ring and stick at `(300, 300)`; a drag to `(340, 300)` centres the stick
at `(340, 300)` and leaves ring and anchor at `(300, 300)`; a drag to `(400, 300)` centres the
stick at `(400, 300)` and moves ring and anchor to `(350, 300)`. -/
theorem traversal_anchor_follows_witness :
    (Controller.new MobileHandler.initial 0 (some (demoOptions "traversal" .null .null))).2
      = .built (demo .traversal .null .null) ∧
    (demo .traversal .null .null).joyring.halfSize = 50 ∧
    update taxicab (demo .traversal .null .null) 300 300 true
      = .ok (demoTouched .traversal .null .null) ∧
    (demoTouched .traversal .null .null).joyringCentre = ⟨300, 300⟩ ∧
    (demoTouched .traversal .null .null).joystickCentre = ⟨300, 300⟩ ∧
    (demoTouched .traversal .null .null).anchorCentre = ⟨300, 300⟩ ∧
    (∃ c2 c3,
      update taxicab (demoTouched .traversal .null .null) 340 300 false = .ok c2 ∧
      c2.joystickCentre = ⟨340, 300⟩ ∧ c2.joyringCentre = ⟨300, 300⟩ ∧
      c2.anchorCentre = ⟨300, 300⟩ ∧
      update taxicab c2 400 300 false = .ok c3 ∧
      c3.joystickCentre = ⟨400, 300⟩ ∧ c3.joyringCentre = ⟨350, 300⟩ ∧
      c3.anchorCentre = ⟨350, 300⟩) ∧
    (∃ c', update taxicab (demoTouched .traversal .null .null) 400 300 false = .ok c' ∧
      c'.joystick.startPos = c'.joyringAnchor ∧ c'.joyringAnchor = ⟨325, 275⟩) := by
  refine ⟨by rw [new_demo_traversal], by norm_num [demo],
    update_demo_touchStart taxicab .traversal .null .null (by decide) (by decide),
    by norm_num [demoTouched, demo, joyringCentre],
    by norm_num [demoTouched, demo, joystickCentre],
    by norm_num [demoTouched, demo, anchorCentre], ?_, ?_⟩
  · refine ⟨_, _, by simp [update, whileActive, demoTouched, demo]; rfl, ?_, ?_, ?_,
      by simp [update, whileActive, demoTouched, demo, Controller.traverse, afterPosition]; rfl,
      ?_, ?_, ?_⟩ <;>
    norm_num [Controller.traverse, afterPosition, clamp, taxicab, diamondAngle, diamondDir,
      joystickCentre, joyringCentre, anchorCentre, Joystick.setPos, Joyring.setPos, MAX_LAYER,
      JSVal.isFunction, demoTouched, demo]
  · obtain ⟨c', h1, hfar, -⟩ := traversal_anchor_follows taxicab taxicab_reconstructs
      (demoTouched .traversal .null .null) _ 400 300 rfl rfl (by decide) rfl
    have h := hfar (by norm_num [demoTouched, demo, taxicab])
    refine ⟨c', h1, h.1, ?_⟩
    rw [h.2]
    norm_num [demoTouched, demo, taxicab, diamondAngle, diamondDir]

/-! ## C4: the stationary example, and where its anchor is -/

/-- C4, refuted as stated. The stationary controller built with size 100 at spawn position
`(100, 100)` does not measure from the spawn point: its anchor `joystick.originalPos` is
`(125, 125)`, the position of the stick centred on the ring (on screen the centre of both is
`(150, 150)`). For every kernel the first touch at `(140, 100)` draws the stick at the clamped
position computed from the anchor `(125, 125)` and the touch position `(115, 75)`; whenever
the kernel's distance is at least the vertical displacement, the clamped distance of that
update is 50, not 40. Under the taxicab kernel the stick ends centred at `(425/3, 325/3)`, at
distance 50 from the anchor, not at `(140, 100)`. -/
theorem stationary_anchor_is_not_spawn :
    (Controller.new MobileHandler.initial 0 (some (demoOptions "stationary" .null .null))).2
      = .built (demo .stationary .null .null) ∧
    (demo .stationary .null .null).joystick.originalPos = ⟨125, 125⟩ ∧
    (demo .stationary .null .null).joystick.originalPos ≠ ⟨100, 100⟩ ∧
    (demo .stationary .null .null).joystickCentre = ⟨150, 150⟩ ∧
    (∀ K : Utils, ∃ c1, update K (demo .stationary .null .null) 140 100 true = .ok c1 ∧
      c1.joystickPos = (clamp K ⟨125, 125⟩ ⟨115, 75⟩ 50).clampedPos) ∧
    (∀ K : Utils, (∀ a b : Pos, |b.y - a.y| ≤ K.getDistance a b) →
      (clamp K ⟨125, 125⟩ ⟨115, 75⟩ 50).clampedDistance = 50) ∧
    (∃ c1, update taxicab (demo .stationary .null .null) 140 100 true = .ok c1 ∧
      c1.joystickCentre = ⟨425 / 3, 325 / 3⟩ ∧ c1.joystickCentre ≠ ⟨140, 100⟩ ∧
      taxicab.getDistance ⟨125, 125⟩ c1.joystickPos = 50) := by
  refine ⟨by rw [new_demo_stationary], rfl, by decide, by norm_num [demo, joystickCentre],
    ?_, ?_, ?_⟩
  · intro K
    refine ⟨_, by simp [update, beginTouch, handleTransition, whileActive, demo]; rfl, ?_⟩
    norm_num [joystickPos, Joystick.setPos, lockTouchPos_null]
  · intro K hK
    have h := hK ⟨125, 125⟩ ⟨115, 75⟩
    norm_num at h
    simp only [clamp]
    exact min_eq_right h
  · refine ⟨_, by simp [update, beginTouch, handleTransition, whileActive, demo]; rfl, ?_, ?_, ?_⟩
    · norm_num [joystickCentre, afterPosition, Joystick.setPos, lockTouchPos_null, clamp, taxicab,
        diamondAngle, diamondDir, JSVal.isFunction]
    · norm_num [joystickCentre, afterPosition, Joystick.setPos, lockTouchPos_null, clamp, taxicab,
        diamondAngle, diamondDir, JSVal.isFunction]
    · norm_num [joystickPos, afterPosition, Joystick.setPos, lockTouchPos_null, clamp, taxicab,
        diamondAngle, diamondDir, JSVal.isFunction]
      rw [abs_of_pos (by norm_num), abs_of_pos (by norm_num)]
      norm_num

/-- C4, amended. A stationary controller built with size 100 (radius 50) at spawn position
`(100, 100)` has its anchor at the centre of the ring: `joystick.originalPos = (125, 125)`,
which centres the stick at `(150, 150)`, the spawn point plus the radius. A first touch at
`(190, 150)` draws the stick centred at `(190, 150)`, at clamped distance 40 from the anchor;
a first touch at `(250, 150)`, at raw distance 100, draws it centred at `(200, 150)`, at
distance 50. The kernel is assumed exact along horizontal lines. -/
theorem stationary_measures_from_ring_centre (K : Utils) (hH : K.ExactAlongHorizontal)
    (h : MobileHandler) (id : Nat) :
    ∃ h' c,
      Controller.new h id (some (demoOptions "stationary" .null .null)) = (h', .built c) ∧
      c.joystick.originalPos = ⟨125, 125⟩ ∧
      c.joystickCentre = ⟨150, 150⟩ ∧ c.joyringCentre = ⟨150, 150⟩ ∧
      (∃ c1, update K c 190 150 true = .ok c1 ∧ c1.joystickCentre = ⟨190, 150⟩ ∧
        K.getDistance c.joystick.originalPos c1.joystickPos = 40) ∧
      (∃ c2, update K c 250 150 true = .ok c2 ∧ c2.joystickCentre = ⟨200, 150⟩ ∧
        K.getDistance c.joystick.originalPos c2.joystickPos = 50) := by
  have e1 := hH ⟨125, 125⟩ 40 40 (by norm_num)
  have e2 := hH ⟨125, 125⟩ 100 50 (by norm_num)
  have e3 := hH ⟨125, 125⟩ 50 50 (by norm_num)
  norm_num at e1 e2 e3
  refine ⟨_, _, by
    simp [Controller.new, build, demoOptions, RawOptions.default, checkSize, checkType,
      claimZone, checkString, checkLockedDimension, checkScale, checkPosition, checkNumber,
      setup, Controller.fresh, Joyring.fresh, Joystick.fresh, lock, show', handleTransition,
      JSVal.asInteger?, JSVal.asString?, JSVal.asNumber?, JSVal.truthy, JSVal.isString,
      Joyring.setPos, Joystick.setPos, Rat.isInt]
    exact ⟨rfl, rfl⟩, ?_, ?_, ?_, ?_, ?_⟩
  · norm_num
  · norm_num [joystickCentre]
  · norm_num [joyringCentre]
  · refine ⟨_, by simp [update, beginTouch, handleTransition, whileActive]; rfl, ?_, ?_⟩
    · norm_num [joystickCentre, Joystick.setPos, lockTouchPos_null, clamp, e1.1, e1.2]
    · norm_num [joystickPos, Joystick.setPos, lockTouchPos_null, clamp, e1.1, e1.2]
  · refine ⟨_, by simp [update, beginTouch, handleTransition, whileActive]; rfl, ?_, ?_⟩
    · norm_num [joystickCentre, Joystick.setPos, lockTouchPos_null, clamp, e2.1, e2.2]
    · norm_num [joystickPos, Joystick.setPos, lockTouchPos_null, clamp, e2.1, e2.2, e3.1]

/-- C4, amended, under the taxicab kernel with the first controller of a fresh handler. -/
theorem stationary_measures_from_ring_centre_witness :
    taxicab.ExactAlongHorizontal ∧
    ∃ h' c,
      Controller.new MobileHandler.initial 0 (some (demoOptions "stationary" .null .null))
        = (h', .built c) ∧
      c.joystick.originalPos = ⟨125, 125⟩ ∧
      c.joystickCentre = ⟨150, 150⟩ ∧ c.joyringCentre = ⟨150, 150⟩ ∧
      (∃ c1, update taxicab c 190 150 true = .ok c1 ∧ c1.joystickCentre = ⟨190, 150⟩ ∧
        taxicab.getDistance c.joystick.originalPos c1.joystickPos = 40) ∧
      (∃ c2, update taxicab c 250 150 true = .ok c2 ∧ c2.joystickCentre = ⟨200, 150⟩ ∧
        taxicab.getDistance c.joystick.originalPos c2.joystickPos = 50) :=
  ⟨taxicab_exactAlongHorizontal,
    stationary_measures_from_ring_centre taxicab taxicab_exactAlongHorizontal
      MobileHandler.initial 0⟩

/-! ## C5: what an axis lock fixes -/

/-- C5, refuted as stated. A traversal controller can carry an axis lock (the constructor
keeps a `lockedDimension` option on a traversal controller), and its updates ignore it: the
traversal controller built with `lockedDimension: 'horizontal'`, touched at `(300, 300)` and
dragged straight down to `(300, 330)`, is still locked horizontally, keeps its anchor at
`(275, 275)`, and draws the stick at `(275, 305)`, off the anchor's `y`. The move is along an
axis and within the radius, where the taxicab kernel is exact. -/
theorem traversal_ignores_axis_lock :
    (Controller.new MobileHandler.initial 0
        (some (demoOptions "traversal" (.str "horizontal") .null))).2
      = .built (demo .traversal (.str "horizontal") .null) ∧
    update taxicab (demo .traversal (.str "horizontal") .null) 300 300 true
      = .ok (demoTouched .traversal (.str "horizontal") .null) ∧
    ∃ c', update taxicab (demoTouched .traversal (.str "horizontal") .null) 300 330 false
        = .ok c' ∧
      c'.lockedDimension = .str "horizontal" ∧
      c'.joystick.startPos = ⟨275, 275⟩ ∧
      c'.joystickPos = ⟨275, 305⟩ ∧
      c'.joystick.yPos ≠ c'.joystick.startPos.y := by
  refine ⟨?_, update_demo_touchStart taxicab .traversal _ .null (by decide) (by decide), ?_⟩
  · simp [Controller.new, build, demoOptions, RawOptions.default, checkSize, checkType,
      claimZone, checkString, checkLockedDimension, checkScale, checkPosition, checkNumber,
      setup, Controller.fresh, Joyring.fresh, Joystick.fresh, lock, show', handleTransition,
      JSVal.asInteger?, JSVal.asString?, JSVal.asNumber?, JSVal.truthy, JSVal.isString,
      Joyring.setPos, Joystick.setPos, MobileHandler.initial, Rat.isInt, demo, toLowerCase]
    norm_num
  · refine ⟨_, by simp [update, whileActive, demoTouched, demo]; rfl, ?_, ?_, ?_, ?_⟩ <;>
    norm_num [Controller.traverse, afterPosition, clamp, taxicab, diamondAngle, diamondDir,
      joystickPos, Joystick.setPos, Joyring.setPos, MAX_LAYER, JSVal.isFunction, demoTouched,
      demo]

/-- C5, amended to the two types whose updates read the lock. For a stationary or static
controller with radius `joyring.halfSize ≥ 0`, every update during which it is active (it is
already active, or the update is a touch start) succeeds and, when the controller is locked
horizontally, draws the stick with the `y` of the anchor, and when it is locked vertically,
with the `x` of the anchor. The anchor is `joystick.originalPos` for a stationary controller
and `joystick.startPos` (as the update leaves it) for a static one. The only other position
such an update sets is the ring at the touch start of a static controller, which is centred
on the anchor. The kernel is assumed to return non-negative distances and to stay on a
horizontal or vertical line when walking along it. -/
theorem axis_lock_holds_coordinate (K : Utils) (hA : K.KeepsAxis) (hN : K.DistanceNonneg)
    (c : Controller) (o : Options) (pX pY : ℚ) (pTouchStart : Bool)
    (hopts : c.options = .opts o)
    (htype : o.type = .stationary ∨ o.type = .static)
    (hr : 0 ≤ c.joyring.halfSize)
    (hact : c.active = true ∨ pTouchStart = true) :
    ∃ c', update K c pX pY pTouchStart = .ok c' ∧
      (c.lockedDimension = .str "horizontal" →
        c'.joystick.yPos = (startingPos o.type c').y) ∧
      (c.lockedDimension = .str "vertical" →
        c'.joystick.xPos = (startingPos o.type c').x) ∧
      (o.type = .static → pTouchStart = true → c.lockedDimension ≠ .str "both" →
        c'.joyringAnchor = startingPos o.type c') := by
  by_cases hboth : c.lockedDimension = .str "both"
  · refine ⟨c, by simp [update, hboth], ?_, ?_, ?_⟩
    · intro h; rw [hboth] at h; exact absurd h (by decide)
    · intro h; rw [hboth] at h; exact absurd h (by decide)
    · intro _ _ h; exact absurd hboth h
  · -- the clamped position keeps the locked coordinate of the start position
    have key : ∀ (s t : Pos),
        (c.lockedDimension = .str "horizontal" →
          (clamp K s (lockTouchPos c.lockedDimension s t) c.joyring.halfSize).clampedPos.y = s.y) ∧
        (c.lockedDimension = .str "vertical" →
          (clamp K s (lockTouchPos c.lockedDimension s t) c.joyring.halfSize).clampedPos.x = s.x) := by
      intro s t
      constructor
      · intro h
        have := (hA s (lockTouchPos c.lockedDimension s t)
          (min (K.getDistance s (lockTouchPos c.lockedDimension s t)) c.joyring.halfSize)
          (le_min (hN _ _) hr) (min_le_left _ _)).1 (by simp [lockTouchPos, h])
        simpa [clamp] using this
      · intro h
        have := (hA s (lockTouchPos c.lockedDimension s t)
          (min (K.getDistance s (lockTouchPos c.lockedDimension s t)) c.joyring.halfSize)
          (le_min (hN _ _) hr) (min_le_left _ _)).2 (by simp [lockTouchPos, h])
        simpa [clamp] using this
    rcases htype with ht | ht
    · -- stationary
      have k := key c.joystick.originalPos ⟨pX - c.joystick.halfSize, pY - c.joystick.halfSize⟩
      cases pTouchStart
      · have ha : c.active = true := by simpa using hact
        refine ⟨_, by simp [update, whileActive, hboth, ha, hopts, ht]; rfl, ?_, ?_, ?_⟩
        · simpa [startingPos, ht, Joystick.setPos] using k.1
        · simpa [startingPos, ht, Joystick.setPos] using k.2
        · intro h; rw [ht] at h; exact absurd h (by decide)
      · obtain ⟨tw, hb⟩ := beginTouch_opts c o hopts
        refine ⟨_, by simp [update, whileActive, hboth, hb, hopts, ht]; rfl, ?_, ?_, ?_⟩
        · simpa [startingPos, ht, Joystick.setPos] using k.1
        · simpa [startingPos, ht, Joystick.setPos] using k.2
        · intro h; rw [ht] at h; exact absurd h (by decide)
    · -- static
      have hne : o.type ≠ .stationary := by rw [ht]; decide
      have k := key c.joystick.startPos ⟨pX - c.joystick.halfSize, pY - c.joystick.halfSize⟩
      cases pTouchStart
      · have ha : c.active = true := by simpa using hact
        refine ⟨_, by simp [update, whileActive, hboth, ha, hopts, ht]; rfl, ?_, ?_, ?_⟩
        · simpa [startingPos, ht, Joystick.setPos] using k.1
        · simpa [startingPos, ht, Joystick.setPos] using k.2
        · intro _ h; exact absurd h (by decide)
      · obtain ⟨tw, hb⟩ := beginTouch_opts c o hopts
        refine ⟨_, by simp [update, whileActive, hboth, hb, hopts, ht]; rfl, ?_, ?_, ?_⟩
        · simp [startingPos, ht, touchStart, Joystick.setPos]
        · simp [startingPos, ht, touchStart, Joystick.setPos]
        · intro _ _ _
          rw [touchStart_joyringAnchor]
          simp [startingPos, ht]

/-- C5, amended, at a concrete input: the static sample controller locked horizontally,
touched at `(300, 300)` and dragged to `(330, 420)` under the taxicab kernel, draws the stick
at `y = 275`, the `y` of its anchor. -/
theorem axis_lock_holds_coordinate_witness :
    taxicab.KeepsAxis ∧ taxicab.DistanceNonneg ∧
    update taxicab (demo .static (.str "horizontal") .null) 300 300 true
      = .ok (demoTouched .static (.str "horizontal") .null) ∧
    ∃ c', update taxicab (demoTouched .static (.str "horizontal") .null) 330 420 false
        = .ok c' ∧
      c'.joystick.yPos = 275 ∧ c'.joystick.startPos.y = 275 := by
  refine ⟨taxicab_keepsAxis, taxicab_distanceNonneg,
    update_demo_touchStart taxicab .static _ .null (by decide) (by decide), ?_⟩
  obtain ⟨c', h1, h2, -, -⟩ := axis_lock_holds_coordinate taxicab taxicab_keepsAxis
    taxicab_distanceNonneg (demoTouched .static (.str "horizontal") .null) _ 330 420 false rfl
    (Or.inr rfl) (by norm_num [demoTouched, demo]) (Or.inl rfl)
  have h3 := h2 rfl
  obtain ⟨c'', h1', h4⟩ : ∃ c'',
      update taxicab (demoTouched .static (.str "horizontal") .null) 330 420 false = .ok c'' ∧
      c''.joystick.startPos.y = 275 :=
    ⟨_, by simp [update, whileActive, demoTouched, demo]; rfl, by norm_num [Joystick.setPos]⟩
  have e : c'' = c' := by
    rw [h1] at h1'
    exact (Except.ok.inj h1').symm
  subst e
  simp only [startingPos] at h3
  rw [if_neg (by decide)] at h3
  exact ⟨c'', h1, h3.trans h4, h4⟩

/-! ## Lemmas on `build` -/

theorem setup_fst (h : MobileHandler) (c : Controller) :
    (setup h c).1 = h ∨
    (setup h c).1 = { h with activeControllers := h.activeControllers ++ [c.id] } := by
  unfold setup
  split
  · exact Or.inl rfl
  · exact Or.inl rfl
  · simp only
    split
    · exact Or.inl rfl
    · split
      · exact Or.inl rfl
      · rename_i c2 hl
        right
        have : c2.id = c.id := by
          simp only [lock] at hl
          split at hl
          · cases hl
          · split_ifs at hl <;> cases hl <;> rfl
        rw [this]

theorem build_of_conflict (h : MobileHandler) (c : Controller) (p : RawOptions)
    (hc : zoneConflict h p) :
    build h c (some p)
      = ({ h with logged := h.logged ++ (checkSize p.size).2 ++ (checkType p.type).2
            ++ [Diagnostic.zoneRequired] }, .rejected c) := by
  obtain ⟨ht, hl, hz⟩ := hc
  have hcz : claimZone { h with logged := h.logged ++ (checkSize p.size).2 ++ (checkType p.type).2 }
      c (checkType p.type).1 p.zone = none := by
    unfold claimZone
    rw [if_pos ht, if_pos ⟨hl, hz⟩]
  simp only [build, Option.getD_some, hcz, MobileHandler.log]

theorem lock_fields (c c' : Controller) (d : JSVal) (h : c.lock d = .ok c') :
    c'.id = c.id ∧ c'.zone = c.zone ∧ c'.options = c.options ∧ c'.joyring = c.joyring ∧
    c'.joystick = c.joystick ∧ c'.active = c.active := by
  simp only [lock] at h
  split at h
  · cases h
  · split_ifs at h <;> cases h <;> exact ⟨rfl, rfl, rfl, rfl, rfl, rfl⟩

theorem handleTransition_fields (c c' : Controller) (b : Bool)
    (h : c.handleTransition b = .ok c') :
    c'.id = c.id ∧ c'.zone = c.zone ∧ c'.options = c.options ∧ c'.joyring = c.joyring ∧
    c'.joystick = c.joystick ∧ c'.active = c.active ∧ c'.lockedDimension = c.lockedDimension := by
  simp only [handleTransition] at h
  split at h
  · cases h
  · cases h; exact ⟨rfl, rfl, rfl, rfl, rfl, rfl, rfl⟩
  · split_ifs at h <;> cases h <;> exact ⟨rfl, rfl, rfl, rfl, rfl, rfl, rfl⟩

theorem setup_ok_fields (h h' : MobileHandler) (c c' : Controller)
    (hs : setup h c = (h', .ok c')) :
    c'.id = c.id ∧ c'.zone = c.zone ∧ c'.options = c.options ∧
    h' = { h with activeControllers := h.activeControllers ++ [c.id] } := by
  unfold setup at hs
  split at hs
  · cases hs
  · cases hs
  · simp only at hs
    split at hs
    · cases hs
    · split at hs
      · cases hs
      · rename_i o hopt _ _ _ _ c2 hl
        obtain ⟨i1, z1, o1, -⟩ := lock_fields _ _ _ hl
        simp only [Prod.mk.injEq] at hs
        obtain ⟨hh, hc⟩ := hs
        simp only [show'] at hc
        obtain ⟨i2, z2, o2, -⟩ := handleTransition_fields _ _ _ hc
        simp only at i1 z1 o1 i2 z2 o2
        refine ⟨i2.trans i1, z2.trans z1, o2.trans o1, ?_⟩
        rw [← hh, i1]

theorem claimZone_cases (h : MobileHandler) (c : Controller) (t : ControllerType) (z : JSVal) :
    claimZone h c t z = none ∨ claimZone h c t z = some (h, c) ∨
    ((z = .str "left" ∨ z = .str "right") ∧ z ∉ h.reservedScreenZones ∧
      (t = .traversal ∨ t = .static) ∧
      claimZone h c t z = some
        (({ h with reservedScreenZones := h.reservedScreenZones ++ [z] }).setZoned z (some c.id),
          { c with zone := z })) := by
  unfold claimZone
  split_ifs with h1 h2 h3
  · exact Or.inl rfl
  · right; right
    refine ⟨h3, ?_, h1, rfl⟩
    intro hmem
    apply h2
    refine ⟨?_, Or.inr (Or.inr hmem)⟩
    intro hlen
    rw [List.length_eq_zero] at hlen
    rw [hlen] at hmem
    exact absurd hmem (List.not_mem_nil _)
  · exact Or.inr (Or.inl rfl)
  · exact Or.inr (Or.inl rfl)

theorem claimZone_logged (h : MobileHandler) (c : Controller) (t : ControllerType) (z : JSVal)
    (l : List Diagnostic) :
    claimZone { h with logged := l } c t z
      = (claimZone h c t z).map (fun r => ({ r.1 with logged := l }, r.2)) := by
  unfold claimZone
  split_ifs
  · rfl
  · simp only [Option.map_some', MobileHandler.setZoned]
    split_ifs <;> rfl
  · rfl
  · rfl

theorem claimZone_some_fields (h h2 : MobileHandler) (c c1 : Controller) (t : ControllerType)
    (z : JSVal) (hcz : claimZone h c t z = some (h2, c1)) :
    h2.activeControllers = h.activeControllers ∧ h2.touchedInstances = h.touchedInstances ∧
    h2.logged = h.logged ∧ c1.id = c.id ∧ c1.options = c.options := by
  rcases claimZone_cases h c t z with h0 | h0 | ⟨-, -, -, h0⟩
  · rw [h0] at hcz; cases hcz
  · rw [h0] at hcz; cases hcz; exact ⟨rfl, rfl, rfl, rfl, rfl⟩
  · rw [h0] at hcz
    cases hcz
    refine ⟨?_, ?_, ?_, rfl, rfl⟩ <;>
    · simp only [MobileHandler.setZoned]
      split_ifs <;> rfl

/-- What `build` does once the zone check has let it pass. -/
theorem build_after_claim (h h2 : MobileHandler) (c c1 : Controller) (p : RawOptions)
    (hcz : claimZone h c (checkType p.type).1 p.zone = some (h2, c1)) :
    ∃ r logs act, build h c (some p)
        = ({ h2 with logged := logs, activeControllers := act }, r) ∧
      (∀ c', r ≠ .rejected c') ∧
      (act = h.activeControllers ∨ act = h.activeControllers ++ [c.id]) ∧
      (∀ c', r = .built c' →
        c'.id = c.id ∧ c'.zone = c1.zone ∧ (∃ o, c'.options = .opts o) ∧
        act = h.activeControllers ++ [c.id]) := by
  obtain ⟨ha, -, -, hid, -⟩ := claimZone_some_fields _ _ _ _ _ _ hcz
  simp only [build, Option.getD_some, claimZone_logged, hcz, Option.map_some']
  split
  · -- `position` is nullish: the read of `.constructor` throws
    refine ⟨.threw .typeError, _, h2.activeControllers, rfl, ?_, Or.inl ha, ?_⟩
    · intro _ hr; cases hr
    · intro _ hr; cases hr
  · rename_i pos _
    split
    · rename_i h5 c2 hs
      obtain ⟨i2, z2, o2, hh⟩ := setup_ok_fields _ _ _ _ hs
      simp only at i2 z2 o2 hh
      refine ⟨.built c2, h5.logged, h.activeControllers ++ [c.id], ?_, ?_, Or.inr rfl, ?_⟩
      · rw [hh, ha, hid]
      · intro _ hr; cases hr
      · intro c' hr
        cases hr
        exact ⟨i2.trans hid, z2, ⟨_, o2⟩, rfl⟩
    · rename_i h5 f hs
      have hf := setup_fst
        { h2 with logged := h.logged ++ (checkSize p.size).2 ++ (checkType p.type).2
            ++ (checkString p.atlasName .atlasNameNotString).2
            ++ (checkLockedDimension (checkType p.type).1 p.lockedDimension).2
            ++ (checkString p.joystickIconName .joystickIconNameNotString).2
            ++ (checkString p.joyringIconName .joyringIconNameNotString).2
            ++ (checkScale p.scale).2 ++ pos.2 }
        { c1 with options := .opts {
            type := (checkType p.type).1, size := (checkSize p.size).1, position := pos.1,
            lockedDimension := (checkLockedDimension (checkType p.type).1 p.lockedDimension).1,
            zone := p.zone,
            inactiveAlpha := checkNumber p.inactiveAlpha (1 / 2),
            transitionTime := checkNumber p.transitionTime 500,
            scale := (checkScale p.scale).1, plane := checkNumber p.plane 1,
            layer := checkNumber p.layer 1,
            atlasName := (checkString p.atlasName .atlasNameNotString).1,
            joystickIconName := (checkString p.joystickIconName .joystickIconNameNotString).1,
            joyringIconName := (checkString p.joyringIconName .joyringIconNameNotString).1,
            callback := p.callback } }
      rw [hs] at hf
      simp only at hf
      rcases hf with hf | hf
      · refine ⟨.threw f, h5.logged, h2.activeControllers, by rw [hf], ?_, Or.inl ha, ?_⟩
        · intro _ hr; cases hr
        · intro _ hr; cases hr
      · refine ⟨.threw f, h5.logged, h2.activeControllers ++ [c1.id], by rw [hf], ?_,
          Or.inr (by rw [ha, hid]), ?_⟩
        · intro _ hr; cases hr
        · intro _ hr; cases hr

/-! ## Lemmas on the sample handlers -/

theorem new_oneZoned :
    Controller.new MobileHandler.initial 0 (some (demoOptions "static" .null (.str "left")))
      = (oneZoned, .built (demo .static .null (.str "left"))) := by
  simp [Controller.new, build, demoOptions, RawOptions.default, checkSize, checkType, claimZone,
    checkString, checkLockedDimension, checkScale, checkPosition, checkNumber, setup,
    Controller.fresh, Joyring.fresh, Joystick.fresh, lock, show', handleTransition,
    JSVal.asInteger?, JSVal.asString?, JSVal.asNumber?, JSVal.truthy, JSVal.isString,
    Joyring.setPos, Joystick.setPos, MobileHandler.initial, MobileHandler.setZoned, Rat.isInt,
    demo, oneZoned]
  norm_num

theorem new_twoZoned :
    Controller.new oneZoned 1 (some (demoOptions "traversal" .null (.str "right")))
      = (twoZoned, .built { demo .traversal .null (.str "right") with id := 1 }) := by
  simp [Controller.new, build, demoOptions, RawOptions.default, checkSize, checkType, claimZone,
    checkString, checkLockedDimension, checkScale, checkPosition, checkNumber, setup,
    Controller.fresh, Joyring.fresh, Joystick.fresh, lock, show', handleTransition,
    JSVal.asInteger?, JSVal.asString?, JSVal.asNumber?, JSVal.truthy, JSVal.isString,
    Joyring.setPos, Joystick.setPos, MobileHandler.initial, MobileHandler.setZoned, Rat.isInt,
    demo, oneZoned, twoZoned]
  norm_num

/-! ## C6: a traversal controller can be locked -/

/-- C6, at the failing input. The constructor, given `type: 'traversal'` and
`lockedDimension: 'horizontal'`, logs that a traversal controller cannot be locked and then
builds a traversal controller locked horizontally; and `lock('both')` on a traversal
controller built without a lock locks it on both axes. -/
theorem traversal_controller_can_be_locked :
    (Controller.new MobileHandler.initial 0
        (some (demoOptions "traversal" (.str "horizontal") .null))).2
      = .built (demo .traversal (.str "horizontal") .null) ∧
    (Controller.new MobileHandler.initial 0
        (some (demoOptions "traversal" (.str "horizontal") .null))).1.logged
      = [Diagnostic.traversalCannotBeLocked] ∧
    (demo .traversal (.str "horizontal") .null).getType = some .traversal ∧
    (demo .traversal (.str "horizontal") .null).lockedDimension = .str "horizontal" ∧
    (Controller.new MobileHandler.initial 0 (some (demoOptions "traversal" .null .null))).2
      = .built (demo .traversal .null .null) ∧
    (demo .traversal .null .null).lock (.str "both")
      = .ok { demo .traversal .null .null with lockedDimension := .str "both" } := by
  refine ⟨?_, ?_, rfl, rfl, by rw [new_demo_traversal], ?_⟩
  · simp [Controller.new, build, demoOptions, RawOptions.default, checkSize, checkType,
      claimZone, checkString, checkLockedDimension, checkScale, checkPosition, checkNumber,
      setup, Controller.fresh, Joyring.fresh, Joystick.fresh, lock, show', handleTransition,
      JSVal.asInteger?, JSVal.asString?, JSVal.asNumber?, JSVal.truthy, JSVal.isString,
      Joyring.setPos, Joystick.setPos, MobileHandler.initial, Rat.isInt, demo, toLowerCase]
    norm_num
  · simp [Controller.new, build, demoOptions, RawOptions.default, checkSize, checkType,
      claimZone, checkString, checkLockedDimension, checkScale, checkPosition, checkNumber,
      setup, Controller.fresh, Joyring.fresh, Joystick.fresh, lock, show', handleTransition,
      JSVal.asInteger?, JSVal.asString?, JSVal.asNumber?, JSVal.truthy, JSVal.isString,
      Joyring.setPos, Joystick.setPos, MobileHandler.initial, Rat.isInt, toLowerCase]
  · simp [lock, JSVal.truthy, JSVal.isString, toLowerCase]

/-! ## C7: the second zoned controller -/

/-- C7, refuted as stated. With controller 0 holding `'left'` and controller 1 holding
`'right'`, a controller holding the zone `'left'` exists, and constructing another static
controller with the opposing zone `'right'` is rejected, not accepted. -/
theorem opposing_zone_rejected_when_held :
    Controller.new MobileHandler.initial 0 (some (demoOptions "static" .null (.str "left")))
      = (oneZoned, .built (demo .static .null (.str "left"))) ∧
    Controller.new oneZoned 1 (some (demoOptions "traversal" .null (.str "right")))
      = (twoZoned, .built { demo .traversal .null (.str "right") with id := 1 }) ∧
    twoZoned.zoned (.str "left") = some 0 ∧
    (Controller.new twoZoned 2 (some (demoOptions "static" .null (.str "right")))).2
      = .rejected (Controller.fresh 2) := by
  refine ⟨new_oneZoned, new_twoZoned, rfl, ?_⟩
  rw [Controller.new, build_of_conflict]
  refine ⟨Or.inr ?_, by decide, Or.inr (Or.inr (by decide))⟩
  simp [demoOptions, checkType]

/-- C7, amended by the condition that the opposing zone is free. Let a zone `z`, `'left'` or
`'right'`, be reserved, and let `build` be called with type static or traversal. With
`zone: z` the call is rejected: it returns at the zone check, the instance is as it was (no
options stored) and the handler has only received the log entries. With the opposing zone
`z'`, if `z'` is not reserved, the call passes the zone check: it is not rejected, `z'` is
appended to the reserved zones, `zonedControllers[z']` is the new controller and the owner of
`z` is unchanged; when the call runs to its end the controller's zone is `z'` and it is
among the active controllers. If `z'` is reserved as well, the call is rejected. -/
theorem second_zoned_controller (h : MobileHandler) (c : Controller) (p : RawOptions)
    (z z' : String)
    (hz : (z = "left" ∧ z' = "right") ∨ (z = "right" ∧ z' = "left"))
    (hheld : JSVal.str z ∈ h.reservedScreenZones)
    (htype : p.type = .str "static" ∨ p.type = .str "traversal") :
    (p.zone = .str z →
      build h c (some p)
        = ({ h with logged := h.logged ++ (checkSize p.size).2 ++ [Diagnostic.zoneRequired] },
            .rejected c)) ∧
    (p.zone = .str z' → JSVal.str z' ∉ h.reservedScreenZones →
      ∃ r logs act,
        build h c (some p)
          = ({ (({ h with reservedScreenZones := h.reservedScreenZones ++ [JSVal.str z'] }).setZoned
                (.str z') (some c.id)) with logged := logs, activeControllers := act }, r) ∧
        (∀ c', r ≠ .rejected c') ∧
        (({ h with reservedScreenZones := h.reservedScreenZones ++ [JSVal.str z'] }).setZoned
            (.str z') (some c.id)).zoned (.str z') = some c.id ∧
        (({ h with reservedScreenZones := h.reservedScreenZones ++ [JSVal.str z'] }).setZoned
            (.str z') (some c.id)).zoned (.str z) = h.zoned (.str z) ∧
        (∀ c', r = .built c' →
          c'.id = c.id ∧ c'.zone = .str z' ∧ act = h.activeControllers ++ [c.id])) ∧
    (p.zone = .str z' → JSVal.str z' ∈ h.reservedScreenZones →
      build h c (some p)
        = ({ h with logged := h.logged ++ (checkSize p.size).2 ++ [Diagnostic.zoneRequired] },
            .rejected c)) := by
  have hty : ((checkType p.type).1 = .traversal ∨ (checkType p.type).1 = .static) ∧
      (checkType p.type).2 = [] := by
    rcases htype with e | e <;> rw [e] <;> simp [checkType]
  have hlen : h.reservedScreenZones.length ≠ 0 := by
    intro h0
    rw [List.length_eq_zero] at h0
    rw [h0] at hheld
    exact absurd hheld (List.not_mem_nil _)
  have hzs : (JSVal.str z).truthy = true ∧ (JSVal.str z').truthy = true := by
    rcases hz with ⟨rfl, rfl⟩ | ⟨rfl, rfl⟩ <;> exact ⟨by decide, by decide⟩
  have rej : ∀ w : String, p.zone = .str w → JSVal.str w ∈ h.reservedScreenZones →
      build h c (some p)
        = ({ h with logged := h.logged ++ (checkSize p.size).2 ++ [Diagnostic.zoneRequired] },
            .rejected c) := by
    intro w hw hmem
    rw [build_of_conflict h c p ⟨hty.1, hlen, Or.inr (Or.inr (hw ▸ hmem))⟩, hty.2,
      List.append_nil]
  refine ⟨fun hzone => rej z hzone hheld, ?_, fun hzone hmem => rej z' hzone hmem⟩
  intro hzone hfree
  have hlr : p.zone = .str "left" ∨ p.zone = .str "right" := by
    rcases hz with ⟨-, rfl⟩ | ⟨-, rfl⟩
    · exact Or.inr hzone
    · exact Or.inl hzone
  have hcz : claimZone h c (checkType p.type).1 p.zone = some
      (({ h with reservedScreenZones := h.reservedScreenZones ++ [JSVal.str z'] }).setZoned
        (.str z') (some c.id), { c with zone := .str z' }) := by
    have hnc : ¬ (h.reservedScreenZones.length ≠ 0 ∧
        (¬ p.zone.truthy ∨ ¬ p.zone.isString ∨ p.zone ∈ h.reservedScreenZones)) := by
      rintro ⟨-, hbad⟩
      rw [hzone] at hbad
      rcases hbad with hbad | hbad | hbad
      · exact hbad hzs.2
      · exact hbad rfl
      · exact hfree hbad
    unfold claimZone
    rw [if_pos hty.1, if_neg hnc, if_pos hlr, hzone]
  obtain ⟨r, logs, act, hb, hnr, -, hbuilt⟩ := build_after_claim h _ c _ p hcz
  refine ⟨r, logs, act, hb, hnr, ?_, ?_, ?_⟩
  · rcases hz with ⟨-, rfl⟩ | ⟨-, rfl⟩ <;> simp [MobileHandler.setZoned, MobileHandler.zoned]
  · rcases hz with ⟨rfl, rfl⟩ | ⟨rfl, rfl⟩ <;> simp [MobileHandler.setZoned, MobileHandler.zoned]
  · intro c' hc'
    obtain ⟨h1, h2, -, h4⟩ := hbuilt c' hc'
    exact ⟨h1, h2, h4⟩

/-- C7, amended, at a concrete input: with controller 0 holding `'left'`, a second static
controller asking for `'left'` is rejected, and a traversal controller asking for `'right'`
is built and registered as the owner of `'right'`. -/
theorem second_zoned_controller_witness :
    JSVal.str "left" ∈ oneZoned.reservedScreenZones ∧
    JSVal.str "right" ∉ oneZoned.reservedScreenZones ∧
    Controller.new oneZoned 1 (some (demoOptions "static" .null (.str "left")))
      = ({ oneZoned with logged := [Diagnostic.zoneRequired] }, .rejected (Controller.fresh 1)) ∧
    Controller.new oneZoned 1 (some (demoOptions "traversal" .null (.str "right")))
      = (twoZoned, .built { demo .traversal .null (.str "right") with id := 1 }) ∧
    twoZoned.zoned (.str "right") = some 1 ∧ twoZoned.zoned (.str "left") = some 0 := by
  have h := second_zoned_controller oneZoned (Controller.fresh 1)
    (demoOptions "static" .null (.str "left")) "left" "right" (Or.inl ⟨rfl, rfl⟩)
    (by decide) (Or.inl rfl)
  refine ⟨by decide, by decide, ?_, new_twoZoned, rfl, rfl⟩
  rw [Controller.new, h.1 rfl]
  simp [oneZoned, MobileHandler.initial, demoOptions, RawOptions.default, checkSize,
    JSVal.asInteger?, Rat.isInt]

/-! ## C8: how many static or traversal controllers can be constructed -/

/-- C8, at two failing inputs. Three static controllers constructed without a zone are all
built and active together, since none of them reserves a zone; and while controller 0 holds
`'left'`, a second static controller naming the zone `'middle'` passes the zone check, is
built and holds no zone, after which `'right'` can still be taken by a third. -/
theorem zoned_controllers_are_not_limited_to_two :
    Controller.new MobileHandler.initial 0 (some (demoOptions "static" .null .null))
      = ({ MobileHandler.initial with activeControllers := [0] },
          .built (demo .static .null .null)) ∧
    Controller.new { MobileHandler.initial with activeControllers := [0] } 1
        (some (demoOptions "static" .null .null))
      = ({ MobileHandler.initial with activeControllers := [0, 1] },
          .built { demo .static .null .null with id := 1 }) ∧
    Controller.new { MobileHandler.initial with activeControllers := [0, 1] } 2
        (some (demoOptions "static" .null .null))
      = ({ MobileHandler.initial with activeControllers := [0, 1, 2] },
          .built { demo .static .null .null with id := 2 }) ∧
    Controller.new oneZoned 1 (some (demoOptions "static" .null (.str "middle")))
      = ({ oneZoned with activeControllers := [0, 1] },
          .built { demo .static .null (.str "middle") with id := 1, zone := .null }) ∧
    Controller.new { oneZoned with activeControllers := [0, 1] } 2
        (some (demoOptions "traversal" .null (.str "right")))
      = ({ twoZoned with zonedRight := some 2, activeControllers := [0, 1, 2] },
          .built { demo .traversal .null (.str "right") with id := 2 }) := by
  refine ⟨?_, ?_, ?_, ?_, ?_⟩ <;>
  · simp [Controller.new, build, demoOptions, RawOptions.default, checkSize, checkType,
      claimZone, checkString, checkLockedDimension, checkScale, checkPosition, checkNumber,
      setup, Controller.fresh, Joyring.fresh, Joystick.fresh, lock, show', handleTransition,
      JSVal.asInteger?, JSVal.asString?, JSVal.asNumber?, JSVal.truthy, JSVal.isString,
      Joyring.setPos, Joystick.setPos, MobileHandler.initial, MobileHandler.setZoned,
      Rat.isInt, demo, oneZoned, twoZoned]
    norm_num

/-! ## C9: the zone registry invariant -/

theorem zoneInvariant_congr (a b : MobileHandler)
    (h1 : a.reservedScreenZones = b.reservedScreenZones) (h2 : a.zonedLeft = b.zonedLeft)
    (h3 : a.zonedRight = b.zonedRight) (hb : ZoneInvariant b) : ZoneInvariant a := by
  unfold ZoneInvariant at *
  rw [h1, h2, h3]
  exact hb

theorem zoneInvariant_claim (h : MobileHandler) (z : JSVal) (id : Nat)
    (hz : z = .str "left" ∨ z = .str "right") (hfree : z ∉ h.reservedScreenZones)
    (hI : ZoneInvariant h) :
    ZoneInvariant
      (({ h with reservedScreenZones := h.reservedScreenZones ++ [z] }).setZoned z (some id)) := by
  obtain ⟨hnd, hlr, hl, hr⟩ := hI
  have hne : JSVal.str "left" ≠ JSVal.str "right" := by decide
  rcases hz with rfl | rfl
  · simp only [MobileHandler.setZoned, if_true]
    refine ⟨?_, ?_, ?_, ?_⟩
    · exact List.Nodup.append hnd (List.nodup_singleton _) (by simpa using hfree)
    · intro w hw
      rcases List.mem_append.mp hw with hw | hw
      · exact hlr w hw
      · exact Or.inl (List.mem_singleton.mp hw)
    · simp
    · simp only [List.mem_append, List.mem_singleton]
      rw [← hr]
      constructor
      · rintro (h' | h')
        · exact h'
        · exact absurd h'.symm hne
      · exact Or.inl
  · simp only [MobileHandler.setZoned, if_neg hne.symm, if_true]
    refine ⟨?_, ?_, ?_, ?_⟩
    · exact List.Nodup.append hnd (List.nodup_singleton _) (by simpa using hfree)
    · intro w hw
      rcases List.mem_append.mp hw with hw | hw
      · exact hlr w hw
      · exact Or.inr (List.mem_singleton.mp hw)
    · simp only [List.mem_append, List.mem_singleton]
      rw [← hl]
      constructor
      · rintro (h' | h')
        · exact h'
        · exact absurd h' hne
      · exact Or.inl
    · simp

theorem build_preserves_zoneInvariant (h : MobileHandler) (c : Controller)
    (pOptions : Option RawOptions) (hI : ZoneInvariant h) :
    ZoneInvariant (build h c pOptions).1 := by
  have key : ∀ p : RawOptions, ZoneInvariant (build h c (some p)).1 := by
    intro p
    rcases claimZone_cases h c (checkType p.type).1 p.zone with h0 | h0 | ⟨hz, hfree, -, h0⟩
    · have : (build h c (some p)).1.reservedScreenZones = h.reservedScreenZones ∧
          (build h c (some p)).1.zonedLeft = h.zonedLeft ∧
          (build h c (some p)).1.zonedRight = h.zonedRight := by
        simp [build, claimZone_logged, h0, MobileHandler.log]
      exact zoneInvariant_congr _ _ this.1 this.2.1 this.2.2 hI
    · obtain ⟨r, logs, act, hb, -⟩ := build_after_claim h h c c p h0
      rw [hb]
      exact zoneInvariant_congr _ _ rfl rfl rfl hI
    · obtain ⟨r, logs, act, hb, -⟩ := build_after_claim h _ c _ p h0
      rw [hb]
      exact zoneInvariant_congr _ _ rfl rfl rfl (zoneInvariant_claim h p.zone c.id hz hfree hI)
  cases pOptions with
  | none => exact key RawOptions.default
  | some p => exact key p

theorem zoneInvariant_release (h : MobileHandler) (z : JSVal)
    (hz : z = .str "left" ∨ z = .str "right") (hI : ZoneInvariant h) :
    ZoneInvariant
      ((if z ∈ h.reservedScreenZones then
          { h with reservedScreenZones := h.reservedScreenZones.erase z }
        else h).setZoned z none) := by
  obtain ⟨hnd, hlr, hl, hr⟩ := hI
  have hne : JSVal.str "left" ≠ JSVal.str "right" := by decide
  have hsub : ∀ w, w ∈ h.reservedScreenZones.erase z → w ∈ h.reservedScreenZones :=
    fun w hw => List.mem_of_mem_erase hw
  rcases hz with rfl | rfl
  · simp only [MobileHandler.setZoned, if_true]
    split_ifs with hm
    · refine ⟨hnd.erase _, fun w hw => hlr w (hsub w hw), ?_, ?_⟩
      · simp [hnd.mem_erase_iff]
      · simp only [hnd.mem_erase_iff]
        rw [← hr]
        exact ⟨fun h' => h'.2, fun h' => ⟨hne.symm, h'⟩⟩
    · refine ⟨hnd, hlr, ?_, hr⟩
      simp [hm]
  · simp only [MobileHandler.setZoned, if_neg hne.symm, if_true]
    split_ifs with hm
    · refine ⟨hnd.erase _, fun w hw => hlr w (hsub w hw), ?_, ?_⟩
      · simp only [hnd.mem_erase_iff]
        rw [← hl]
        exact ⟨fun h' => h'.2, fun h' => ⟨hne, h'⟩⟩
      · simp [hnd.mem_erase_iff]
    · refine ⟨hnd, hlr, hl, ?_⟩
      simp [hm]

theorem releaseRegistry_preserves_zoneInvariant (h : MobileHandler) (c : Controller)
    (hI : ZoneInvariant h) : ZoneInvariant (releaseRegistry h c) := by
  have step : ZoneInvariant
      (if c.zone.truthy then
        if c.zone = .str "left" ∨ c.zone = .str "right" then
          (if c.zone ∈ h.reservedScreenZones then
            { h with reservedScreenZones := h.reservedScreenZones.erase c.zone }
          else h).setZoned c.zone none
        else
          (if c.zone ∈ h.reservedScreenZones then
            { h with reservedScreenZones := h.reservedScreenZones.erase c.zone }
          else h)
      else h) := by
    by_cases h1 : c.zone.truthy = true
    · rw [if_pos h1]
      by_cases h2 : c.zone = .str "left" ∨ c.zone = .str "right"
      · rw [if_pos h2]
        exact zoneInvariant_release h c.zone h2 hI
      · rw [if_neg h2]
        by_cases h3 : c.zone ∈ h.reservedScreenZones
        · exact absurd (hI.2.1 _ h3) h2
        · rw [if_neg h3]
          exact hI
    · rw [if_neg h1]
      exact hI
  have touched : ∀ r : MobileHandler, ZoneInvariant r →
      ZoneInvariant
        (if c.id ∈ r.touchedInstances then
          { r with touchedInstances := r.touchedInstances.erase c.id }
        else r) := by
    intro r hr
    by_cases ht : c.id ∈ r.touchedInstances
    · rw [if_pos ht]
      exact zoneInvariant_congr _ _ rfl rfl rfl hr
    · rw [if_neg ht]
      exact hr
  exact touched _ step

theorem reset_fst (h : MobileHandler) (c : Controller) (pSoft : Bool) :
    (reset h c pSoft).1 = h ∨ ∃ c', (reset h c pSoft).1 = releaseRegistry h c' := by
  unfold reset
  split
  · exact Or.inl rfl
  · cases pSoft
    · exact Or.inr ⟨c, rfl⟩
    · exact Or.inl rfl
  · cases pSoft
    · exact Or.inr ⟨_, rfl⟩
    · exact Or.inl rfl

theorem reset_preserves_zoneInvariant (h : MobileHandler) (c : Controller) (pSoft : Bool)
    (hI : ZoneInvariant h) : ZoneInvariant (reset h c pSoft).1 := by
  rcases reset_fst h c pSoft with e | ⟨c', e⟩
  · rw [e]; exact hI
  · rw [e]; exact releaseRegistry_preserves_zoneInvariant h c' hI

theorem initial_zoneInvariant : ZoneInvariant MobileHandler.initial := by
  refine ⟨List.nodup_nil, fun z hz => absurd hz (List.not_mem_nil z), ?_, ?_⟩ <;>
    simp [MobileHandler.initial]

/-- C9. In every handler state reachable from the initial (empty) registry by calls of
`build`, which include every construction, and of `reset`, soft or hard, on any controllers:
`reservedScreenZones` contains no zone twice, and a zone is in `reservedScreenZones` exactly
when `zonedControllers` maps it to a controller; so each zone has at most one owner. -/
theorem reachable_zone_claimed_once (h : MobileHandler) (hr : Reachable h) :
    h.reservedScreenZones.Nodup ∧
    ∀ z : JSVal, z ∈ h.reservedScreenZones ↔ (h.zoned z).isSome := by
  have hI : ZoneInvariant h := by
    induction hr with
    | initial => exact initial_zoneInvariant
    | build h c pOptions _ ih => exact build_preserves_zoneInvariant h c pOptions ih
    | reset h c pSoft _ ih => exact reset_preserves_zoneInvariant h c pSoft ih
  obtain ⟨hnd, hlr, hl, hrr⟩ := hI
  refine ⟨hnd, fun z => ?_⟩
  by_cases h1 : z = .str "left"
  · subst h1
    simpa [MobileHandler.zoned] using hl
  · by_cases h2 : z = .str "right"
    · subst h2
      simpa [MobileHandler.zoned] using hrr
    · simp only [MobileHandler.zoned, if_neg h1, if_neg h2, Option.isSome_none,
        Bool.false_eq_true, iff_false]
      intro hz
      rcases hlr z hz with e | e
      · exact h1 e
      · exact h2 e

/-- C9 at a concrete state: the handler with controller 0 on `'left'` and controller 1 on
`'right'` is reached by two constructions, and each of the two zones is reserved once and
owned by one controller. -/
theorem reachable_zone_claimed_once_witness :
    Reachable twoZoned ∧
    twoZoned.reservedScreenZones.Nodup ∧
    ∀ z : JSVal, z ∈ twoZoned.reservedScreenZones ↔ (twoZoned.zoned z).isSome := by
  have h1 : Reachable oneZoned := by
    have := Reachable.build MobileHandler.initial (Controller.fresh 0)
      (some (demoOptions "static" .null (.str "left"))) Reachable.initial
    rwa [← Controller.new, new_oneZoned] at this
  have h2 : Reachable twoZoned := by
    have := Reachable.build oneZoned (Controller.fresh 1)
      (some (demoOptions "traversal" .null (.str "right"))) h1
    rwa [← Controller.new, new_twoZoned] at this
  exact ⟨h2, reachable_zone_claimed_once twoZoned h2⟩

/-! ## C10: a rejected construction -/

/-- C10, refuted as stated. With controller 0 holding `'left'`, constructing a second static
controller on `'left'` cannot satisfy zone exclusivity, and the `new` expression still
evaluates to an instance: the constructor does not throw, and the early return of `build`
leaves the fresh instance, which the caller receives. -/
theorem rejected_construction_returns_instance :
    zoneConflict oneZoned (demoOptions "static" .null (.str "left")) ∧
    (Controller.new oneZoned 1 (some (demoOptions "static" .null (.str "left")))).2
      = .rejected (Controller.fresh 1) ∧
    (Controller.new oneZoned 1 (some (demoOptions "static" .null (.str "left")))).2.instance?
      = some (Controller.fresh 1) ∧
    (Controller.new oneZoned 1 (some (demoOptions "static" .null (.str "left")))).2.instance?
      ≠ none := by
  have hc : zoneConflict oneZoned (demoOptions "static" .null (.str "left")) := by
    refine ⟨Or.inr ?_, by decide, Or.inr (Or.inr (by decide))⟩
    simp [demoOptions, checkType]
  have e := build_of_conflict oneZoned (Controller.fresh 1) _ hc
  refine ⟨hc, ?_, ?_, ?_⟩
  · rw [Controller.new, e]
  · rw [Controller.new, e]; rfl
  · rw [Controller.new, e]; exact Option.some_ne_none _

/-- C10, amended: the caller does get an instance, an unconfigured one. When zone exclusivity
cannot be satisfied (the type is static or traversal, a zone is reserved, and the `zone`
option is falsy, not a string, or reserved), `new Controller(options)` returns the instance
as the field initialisers left it (`options` null, no zone, not active, not set up), and the
handler is as before the attempt except for the log: the reserved zones, the zone owners, the
active controllers and the touched instances are unchanged. -/
theorem rejected_construction_leaves_registry (h : MobileHandler) (id : Nat) (p : RawOptions)
    (hc : zoneConflict h p) :
    (Controller.new h id (some p)).2 = .rejected (Controller.fresh id) ∧
    (Controller.new h id (some p)).2.instance? = some (Controller.fresh id) ∧
    (Controller.fresh id).options = .null ∧ (Controller.fresh id).zone = .null ∧
    (Controller.new h id (some p)).1
      = { h with logged := h.logged ++ (checkSize p.size).2 ++ (checkType p.type).2
            ++ [Diagnostic.zoneRequired] } ∧
    (Controller.new h id (some p)).1.reservedScreenZones = h.reservedScreenZones ∧
    (Controller.new h id (some p)).1.zonedLeft = h.zonedLeft ∧
    (Controller.new h id (some p)).1.zonedRight = h.zonedRight ∧
    (Controller.new h id (some p)).1.activeControllers = h.activeControllers ∧
    (Controller.new h id (some p)).1.touchedInstances = h.touchedInstances := by
  have e := build_of_conflict h (Controller.fresh id) p hc
  rw [Controller.new, e]
  exact ⟨rfl, rfl, rfl, rfl, rfl, rfl, rfl, rfl, rfl, rfl⟩

/-- C10, amended, at a concrete input: with controller 0 holding `'left'`, the construction of
a second static controller on `'left'` returns the fresh instance 1 and leaves the handler as
it was, with one more log entry. -/
theorem rejected_construction_leaves_registry_witness :
    zoneConflict oneZoned (demoOptions "static" .null (.str "left")) ∧
    Controller.new oneZoned 1 (some (demoOptions "static" .null (.str "left")))
      = ({ oneZoned with logged := [Diagnostic.zoneRequired] },
          .rejected (Controller.fresh 1)) := by
  have hc : zoneConflict oneZoned (demoOptions "static" .null (.str "left")) := by
    refine ⟨Or.inr ?_, by decide, Or.inr (Or.inr (by decide))⟩
    simp [demoOptions, checkType]
  obtain ⟨h1, -, -, -, h2, -⟩ := rejected_construction_leaves_registry oneZoned 1 _ hc
  refine ⟨hc, Prod.ext ?_ h1⟩
  rw [h2]
  simp [oneZoned, MobileHandler.initial, demoOptions, RawOptions.default, checkSize, checkType,
    JSVal.asInteger?, Rat.isInt]

/-! ## Lemmas on `reset` and `release` -/

/-- The handler after a hard reset depends on the controller through its zone and its
identity only. -/
theorem releaseRegistry_congr (h : MobileHandler) (c c' : Controller)
    (hz : c'.zone = c.zone) (hid : c'.id = c.id) :
    releaseRegistry h c' = releaseRegistry h c := by
  unfold releaseRegistry
  rw [hz, hid]

/-- The controller a soft reset leaves, field by field. -/
theorem reset_soft_opts (h : MobileHandler) (c : Controller) (o : Options)
    (ho : c.options = .opts o) :
    reset h c true = (h, .ok { c with
      joystick := { c.joystick with
        alpha := o.inactiveAlpha, startPos := ⟨0, 0⟩, anglePoint := 0, layer := o.layer + 10 },
      joyring := { c.joyring with layer := o.layer },
      activeInZone := false, controllingFinger := none, active := false,
      emitted :=
        if c.active = true ∧ c.onRelease.isFunction = true then
          c.emitted ++ [.onRelease c.joystick.anglePoint]
        else c.emitted }) := by
  cases c
  simp only at ho
  subst ho
  unfold reset
  simp only
  split_ifs <;> simp_all

/-- The handler and the controller a hard reset leaves, field by field. -/
theorem reset_hard_opts (h : MobileHandler) (c : Controller) (o : Options)
    (ho : c.options = .opts o) :
    reset h c false = (releaseRegistry h c, .ok { c with
      joystick := { c.joystick with
        alpha := o.inactiveAlpha, startPos := ⟨0, 0⟩, anglePoint := 0, layer := o.layer + 10 },
      joyring := { c.joyring with layer := o.layer, onTouchBegin := .null },
      activeInZone := false, controllingFinger := none, active := false,
      emitted :=
        if c.active = true ∧ c.onRelease.isFunction = true then
          c.emitted ++ [.onRelease c.joystick.anglePoint]
        else c.emitted,
      onRelease := .null, onMove := .null, zone := .null, lockedDimension := .null,
      options := .empty }) := by
  cases c
  simp only at ho
  subst ho
  unfold reset
  simp only [Bool.false_eq_true, if_false]
  split_ifs <;> simp_all [releaseRegistry]

/-- An update that is not a touch start leaves an inactive controller as it is. -/
theorem update_inactive (K : Utils) (c : Controller) (pX pY : ℚ) (ha : c.active = false) :
    update K c pX pY false = .ok c := by
  by_cases hb : c.lockedDimension = .str "both"
  · simp [update, hb]
  · simp [update, hb, ha]

/-- Updates none of which is a touch start leave an inactive controller as it is. -/
theorem updates_inactive (K : Utils) (c : Controller) (ha : c.active = false)
    (us : List (ℚ × ℚ × Bool)) (hus : ∀ u ∈ us, u.2.2 = false) :
    updates K c us = .ok c := by
  induction us with
  | nil => rfl
  | cons u rest ih =>
    obtain ⟨pX, pY, ts⟩ := u
    have hts : ts = false := hus (pX, pY, ts) (List.mem_cons_self _ _)
    subst hts
    simp only [updates, update_inactive K c pX pY ha]
    exact ih (fun u hu => hus u (List.mem_cons_of_mem _ hu))

/-- Every reachable handler state satisfies the invariant of the zone registry. -/
theorem zoneInvariant_of_reachable (h : MobileHandler) (hr : Reachable h) : ZoneInvariant h := by
  induction hr with
  | initial => exact initial_zoneInvariant
  | build h c pOptions _ ih => exact build_preserves_zoneInvariant h c pOptions ih
  | reset h c pSoft _ ih => exact reset_preserves_zoneInvariant h c pSoft ih

/-- The drag that leads from the touched static sample to `demoDragged`. -/
theorem update_demoTouched_drag :
    update taxicab (demoTouched .static .null .null) 300 340 false = .ok demoDragged := by
  simp [update, whileActive, demoTouched, demo, demoDragged, afterPosition, clamp, taxicab,
    Joystick.setPos, JSVal.isFunction, diamondAngle, diamondDir]
  norm_num [diamondAngle, diamondDir, abs_of_pos]

/-- A release that is not forced, on a controller not locked on both axes: the soft reset,
then both elements back at their original positions and the fade transition. -/
theorem release_soft_opts (h : MobileHandler) (c : Controller) (o : Options)
    (ho : c.options = .opts o) (hl : c.lockedDimension ≠ .str "both") :
    ∃ tw, release h c false = (h, .ok { c with
      tween := tw,
      joystick := { c.joystick with
        alpha := o.inactiveAlpha, startPos := ⟨0, 0⟩, anglePoint := 0, layer := o.layer + 10,
        xPos := c.joystick.originalPos.x, yPos := c.joystick.originalPos.y },
      joyring := { c.joyring with
        layer := o.layer, xPos := c.joyring.originalPos.x, yPos := c.joyring.originalPos.y },
      activeInZone := false, controllingFinger := none, active := false,
      emitted :=
        if c.active = true ∧ c.onRelease.isFunction = true then
          c.emitted ++ [.onRelease c.joystick.anglePoint]
        else c.emitted }) := by
  unfold release
  rw [if_neg hl]
  simp only [Bool.false_eq_true, not_false_eq_true, if_true, reset_soft_opts h c o ho]
  obtain ⟨tw, htw⟩ := handleTransition_opts
    { c with
      joystick := { c.joystick with
        alpha := o.inactiveAlpha, startPos := ⟨0, 0⟩, anglePoint := 0, layer := o.layer + 10,
        xPos := c.joystick.originalPos.x, yPos := c.joystick.originalPos.y },
      joyring := { c.joyring with
        layer := o.layer, xPos := c.joyring.originalPos.x, yPos := c.joyring.originalPos.y },
      activeInZone := false, controllingFinger := none, active := false,
      emitted :=
        if c.active = true ∧ c.onRelease.isFunction = true then
          c.emitted ++ [.onRelease c.joystick.anglePoint]
        else c.emitted } o true ho
  exact ⟨tw, by simpa [Joyring.setPos, Joystick.setPos] using congrArg (Prod.mk h) htw⟩

/-- What a release that is not forced leaves, as far as the statements below read it. -/
theorem release_soft_fields (h : MobileHandler) (c : Controller) (o : Options)
    (ho : c.options = .opts o) (hl : c.lockedDimension ≠ .str "both") :
    ∃ c1, release h c false = (h, .ok c1) ∧
      c1.options = c.options ∧ c1.lockedDimension = c.lockedDimension ∧
      c1.onRelease = c.onRelease ∧ c1.onMove = c.onMove ∧
      c1.active = false ∧ c1.controllingFinger = none ∧ c1.joystick.anglePoint = 0 ∧
      c1.joyring.layer = o.layer ∧ c1.joystick.layer = o.layer + 10 ∧
      c1.emitted =
        (if c.active = true ∧ c.onRelease.isFunction = true then
          c.emitted ++ [.onRelease c.joystick.anglePoint]
        else c.emitted) := by
  obtain ⟨tw, h1⟩ := release_soft_opts h c o ho hl
  exact ⟨_, h1, rfl, rfl, rfl, rfl, rfl, rfl, rfl, rfl, rfl, rfl⟩

/-- A forced release, on a controller not locked on both axes: both elements back at their
original positions and the fade transition, nothing else. -/
theorem release_forced_opts (h : MobileHandler) (c : Controller) (o : Options)
    (ho : c.options = .opts o) (hl : c.lockedDimension ≠ .str "both") :
    ∃ tw, release h c true = (h, .ok { c with
      tween := tw,
      joyring := c.joyring.setPos c.joyring.originalPos.x c.joyring.originalPos.y,
      joystick := c.joystick.setPos c.joystick.originalPos.x c.joystick.originalPos.y }) := by
  unfold release
  rw [if_neg hl]
  obtain ⟨tw, htw⟩ := handleTransition_opts
    { c with
      joyring := c.joyring.setPos c.joyring.originalPos.x c.joyring.originalPos.y,
      joystick := c.joystick.setPos c.joystick.originalPos.x c.joystick.originalPos.y } o true ho
  exact ⟨tw, by simpa using congrArg (Prod.mk h) htw⟩

/-- The touched instances after the registry part of a hard reset. -/
theorem releaseRegistry_touchedInstances (h : MobileHandler) (c : Controller) :
    (releaseRegistry h c).touchedInstances = h.touchedInstances.erase c.id := by
  unfold releaseRegistry
  simp only
  split_ifs with h1 h2 h3 h4 h5 h6 <;>
    simp_all [MobileHandler.setZoned, List.erase_of_not_mem] <;>
    split_ifs <;> simp_all [List.erase_of_not_mem]

/-- The zone registry after the registry part of a hard reset of a controller whose zone is
`'left'` or `'right'`. -/
theorem releaseRegistry_zone (h : MobileHandler) (c : Controller)
    (hz : c.zone = .str "left" ∨ c.zone = .str "right") :
    (releaseRegistry h c).reservedScreenZones = h.reservedScreenZones.erase c.zone ∧
    (releaseRegistry h c).zoned c.zone = none ∧
    (∀ z : JSVal, z ≠ c.zone → (releaseRegistry h c).zoned z = h.zoned z) := by
  have ht : c.zone.truthy = true := by
    rcases hz with e | e <;> rw [e] <;> decide
  have hne : JSVal.str "right" ≠ JSVal.str "left" := by decide
  unfold releaseRegistry
  simp only [ht, hz, if_true, or_self]
  rcases hz with e | e
  · rw [e]
    refine ⟨?_, ?_, ?_⟩
    · split_ifs <;> simp_all [MobileHandler.setZoned, List.erase_of_not_mem]
    · split_ifs <;> simp_all [MobileHandler.setZoned, MobileHandler.zoned]
    · intro z hzne
      split_ifs <;> simp_all [MobileHandler.setZoned, MobileHandler.zoned]
  · rw [e]
    refine ⟨?_, ?_, ?_⟩
    · split_ifs <;> simp_all [MobileHandler.setZoned, List.erase_of_not_mem]
    · split_ifs <;> simp_all [MobileHandler.setZoned, MobileHandler.zoned]
    · intro z hzne
      split_ifs <;> simp_all [MobileHandler.setZoned, MobileHandler.zoned]

/-- A static or traversal controller asking for a zone `'left'` or `'right'` that is not
reserved passes the zone check: `build` registers the zone and is not rejected. -/
theorem build_of_free_zone (h : MobileHandler) (c : Controller) (p : RawOptions) (z : String)
    (hz : z = "left" ∨ z = "right")
    (htype : p.type = .str "static" ∨ p.type = .str "traversal")
    (hzone : p.zone = .str z) (hfree : JSVal.str z ∉ h.reservedScreenZones) :
    ¬ zoneConflict h p ∧
    ∃ r logs act,
      build h c (some p)
        = ({ (({ h with reservedScreenZones := h.reservedScreenZones ++ [JSVal.str z] }).setZoned
              (.str z) (some c.id)) with logged := logs, activeControllers := act }, r) ∧
      (∀ c', r ≠ .rejected c') ∧
      (∀ c', r = .built c' →
        c'.id = c.id ∧ c'.zone = .str z ∧ act = h.activeControllers ++ [c.id]) := by
  have hty : (checkType p.type).1 = .traversal ∨ (checkType p.type).1 = .static := by
    rcases htype with e | e <;> rw [e] <;> simp [checkType]
  have hzt : (JSVal.str z).truthy = true := by
    rcases hz with rfl | rfl <;> decide
  have hbad : ¬ (¬ p.zone.truthy ∨ ¬ p.zone.isString ∨ p.zone ∈ h.reservedScreenZones) := by
    rw [hzone]
    rintro (hb | hb | hb)
    · exact hb hzt
    · exact hb rfl
    · exact hfree hb
  have hlr : p.zone = .str "left" ∨ p.zone = .str "right" := by
    rcases hz with rfl | rfl
    · exact Or.inl hzone
    · exact Or.inr hzone
  have hcz : claimZone h c (checkType p.type).1 p.zone = some
      (({ h with reservedScreenZones := h.reservedScreenZones ++ [JSVal.str z] }).setZoned
        (.str z) (some c.id), { c with zone := .str z }) := by
    unfold claimZone
    rw [if_pos hty, if_neg (fun hc => hbad hc.2), if_pos hlr, hzone]
  refine ⟨fun hc => hbad hc.2.2, ?_⟩
  obtain ⟨r, logs, act, hb, hnr, -, hbuilt⟩ := build_after_claim h _ c _ p hcz
  refine ⟨r, logs, act, hb, hnr, ?_⟩
  intro c' hc'
  obtain ⟨h1, h2, -, h4⟩ := hbuilt c' hc'
  exact ⟨h1, h2, h4⟩

/-! ## Lemmas on the callback stage of `update` -/

theorem afterPosition_emitted (K : Utils) (c : Controller) (sp tp : Pos) (m : Clamp) :
    (afterPosition K c sp tp m).emitted =
      if c.onMove.isFunction = true then
        c.emitted ++ [.onMove
          (K.normalizeRanged sp.x (tp.x - c.joyring.halfSize) (tp.x + c.joyring.halfSize))
          (K.normalizeRanged sp.y (tp.y - c.joyring.halfSize) (tp.y + c.joyring.halfSize))
          (K.convertRaWAngleToVyloCoords m.angle)
          (decide (|m.clampedDistance| < c.joyring.width * (1 / 10)))]
      else c.emitted := by
  unfold afterPosition
  simp only
  split <;> rfl

theorem afterPosition_anglePoint (K : Utils) (c : Controller) (sp tp : Pos) (m : Clamp) :
    (afterPosition K c sp tp m).joystick.anglePoint = K.convertRaWAngleToVyloCoords m.angle := by
  unfold afterPosition
  simp only
  split <;> rfl

/-- An update that reaches the callback stage (lines 475-491): the controller is active
during the update, and the update is not the touch start of a static or traversal controller.
It succeeds, stores the angle, and calls `onMove`, if bound, once with the four values. -/
theorem update_reaches_callback (K : Utils) (c : Controller) (o : Options) (pX pY : ℚ)
    (pTouchStart : Bool)
    (ho : c.options = .opts o) (hl : c.lockedDimension ≠ .str "both")
    (hact : c.active = true ∨ pTouchStart = true)
    (hreach : pTouchStart = false ∨ o.type = .stationary) :
    ∃ c1, update K c pX pY pTouchStart = .ok c1 ∧ c1.active = true ∧
      c1.options = c.options ∧ c1.lockedDimension = c.lockedDimension ∧
      c1.joystick.anglePoint = K.convertRaWAngleToVyloCoords
        (K.getAngle (startingPos o.type c) (touchPosOf o.type c pX pY)) ∧
      c1.emitted =
        (if c.onMove.isFunction = true then
          c.emitted ++ [.onMove
            (K.normalizeRanged (startingPos o.type c1).x
              ((touchPosOf o.type c pX pY).x - c.joyring.halfSize)
              ((touchPosOf o.type c pX pY).x + c.joyring.halfSize))
            (K.normalizeRanged (startingPos o.type c1).y
              ((touchPosOf o.type c pX pY).y - c.joyring.halfSize)
              ((touchPosOf o.type c pX pY).y + c.joyring.halfSize))
            c1.joystick.anglePoint
            (decide (|min (K.getDistance (startingPos o.type c) (touchPosOf o.type c pX pY))
                c.joyring.halfSize| < c.joyring.width * (1 / 10)))]
        else c.emitted) ∧
      c1.joystick.originalPos = c.joystick.originalPos ∧
      c1.joystick.startPos =
        (if o.type = .traversal ∧
            min (K.getDistance c.joystick.startPos (touchPosOf o.type c pX pY)) c.joyring.halfSize
              < K.getDistance c.joystick.startPos (touchPosOf o.type c pX pY) then
          K.calculateNewPositionFromDistanceAndAngle (touchPosOf o.type c pX pY)
            (min (K.getDistance c.joystick.startPos (touchPosOf o.type c pX pY))
              c.joyring.halfSize)
            (K.getAngle (touchPosOf o.type c pX pY) c.joystick.startPos)
        else c.joystick.startPos) := by
  obtain ⟨tw, hb⟩ := beginTouch_opts c o ho
  cases hty : o.type with
  | stationary =>
    cases pTouchStart with
    | false =>
      have ha : c.active = true := by simpa using hact
      refine ⟨_, by simp [update, whileActive, hl, ha, ho, hty]; rfl, ?_⟩
      simp [afterPosition_emitted, afterPosition_anglePoint, startingPos, touchPosOf, clamp,
        Joystick.setPos, ha, ho]
    | true =>
      refine ⟨_, by simp [update, whileActive, hl, hb, ho, hty]; rfl, ?_⟩
      simp [afterPosition_emitted, afterPosition_anglePoint, startingPos, touchPosOf, clamp,
        Joystick.setPos, ho]
  | static =>
    have hts : pTouchStart = false := by
      rcases hreach with e | e
      · exact e
      · rw [hty] at e; cases e
    subst hts
    have ha : c.active = true := by simpa using hact
    refine ⟨_, by simp [update, whileActive, hl, ha, ho, hty]; rfl, ?_⟩
    simp [afterPosition_emitted, afterPosition_anglePoint, startingPos, touchPosOf, clamp,
      Joystick.setPos, ha, ho]
  | traversal =>
    have hts : pTouchStart = false := by
      rcases hreach with e | e
      · exact e
      · rw [hty] at e; cases e
    subst hts
    have ha : c.active = true := by simpa using hact
    refine ⟨_, by simp [update, whileActive, hl, ha, ho, hty]; rfl, ?_⟩
    refine ⟨?_, ?_, ?_, ?_, ?_, ?_, ?_⟩
    · simp [Controller.traverse, ha]
    · simp [Controller.traverse, ho]
    · simp [Controller.traverse]
    · simp [Controller.traverse, afterPosition_anglePoint, startingPos, touchPosOf, clamp]
    · simp [Controller.traverse, afterPosition_emitted, afterPosition_anglePoint, startingPos,
        touchPosOf, clamp, Joystick.setPos, Joyring.setPos]
    · simp [Controller.traverse, Joystick.setPos]
      split_ifs <;> rfl
    · rw [traverse_startPos]
      simp [touchPosOf]

/-- The touch start of a static or traversal controller (lines 431-436): the update returns
before the callback stage, with ring, stick and anchor at the touch position. -/
theorem update_touchStart_spawns (K : Utils) (c : Controller) (o : Options) (pX pY : ℚ)
    (ho : c.options = .opts o) (hl : c.lockedDimension ≠ .str "both")
    (hty : o.type ≠ .stationary) :
    ∃ c1, update K c pX pY true = .ok c1 ∧ c1.active = true ∧ c1.emitted = c.emitted ∧
      c1.joystick.anglePoint = c.joystick.anglePoint ∧
      c1.joystick.startPos = ⟨pX - c.joystick.halfSize, pY - c.joystick.halfSize⟩ := by
  obtain ⟨tw, hb⟩ := beginTouch_opts c o ho
  cases hty' : o.type with
  | stationary => exact absurd hty' hty
  | static =>
    refine ⟨_, by simp [update, whileActive, hl, hb, ho, hty']; rfl, ?_⟩
    simp [touchStart, Joystick.setPos]
  | traversal =>
    refine ⟨_, by simp [update, whileActive, hl, hb, ho, hty']; rfl, ?_⟩
    simp [touchStart, Joystick.setPos]

/-! ## Lemmas on the validation of the options -/

theorem checkSize_documented (v : JSVal) : (checkSize v).1 = documentedInteger v 100 := by
  cases v <;> simp [checkSize, JSVal.asInteger?, documentedInteger, Rat.isInt]
  split_ifs <;> rfl

theorem checkScale_documented (v : JSVal) : (checkScale v).1 = documentedInteger v 1 := by
  cases v <;> simp [checkScale, JSVal.asInteger?, documentedInteger, Rat.isInt]
  split_ifs <;> rfl

theorem checkNumber_documented (v : JSVal) (d : ℚ) : checkNumber v d = documentedNumber v d := by
  cases v <;> rfl

theorem checkString_documented (v : JSVal) (d : Diagnostic) :
    (checkString v d).1 = documentedString v := by
  cases v <;> rfl

theorem checkType_documented (v : JSVal) : (checkType v).1 = documentedType v := by
  cases v <;> simp [checkType, documentedType]
  split_ifs <;> simp_all

theorem checkPosition_documented (p : PositionArg) (pos : Pos × List Diagnostic)
    (h : checkPosition p = some pos) : pos.1 = documentedPosition p := by
  cases p with
  | nullish => cases h
  | notPlainObject => cases h; rfl
  | plain x y =>
    simp only [checkPosition, Option.some.injEq] at h
    subst h
    simp only [documentedPosition]
    congr 1
    · cases x <;> simp [JSVal.asInteger?, documentedInteger, Rat.isInt]
      split_ifs <;> rfl
    · cases y <;> simp [JSVal.asInteger?, documentedInteger, Rat.isInt]
      split_ifs <;> rfl

/-- The options an accepted `build` stores: the checked value of every field. -/
theorem build_built_options (h h' : MobileHandler) (c c2 : Controller) (p : RawOptions)
    (hb : build h c (some p) = (h', .built c2)) :
    ∃ pos, checkPosition p.position = some pos ∧
      c2.options = .opts {
        type := (checkType p.type).1, size := (checkSize p.size).1, position := pos.1,
        lockedDimension := (checkLockedDimension (checkType p.type).1 p.lockedDimension).1,
        zone := p.zone,
        inactiveAlpha := checkNumber p.inactiveAlpha (1 / 2),
        transitionTime := checkNumber p.transitionTime 500,
        scale := (checkScale p.scale).1, plane := checkNumber p.plane 1,
        layer := checkNumber p.layer 1,
        atlasName := (checkString p.atlasName .atlasNameNotString).1,
        joystickIconName := (checkString p.joystickIconName .joystickIconNameNotString).1,
        joyringIconName := (checkString p.joyringIconName .joyringIconNameNotString).1,
        callback := p.callback } := by
  simp only [build, Option.getD_some] at hb
  split at hb
  · cases hb
  · split at hb
    · cases hb
    · rename_i pos hpos
      split at hb
      · rename_i h5 c3 hs
        obtain ⟨-, -, o2, -⟩ := setup_ok_fields _ _ _ _ hs
        simp only [Prod.mk.injEq, BuildResult.built.injEq] at hb
        obtain ⟨-, rfl⟩ := hb
        exact ⟨pos, hpos, o2⟩
      · cases hb

/-! ## The taxicab kernel satisfies the further assumptions -/

theorem taxicab_axisDominated : taxicab.AxisDominated := by
  intro a b
  show |b.x - a.x| ≤ |b.x - a.x| + |b.y - a.y| ∧ |b.y - a.y| ≤ |b.x - a.x| + |b.y - a.y|
  exact ⟨le_add_of_nonneg_right (abs_nonneg _), le_add_of_nonneg_left (abs_nonneg _)⟩

theorem taxicab_normalizeWithin : taxicab.NormalizeWithin := by
  intro v lo hi h1 h2
  show -1 ≤ (if hi = lo then 0 else 2 * (v - lo) / (hi - lo) - 1) ∧
    (if hi = lo then 0 else 2 * (v - lo) / (hi - lo) - 1) ≤ 1
  split_ifs with h
  · norm_num
  · have hpos : 0 < hi - lo := by
      rcases lt_or_eq_of_le (h1.trans h2) with hlt | heq
      · linarith
      · exact absurd heq.symm h
    constructor
    · have : 0 ≤ 2 * (v - lo) / (hi - lo) := div_nonneg (by linarith) hpos.le
      linarith
    · have : 2 * (v - lo) / (hi - lo) ≤ 2 := by
        rw [div_le_iff₀ hpos]
        linarith
      linarith

/-- The window of one radius around `t` contains `v` exactly when `v` is within one radius
of `t`. -/
theorem window_iff_abs (v t r : ℚ) : (t - r ≤ v ∧ v ≤ t + r) ↔ |t - v| ≤ r := by
  rw [abs_le]
  constructor
  · rintro ⟨h1, h2⟩
    exact ⟨by linarith, by linarith⟩
  · rintro ⟨h1, h2⟩
    exact ⟨by linarith, by linarith⟩

/-! ## C11: a release invokes `onRelease` once -/

/-- C11. For every controller (set up, with `onRelease` bound) that is not locked on both
axes: `release(false)` while active succeeds, invokes `onRelease` exactly once, with the
value `joystick.anglePoint` had before the release set it to 0, and leaves the controller
inactive with no controlling finger. After that, updates that are not touch starts change
nothing, and a second `release(false)` succeeds and invokes no callback. -/
theorem release_invokes_onRelease_once (K : Utils) (h : MobileHandler) (c : Controller)
    (o : Options) (us : List (ℚ × ℚ × Bool))
    (ho : c.options = .opts o) (hl : c.lockedDimension ≠ .str "both")
    (ha : c.active = true) (hf : c.onRelease.isFunction = true)
    (hus : ∀ u ∈ us, u.2.2 = false) :
    ∃ c1, release h c false = (h, .ok c1) ∧
      c1.emitted = c.emitted ++ [.onRelease c.joystick.anglePoint] ∧
      c1.active = false ∧ c1.controllingFinger = none ∧ c1.joystick.anglePoint = 0 ∧
      updates K c1 us = .ok c1 ∧
      ∃ c2, release h c1 false = (h, .ok c2) ∧
        c2.emitted = c1.emitted ∧ c2.active = false ∧ c2.controllingFinger = none := by
  obtain ⟨c1, h1, o1, l1, r1, -, a1, f1, g1, -, -, e1⟩ := release_soft_fields h c o ho hl
  obtain ⟨c2, h2, -, -, -, -, a2, f2, -, -, -, e2⟩ :=
    release_soft_fields h c1 o (o1.trans ho) (l1 ▸ hl)
  refine ⟨c1, h1, ?_, a1, f1, g1, updates_inactive K c1 a1 us hus, c2, h2, ?_, a2, f2⟩
  · rw [e1, if_pos ⟨ha, hf⟩]
  · rw [e2, if_neg (by simp [a1])]

/-- C11 at a concrete input: the static sample touched at `(300, 300)` and dragged to
`(300, 340)`, where the update stored the angle 1 and passed it to `onMove`. The release
calls `onRelease` with 1; a later update and a second release add no call. -/
theorem release_invokes_onRelease_once_witness :
    update taxicab (demoTouched .static .null .null) 300 340 false = .ok demoDragged ∧
    demoDragged.emitted = [.onMove 0 (-4 / 5) 1 false] ∧
    ∃ c1, release MobileHandler.initial demoDragged false = (MobileHandler.initial, .ok c1) ∧
      c1.emitted = [.onMove 0 (-4 / 5) 1 false, .onRelease 1] ∧
      c1.active = false ∧ c1.controllingFinger = none ∧
      updates taxicab c1 [(500, 500, false)] = .ok c1 ∧
      ∃ c2, release MobileHandler.initial c1 false = (MobileHandler.initial, .ok c2) ∧
        c2.emitted = [.onMove 0 (-4 / 5) 1 false, .onRelease 1] ∧ c2.active = false := by
  obtain ⟨c1, h1, h2, h3, h4, -, h6, c2, h7, h8, h9, -⟩ :=
    release_invokes_onRelease_once taxicab MobileHandler.initial demoDragged _
      [(500, 500, false)] rfl (by decide) rfl rfl
      (by intro u hu; rw [List.mem_singleton] at hu; rw [hu])
  have e : c1.emitted = [.onMove 0 (-4 / 5) 1 false, .onRelease 1] := by
    rw [h2]; rfl
  exact ⟨update_demoTouched_drag, rfl, c1, h1, e, h3, h4, h6, c2, h7, h8.trans e, h9⟩

/-! ## C12: a forced release -/

/-- C12, refuted as stated. The static sample controller holds the zone `'left'`, is active
under finger 7 with both layers raised, and its ring is among the touched instances.
`release(true)` skips the reset (line 501): it only moves the two elements back and starts
the fade. The controller is still active and still has its controlling finger, its raised
layers, its callbacks and its zone; no callback was invoked; the handler is unchanged, so the
zone is still reserved and the ring still among the touched instances. -/
theorem forced_release_skips_the_reset :
    demoHeld.active = true ∧ demoHeld.onRelease.isFunction = true ∧
    release oneZonedTouched demoHeld true
      = (oneZonedTouched, .ok { demoHeld with
          tween := .animating 1 (1 / 2) 500,
          joyring := { demoHeld.joyring with xPos := 100, yPos := 100 },
          joystick := { demoHeld.joystick with xPos := 125, yPos := 125 } }) ∧
    demoHeld.emitted = [] ∧ demoHeld.controllingFinger = some 7 ∧
    demoHeld.joyring.layer = MAX_LAYER ∧ demoHeld.joystick.layer = MAX_LAYER + 10 ∧
    demoHeld.onRelease = .func 1 ∧ demoHeld.onMove = .func 2 ∧ demoHeld.zone = .str "left" ∧
    JSVal.str "left" ∈ oneZonedTouched.reservedScreenZones ∧
    oneZonedTouched.zoned (.str "left") = some 0 ∧
    demoHeld.id ∈ oneZonedTouched.touchedInstances := by
  refine ⟨rfl, rfl, ?_, rfl, rfl, rfl, rfl, rfl, rfl, rfl, by decide, rfl, by decide⟩
  simp [release, demoHeld, demoTouched, demo, handleTransition, Joyring.setPos, Joystick.setPos]

/-- C12, amended. On a controller that is set up and not locked on both axes, `release(true)`
only moves the two elements back to their original positions and starts the fade: every
other field of the controller (active flag, controlling finger, layers, callbacks, zone,
record of callback calls) and the handler are as before. The teardown is `reset(false)`: it
invokes `onRelease` with the stored angle if the controller was active and the callback is
bound, sets `active` to false, clears the controlling finger, sets the ring layer to
`options.layer` and the stick layer to `options.layer + 10`, clears the three callbacks and
the zone, removes the ring from the touched instances and, for a zone `'left'` or `'right'`,
removes the zone from the reserved zones and clears its owner. -/
theorem forced_release_only_repositions (h : MobileHandler) (c : Controller) (o : Options)
    (ho : c.options = .opts o) (hl : c.lockedDimension ≠ .str "both") :
    (∃ tw, release h c true = (h, .ok { c with
      tween := tw,
      joyring := c.joyring.setPos c.joyring.originalPos.x c.joyring.originalPos.y,
      joystick := c.joystick.setPos c.joystick.originalPos.x c.joystick.originalPos.y })) ∧
    (∃ c1, reset h c false = (releaseRegistry h c, .ok c1) ∧
      c1.emitted =
        (if c.active = true ∧ c.onRelease.isFunction = true then
          c.emitted ++ [.onRelease c.joystick.anglePoint]
        else c.emitted) ∧
      c1.active = false ∧ c1.controllingFinger = none ∧
      c1.joyring.layer = o.layer ∧ c1.joystick.layer = o.layer + 10 ∧
      c1.onRelease = .null ∧ c1.onMove = .null ∧ c1.joyring.onTouchBegin = .null ∧
      c1.zone = .null ∧
      (releaseRegistry h c).touchedInstances = h.touchedInstances.erase c.id ∧
      (c.zone = .str "left" ∨ c.zone = .str "right" →
        (releaseRegistry h c).reservedScreenZones = h.reservedScreenZones.erase c.zone ∧
        (releaseRegistry h c).zoned c.zone = none)) := by
  refine ⟨release_forced_opts h c o ho hl, _, reset_hard_opts h c o ho, rfl, rfl, rfl, rfl, rfl,
    rfl, rfl, rfl, rfl, releaseRegistry_touchedInstances h c, fun hz => ?_⟩
  exact ⟨(releaseRegistry_zone h c hz).1, (releaseRegistry_zone h c hz).2.1⟩

/-- C12, amended, at a concrete input: the active static sample holding `'left'`. The forced
release leaves it active; the hard reset calls `onRelease` once, deactivates it and empties
the registry. -/
theorem forced_release_only_repositions_witness :
    (∃ tw, release oneZonedTouched demoHeld true = (oneZonedTouched, .ok { demoHeld with
      tween := tw,
      joyring := { demoHeld.joyring with xPos := 100, yPos := 100 },
      joystick := { demoHeld.joystick with xPos := 125, yPos := 125 } })) ∧
    (∃ c1, reset oneZonedTouched demoHeld false
        = ({ MobileHandler.initial with activeControllers := [0] }, .ok c1) ∧
      c1.emitted = [.onRelease 0] ∧ c1.active = false ∧ c1.controllingFinger = none ∧
      c1.joyring.layer = 1 ∧ c1.joystick.layer = 11 ∧
      c1.onRelease = .null ∧ c1.onMove = .null ∧ c1.zone = .null) := by
  obtain ⟨h1, c1, h2, h3, h4, h5, h6, h7, h8, h9, -, h11, -, -⟩ :=
    forced_release_only_repositions oneZonedTouched demoHeld _ rfl (by decide)
  refine ⟨h1, c1, ?_, ?_, h4, h5, h6, ?_, h8, h9, h11⟩
  · rw [h2]
    simp [releaseRegistry, demoHeld, demoTouched, demo, oneZonedTouched, oneZoned,
      MobileHandler.initial, MobileHandler.setZoned, JSVal.truthy]
  · rw [h3]; rfl
  · rw [h7]; norm_num

/-! ## C13: a hard reset gives the zone back -/

/-- C13. Let the reserved zones hold no zone twice (as in every reachable state, see
`zoneInvariant_of_reachable`), and let a set-up controller hold the zone `z`, one of `'left'`
and `'right'`, `z'` being the other. `reset(false)` succeeds; afterwards `z` is not reserved
and `zonedControllers[z]` is empty, the controller has no zone, no lock and no callback, and
`z'` is reserved exactly if it was, with the same owner. Constructing a static or traversal
controller on `z` after that passes the zone check: `build` is not rejected, `z` is reserved
again and `zonedControllers[z]` is the new controller, whose zone is `z` when `build` runs to
its end. -/
theorem hard_reset_frees_zone (h : MobileHandler) (c : Controller) (o : Options)
    (z z' : String)
    (hz : (z = "left" ∧ z' = "right") ∨ (z = "right" ∧ z' = "left"))
    (hnd : h.reservedScreenZones.Nodup)
    (ho : c.options = .opts o) (hzone : c.zone = .str z) :
    ∃ c1, reset h c false = (releaseRegistry h c, .ok c1) ∧
      JSVal.str z ∉ (releaseRegistry h c).reservedScreenZones ∧
      (releaseRegistry h c).zoned (.str z) = none ∧
      c1.zone = .null ∧ c1.lockedDimension = .null ∧
      c1.onRelease = .null ∧ c1.onMove = .null ∧ c1.joyring.onTouchBegin = .null ∧
      (JSVal.str z' ∈ (releaseRegistry h c).reservedScreenZones
        ↔ JSVal.str z' ∈ h.reservedScreenZones) ∧
      (releaseRegistry h c).zoned (.str z') = h.zoned (.str z') ∧
      ∀ (c' : Controller) (p : RawOptions),
        (p.type = .str "static" ∨ p.type = .str "traversal") → p.zone = .str z →
        ¬ zoneConflict (releaseRegistry h c) p ∧
        ∃ r logs act,
          build (releaseRegistry h c) c' (some p)
            = ({ (({ releaseRegistry h c with
                    reservedScreenZones :=
                      (releaseRegistry h c).reservedScreenZones ++ [JSVal.str z] }).setZoned
                  (.str z) (some c'.id)) with logged := logs, activeControllers := act }, r) ∧
          (∀ d, r ≠ .rejected d) ∧
          (({ releaseRegistry h c with
              reservedScreenZones :=
                (releaseRegistry h c).reservedScreenZones ++ [JSVal.str z] }).setZoned
            (.str z) (some c'.id)).zoned (.str z) = some c'.id ∧
          (∀ d, r = .built d → d.id = c'.id ∧ d.zone = .str z) := by
  have hlr : c.zone = .str "left" ∨ c.zone = .str "right" := by
    rcases hz with ⟨rfl, -⟩ | ⟨rfl, -⟩
    · exact Or.inl hzone
    · exact Or.inr hzone
  have hzlr : z = "left" ∨ z = "right" := by
    rcases hz with ⟨e, -⟩ | ⟨e, -⟩
    · exact Or.inl e
    · exact Or.inr e
  have hne : JSVal.str z' ≠ JSVal.str z := by
    rcases hz with ⟨rfl, rfl⟩ | ⟨rfl, rfl⟩ <;> decide
  obtain ⟨hres, hown, hother⟩ := releaseRegistry_zone h c hlr
  rw [hzone] at hres hown hother
  have hfree : JSVal.str z ∉ (releaseRegistry h c).reservedScreenZones := by
    rw [hres, hnd.mem_erase_iff]
    exact fun hm => hm.1 rfl
  refine ⟨_, reset_hard_opts h c o ho, hfree, hown, rfl, rfl, rfl, rfl, rfl, ?_,
    hother _ hne, ?_⟩
  · rw [hres, hnd.mem_erase_iff]
    exact ⟨fun hm => hm.2, fun hm => ⟨hne, hm⟩⟩
  · intro c' p htype hpz
    obtain ⟨hnc, r, logs, act, hb, hnr, hbuilt⟩ :=
      build_of_free_zone (releaseRegistry h c) c' p z hzlr htype hpz hfree
    refine ⟨hnc, r, logs, act, hb, hnr, ?_, fun d hd => ⟨(hbuilt d hd).1,
      (hbuilt d hd).2.1⟩⟩
    rcases hzlr with rfl | rfl <;> simp [MobileHandler.setZoned, MobileHandler.zoned]

/-- C13 at a concrete input: with controller 0 on `'left'` and controller 1 on `'right'`,
the hard reset of controller 0 leaves `'right'` reserved for controller 1 and `'left'` free,
and a traversal controller 2 is then built on `'left'`. -/
theorem hard_reset_frees_zone_witness :
    twoZoned.reservedScreenZones.Nodup ∧ demoHeld.zone = .str "left" ∧
    twoZoned.zoned (.str "left") = some demoHeld.id ∧
    (∃ c1, reset twoZoned demoHeld false
        = ({ twoZoned with reservedScreenZones := [.str "right"], zonedLeft := none }, .ok c1) ∧
      c1.zone = .null ∧ c1.lockedDimension = .null ∧
      c1.onRelease = .null ∧ c1.onMove = .null ∧ c1.joyring.onTouchBegin = .null) ∧
    Controller.new { twoZoned with reservedScreenZones := [.str "right"], zonedLeft := none } 2
        (some (demoOptions "traversal" .null (.str "left")))
      = ({ twoZoned with
            reservedScreenZones := [.str "right", .str "left"], zonedLeft := some 2,
            activeControllers := [0, 1, 2] },
          .built { demo .traversal .null (.str "left") with id := 2 }) := by
  obtain ⟨c1, h1, -, -, h4, h5, h6, h7, h8, -, -, -⟩ :=
    hard_reset_frees_zone twoZoned demoHeld _ "left" "right" (Or.inl ⟨rfl, rfl⟩)
      (by decide) rfl rfl
  have e : releaseRegistry twoZoned demoHeld
      = { twoZoned with reservedScreenZones := [.str "right"], zonedLeft := none } := by
    simp [releaseRegistry, demoHeld, demoTouched, demo, twoZoned, MobileHandler.initial,
      MobileHandler.setZoned, JSVal.truthy]
  refine ⟨by decide, rfl, rfl, ⟨c1, by rw [h1, e], h4, h5, h6, h7, h8⟩, ?_⟩
  simp [Controller.new, build, demoOptions, RawOptions.default, checkSize, checkType, claimZone,
    checkString, checkLockedDimension, checkScale, checkPosition, checkNumber, setup,
    Controller.fresh, Joyring.fresh, Joystick.fresh, lock, show', handleTransition,
    JSVal.asInteger?, JSVal.asString?, JSVal.asNumber?, JSVal.truthy, JSVal.isString,
    Joyring.setPos, Joystick.setPos, MobileHandler.initial, MobileHandler.setZoned, Rat.isInt,
    demo, twoZoned]
  norm_num

/-! ## C14: `onMove` on the updates of an active controller -/

/-- C14, refuted as stated. The touch start of the static sample controller (and of the
traversal one), not locked and with `onMove` bound, leaves the controller active and invokes
no callback: `update` returns at line 435, before the call of `onMove`. This holds for every
geometry kernel. -/
theorem touch_start_of_zoned_type_skips_onMove :
    (demo .static .null .null).onMove.isFunction = true ∧
    (demo .static .null .null).lockedDimension ≠ .str "both" ∧
    (demo .static .null .null).emitted = [] ∧
    (∀ K : Utils,
      update K (demo .static .null .null) 300 300 true = .ok (demoTouched .static .null .null)) ∧
    (demoTouched .static .null .null).active = true ∧
    (demoTouched .static .null .null).emitted = [] ∧
    (∀ K : Utils,
      update K (demo .traversal .null .null) 300 300 true
        = .ok (demoTouched .traversal .null .null)) ∧
    (demoTouched .traversal .null .null).active = true ∧
    (demoTouched .traversal .null .null).emitted = [] :=
  ⟨rfl, by decide, rfl,
    fun K => update_demo_touchStart K .static .null .null (by decide) (by decide), rfl, rfl,
    fun K => update_demo_touchStart K .traversal .null .null (by decide) (by decide), rfl, rfl⟩

/-- C14, amended. Let a controller be set up, not locked on both axes, with `onMove` bound,
and active during the update (already active, or the update is a touch start). The update
succeeds and leaves it active. Unless it is the touch start of a static or traversal
controller, it invokes `onMove` exactly once, with the normalised x and y (the anchor after
the update, normalised over the window of one radius around the touch position), the angle it
stored in `joystick.anglePoint`, and the flag `inCenter`. The touch start of a static or
traversal controller invokes no callback. -/
theorem update_invokes_onMove_once (K : Utils) (c : Controller) (o : Options) (pX pY : ℚ)
    (pTouchStart : Bool)
    (ho : c.options = .opts o) (hl : c.lockedDimension ≠ .str "both")
    (hm : c.onMove.isFunction = true)
    (hact : c.active = true ∨ pTouchStart = true) :
    ∃ c1, update K c pX pY pTouchStart = .ok c1 ∧ c1.active = true ∧
      (pTouchStart = false ∨ o.type = .stationary →
        c1.emitted = c.emitted ++ [.onMove
          (K.normalizeRanged (startingPos o.type c1).x
            ((touchPosOf o.type c pX pY).x - c.joyring.halfSize)
            ((touchPosOf o.type c pX pY).x + c.joyring.halfSize))
          (K.normalizeRanged (startingPos o.type c1).y
            ((touchPosOf o.type c pX pY).y - c.joyring.halfSize)
            ((touchPosOf o.type c pX pY).y + c.joyring.halfSize))
          c1.joystick.anglePoint
          (decide (|min (K.getDistance (startingPos o.type c) (touchPosOf o.type c pX pY))
              c.joyring.halfSize| < c.joyring.width * (1 / 10)))]) ∧
      (pTouchStart = true ∧ o.type ≠ .stationary → c1.emitted = c.emitted) := by
  by_cases hreach : pTouchStart = false ∨ o.type = .stationary
  · obtain ⟨c1, h1, h2, -, -, -, h3, -, -⟩ := update_reaches_callback K c o pX pY pTouchStart ho hl
      hact hreach
    rw [if_pos hm] at h3
    refine ⟨c1, h1, h2, fun _ => h3, ?_⟩
    rintro ⟨hts, hty⟩
    rcases hreach with e | e
    · rw [hts] at e; cases e
    · exact absurd e hty
  · have hts : pTouchStart = true := by
      cases pTouchStart
      · exact absurd (Or.inl rfl) hreach
      · rfl
    subst hts
    obtain ⟨c1, h1, h2, h3, -⟩ := update_touchStart_spawns K c o pX pY ho hl
      (fun e => hreach (Or.inr e))
    exact ⟨c1, h1, h2, fun hr => absurd hr hreach, fun _ => h3⟩

/-- C14, amended, at a concrete input: the touched static sample dragged to `(300, 340)`
under the taxicab kernel. `onMove` is called once, with `(0, -4/5, 1, false)`. -/
theorem update_invokes_onMove_once_witness :
    (demoTouched .static .null .null).emitted = [] ∧
    ∃ c1, update taxicab (demoTouched .static .null .null) 300 340 false = .ok c1 ∧
      c1.active = true ∧ c1.emitted = [.onMove 0 (-4 / 5) 1 false] := by
  obtain ⟨c1, h1, h2, -, -⟩ := update_invokes_onMove_once taxicab
    (demoTouched .static .null .null) _ 300 340 false rfl (by decide) rfl (Or.inl rfl)
  have e : c1 = demoDragged := by
    rw [update_demoTouched_drag] at h1
    exact (Except.ok.inj h1).symm
  subst e
  exact ⟨rfl, demoDragged, h1, h2, rfl⟩

/-! ## C15: a controller locked on both axes is frozen -/

/-- C15. For every controller whose `lockedDimension` is `'both'`: `update(x, y, touchStart)`
for every input and `release(force)` for either value of `force` return at their first line;
the controller is the same afterwards, field by field (the active flag, the controlling
finger, both elements, the angle, and the record of callback calls, so no callback was
invoked), and `release` leaves the handler as it was. Consequently every sequence of such
calls leaves it unchanged: a controller locked on both axes while active stays active and
receives no `onRelease` from them. -/
theorem locked_on_both_axes_is_frozen (K : Utils) (h : MobileHandler) (c : Controller)
    (hb : c.lockedDimension = .str "both") :
    (∀ (pX pY : ℚ) (pTouchStart : Bool), update K c pX pY pTouchStart = .ok c) ∧
    (∀ pForce : Bool, release h c pForce = (h, .ok c)) ∧
    (∀ calls : List TouchCall, performAll K h c calls = (h, .ok c)) := by
  have hu : ∀ (pX pY : ℚ) (pTouchStart : Bool), update K c pX pY pTouchStart = .ok c := by
    intro pX pY pTouchStart
    simp [update, hb]
  have hr : ∀ pForce : Bool, release h c pForce = (h, .ok c) := by
    intro pForce
    simp [release, hb]
  refine ⟨hu, hr, ?_⟩
  intro calls
  induction calls with
  | nil => rfl
  | cons call rest ih =>
    cases call with
    | update pX pY pTouchStart => simp only [performAll, perform, hu, ih]
    | release pForce => simp only [performAll, perform, hr, ih]

/-- C15 at a concrete input: the touched traversal sample locked on both axes is active with
`onRelease` bound; a drag, a release, a forced release and a new touch start, alone or one
after the other, leave it as it is: still active, at the same place, no callback recorded. -/
theorem locked_on_both_axes_is_frozen_witness :
    demoLockedBoth.lockedDimension = .str "both" ∧
    demoLockedBoth.active = true ∧ demoLockedBoth.onRelease = .func 1 ∧
    demoLockedBoth.emitted = [] ∧
    update taxicab demoLockedBoth 400 300 false = .ok demoLockedBoth ∧
    update taxicab demoLockedBoth 10 20 true = .ok demoLockedBoth ∧
    release MobileHandler.initial demoLockedBoth false
      = (MobileHandler.initial, .ok demoLockedBoth) ∧
    release MobileHandler.initial demoLockedBoth true
      = (MobileHandler.initial, .ok demoLockedBoth) ∧
    performAll taxicab MobileHandler.initial demoLockedBoth
        [.update 400 300 false, .release false, .release true, .update 10 20 true]
      = (MobileHandler.initial, .ok demoLockedBoth) :=
  have w := locked_on_both_axes_is_frozen taxicab MobileHandler.initial demoLockedBoth rfl
  ⟨rfl, rfl, rfl, rfl, w.1 400 300 false, w.1 10 20 true, w.2.1 false, w.2.1 true, w.2.2 _⟩

/-! ## C16: constructions that throw -/

/-- C16, at the failing inputs. Three malformed configurations make the constructor throw a
`TypeError` instead of substituting a default: options without `position` (line 358 reads
`.constructor` of `undefined`), options without `callback` (line 161 reads a property of
`undefined`), and a traversal controller with the non-string `lockedDimension: 1` (kept by
`build`, then lowered by `lock`, line 515). With a zone given, the throw comes after the zone
was registered, and the zone stays reserved for a controller that does not exist. The sibling
case of a `position` that is not a plain object takes the default and is built. -/
theorem malformed_options_make_build_throw :
    (Controller.new MobileHandler.initial 0
        (some { demoOptions "stationary" .null .null with position := .nullish })).2
      = .threw .typeError ∧
    (Controller.new MobileHandler.initial 0
        (some { demoOptions "stationary" .null .null with callback := .nullish })).2
      = .threw .typeError ∧
    (Controller.new MobileHandler.initial 0
        (some (demoOptions "traversal" (.num 1) .null))).2
      = .threw .typeError ∧
    Controller.new MobileHandler.initial 0
        (some { demoOptions "static" .null (.str "left") with position := .nullish })
      = ({ MobileHandler.initial with
            reservedScreenZones := [.str "left"], zonedLeft := some 0 },
          .threw .typeError) ∧
    Controller.new MobileHandler.initial 0
        (some { demoOptions "stationary" .null .null with position := .notPlainObject })
      = ({ MobileHandler.initial with
            activeControllers := [0], logged := [Diagnostic.positionNotObject] },
          .built (demo .stationary .null .null)) := by
  refine ⟨?_, ?_, ?_, ?_, ?_⟩
  · simp [Controller.new, build, demoOptions, RawOptions.default, checkSize, checkType,
      claimZone, checkString, checkLockedDimension, checkScale, checkPosition,
      JSVal.asInteger?, JSVal.asString?, JSVal.truthy, Rat.isInt]
  · simp [Controller.new, build, demoOptions, RawOptions.default, checkSize, checkType,
      claimZone, checkString, checkLockedDimension, checkScale, checkPosition, checkNumber,
      setup, Controller.fresh, JSVal.asInteger?, JSVal.asString?, JSVal.asNumber?,
      JSVal.truthy, Rat.isInt]
  · simp [Controller.new, build, demoOptions, RawOptions.default, checkSize, checkType,
      claimZone, checkString, checkLockedDimension, checkScale, checkPosition, checkNumber,
      setup, Controller.fresh, lock, JSVal.asInteger?, JSVal.asString?, JSVal.asNumber?,
      JSVal.truthy, Rat.isInt, MobileHandler.initial]
  · simp [Controller.new, build, demoOptions, RawOptions.default, checkSize, checkType,
      claimZone, checkString, checkLockedDimension, checkScale, checkPosition,
      JSVal.asInteger?, JSVal.asString?, JSVal.truthy, JSVal.isString, Rat.isInt,
      MobileHandler.initial, MobileHandler.setZoned, Controller.fresh]
  · simp [Controller.new, build, demoOptions, RawOptions.default, checkSize, checkType,
      claimZone, checkString, checkLockedDimension, checkScale, checkPosition, checkNumber,
      setup, Controller.fresh, Joyring.fresh, Joystick.fresh, lock, show', handleTransition,
      JSVal.asInteger?, JSVal.asString?, JSVal.asNumber?, JSVal.truthy, JSVal.isString,
      Joyring.setPos, Joystick.setPos, MobileHandler.initial, Rat.isInt, demo]
    norm_num

/-! ## C17: the options an accepted build stores -/

/-- C17. After every accepted `build` (one that runs to its end), the stored options are the
given options validated as documented: `size` the given value if an integer, else 100; `type`
the given value if one of the three names, else `'stationary'`; `position.x` and `position.y`
the given values if integers, else 100, and `{100, 100}` if `position` is not a plain object;
`inactiveAlpha` the given number, else 0.5; `transitionTime` the given number, else 500;
`scale` the given integer, else 1; `plane` and `layer` the given numbers, else 1; `atlasName`
and the two icon names the given strings, else `''`. The fields the documentation gives no
default for are stored too: `zone` and `callback` as given, and `lockedDimension` as given
unless it is truthy, the type is not traversal and it is none of the three lock names, when
`null` is stored. A call without argument validates the default options. -/
theorem built_options_are_validated (h h' : MobileHandler) (c c2 : Controller)
    (p : RawOptions) (hb : build h c (some p) = (h', .built c2)) :
    build h c none = build h c (some RawOptions.default) ∧
    ∃ o, c2.options = .opts o ∧
      o.size = documentedInteger p.size 100 ∧
      o.type = documentedType p.type ∧
      o.position = documentedPosition p.position ∧
      o.inactiveAlpha = documentedNumber p.inactiveAlpha (1 / 2) ∧
      o.transitionTime = documentedNumber p.transitionTime 500 ∧
      o.scale = documentedInteger p.scale 1 ∧
      o.plane = documentedNumber p.plane 1 ∧
      o.layer = documentedNumber p.layer 1 ∧
      o.atlasName = documentedString p.atlasName ∧
      o.joystickIconName = documentedString p.joystickIconName ∧
      o.joyringIconName = documentedString p.joyringIconName ∧
      o.zone = p.zone ∧ o.callback = p.callback ∧
      o.lockedDimension =
        (if p.lockedDimension.truthy = true ∧ o.type ≠ .traversal ∧
            p.lockedDimension ∉ [JSVal.str "both", JSVal.str "vertical", JSVal.str "horizontal"]
          then JSVal.null
          else p.lockedDimension) := by
  obtain ⟨pos, hpos, ho⟩ := build_built_options h h' c c2 p hb
  refine ⟨rfl, _, ho, checkSize_documented _, checkType_documented _,
    checkPosition_documented _ _ hpos, checkNumber_documented _ _, checkNumber_documented _ _,
    checkScale_documented _, checkNumber_documented _ _, checkNumber_documented _ _,
    checkString_documented _ _, checkString_documented _ _, checkString_documented _ _,
    rfl, rfl, ?_⟩
  simp only [checkLockedDimension]
  cases hv : p.lockedDimension <;>
    simp [JSVal.isString] <;> split_ifs <;> simp_all

/-- C17 at a concrete input: options with an invalid `size`, `type`, `position.y`,
`inactiveAlpha`, `scale`, `layer`, `atlasName` and `lockedDimension`. The construction is
accepted and stores the defaults for these and the given values for the others. -/
theorem built_options_are_validated_witness :
    ∃ h' c2, build MobileHandler.initial (Controller.fresh 0) (some mixedOptions)
        = (h', .built c2) ∧
      c2.options = .opts {
        type := .stationary, size := 100, position := ⟨7, 100⟩, lockedDimension := .null,
        zone := .str "left", inactiveAlpha := 1 / 2, transitionTime := 250, scale := 1,
        plane := 4, layer := 1, atlasName := "", joystickIconName := "stick",
        joyringIconName := "ring", callback := .bundle .null (.func 1) (.func 2) } := by
  have hb : ∃ h' c2, build MobileHandler.initial (Controller.fresh 0) (some mixedOptions)
      = (h', .built c2) := by
    exact ⟨_, _, by
      simp [build, mixedOptions, checkSize, checkType, claimZone, checkString,
        checkLockedDimension, checkScale, checkPosition, checkNumber, setup, Controller.fresh,
        Joyring.fresh, Joystick.fresh, lock, show', handleTransition, JSVal.asInteger?,
        JSVal.asString?, JSVal.asNumber?, JSVal.truthy, JSVal.isString, Joyring.setPos,
        Joystick.setPos, MobileHandler.initial, Rat.isInt]
      norm_num
      exact ⟨rfl, rfl⟩⟩
  obtain ⟨h', c2, hb⟩ := hb
  obtain ⟨-, o, ho, h1, h2, h3, h4, h5, h6, h7, h8, h9, h10, h11, h12, h13, h14⟩ :=
    built_options_are_validated MobileHandler.initial h' (Controller.fresh 0) c2 mixedOptions hb
  refine ⟨h', c2, hb, ?_⟩
  rw [ho]
  cases o
  simp only [mixedOptions] at h1 h2 h3 h4 h5 h6 h7 h8 h9 h10 h11 h12 h13 h14
  simp only [OptionsRef.opts.injEq, Options.mk.injEq]
  refine ⟨?_, ?_, ?_, ?_, ?_, ?_, ?_, ?_, ?_, ?_, ?_, ?_, ?_, ?_⟩
  · rw [h2]; decide
  · rw [h1]; rfl
  · rw [h3]; norm_num [documentedPosition, documentedInteger]
  · rw [h14, h2]; decide
  · exact h12
  · rw [h4]; rfl
  · rw [h5]; rfl
  · rw [h6]; norm_num [documentedInteger]
  · rw [h7]; rfl
  · rw [h8]; rfl
  · rw [h9]; rfl
  · rw [h10]; rfl
  · rw [h11]; rfl
  · exact h13

/-! ## C18: the window handed to `normalizeRanged` -/

/-- C18, refuted as stated. The stationary sample controller (anchor at `(125, 125)`, radius
50) is touched at `(400, 150)`. For every geometry kernel the update reaches the callback and
hands to `normalizeRanged`, on the x axis, the anchor coordinate 125 with the window
`[325, 425]` around the touch position: the anchor is outside the window. Under the taxicab
kernel, whose `normalizeRanged` maps the window affinely onto `[-1, 1]`, the value passed to
`onMove` is -5. -/
theorem stationary_anchor_outside_normalize_window :
    (∀ K : Utils, ∃ c1,
      update K (demo .stationary .null .null) 400 150 true = .ok c1 ∧
      c1.emitted = [.onMove (K.normalizeRanged 125 325 425) (K.normalizeRanged 125 75 175)
        c1.joystick.anglePoint
        (decide (|min (K.getDistance ⟨125, 125⟩ ⟨375, 125⟩) 50| < 10))]) ∧
    ¬ ((325 : ℚ) ≤ 125 ∧ (125 : ℚ) ≤ 425) ∧
    taxicab.normalizeRanged 125 325 425 = -5 ∧
    ¬ ((-1 : ℚ) ≤ taxicab.normalizeRanged 125 325 425) := by
  refine ⟨?_, by norm_num, by norm_num [taxicab], by norm_num [taxicab]⟩
  intro K
  obtain ⟨c1, h1, -, -, -, -, h3, h4, -⟩ := update_reaches_callback K
    (demo .stationary .null .null) _ 400 150 true rfl (by decide) (Or.inr rfl) (Or.inr rfl)
  refine ⟨c1, h1, ?_⟩
  rw [h3]
  simp only [startingPos, h4, touchPosOf, if_true]
  norm_num [demo, JSVal.isFunction]

/-- C18, amended. Let an update reach the callback: the controller is set up with `onMove`
bound, not locked on both axes, active during the update, and the update is not the touch
start of a static or traversal controller; let the radius be non-negative. `onMove` receives
the anchor normalised over the window of one radius around the touch position, so on each
axis the anchor is inside the window exactly when the touch position is within one radius of
it. For a traversal controller this always holds, the anchor having been pulled to within one
radius of the touch, and the two values lie in `[-1, 1]`. For a stationary or static
controller the anchor does not move and the touch position is not clamped, so it holds only
for touches within one radius of the anchor on both axes. The kernel is assumed to return
non-negative distances that bound the distance along each axis, to satisfy the round-trip
law, and to normalise a value inside its window into `[-1, 1]`. -/
theorem anchor_inside_normalize_window (K : Utils) (hK : K.RoundTrip) (hN : K.DistanceNonneg)
    (hA : K.AxisDominated) (hW : K.NormalizeWithin)
    (c : Controller) (o : Options) (pX pY : ℚ) (pTouchStart : Bool)
    (ho : c.options = .opts o) (hl : c.lockedDimension ≠ .str "both")
    (hm : c.onMove.isFunction = true)
    (hact : c.active = true ∨ pTouchStart = true)
    (hreach : pTouchStart = false ∨ o.type = .stationary)
    (hr : 0 ≤ c.joyring.halfSize) :
    ∃ c1 nx ny ic, update K c pX pY pTouchStart = .ok c1 ∧
      c1.emitted = c.emitted ++ [.onMove nx ny c1.joystick.anglePoint ic] ∧
      nx = K.normalizeRanged (startingPos o.type c1).x
        ((touchPosOf o.type c pX pY).x - c.joyring.halfSize)
        ((touchPosOf o.type c pX pY).x + c.joyring.halfSize) ∧
      ny = K.normalizeRanged (startingPos o.type c1).y
        ((touchPosOf o.type c pX pY).y - c.joyring.halfSize)
        ((touchPosOf o.type c pX pY).y + c.joyring.halfSize) ∧
      (((touchPosOf o.type c pX pY).x - c.joyring.halfSize ≤ (startingPos o.type c1).x ∧
          (startingPos o.type c1).x ≤ (touchPosOf o.type c pX pY).x + c.joyring.halfSize)
        ↔ |(touchPosOf o.type c pX pY).x - (startingPos o.type c1).x| ≤ c.joyring.halfSize) ∧
      (((touchPosOf o.type c pX pY).y - c.joyring.halfSize ≤ (startingPos o.type c1).y ∧
          (startingPos o.type c1).y ≤ (touchPosOf o.type c pX pY).y + c.joyring.halfSize)
        ↔ |(touchPosOf o.type c pX pY).y - (startingPos o.type c1).y| ≤ c.joyring.halfSize) ∧
      (o.type ≠ .traversal → startingPos o.type c1 = startingPos o.type c) ∧
      (o.type = .traversal →
        |(touchPosOf o.type c pX pY).x - (startingPos o.type c1).x| ≤ c.joyring.halfSize ∧
        |(touchPosOf o.type c pX pY).y - (startingPos o.type c1).y| ≤ c.joyring.halfSize ∧
        -1 ≤ nx ∧ nx ≤ 1 ∧ -1 ≤ ny ∧ ny ≤ 1) := by
  obtain ⟨c1, h1, -, -, -, -, h3, h4, h5⟩ :=
    update_reaches_callback K c o pX pY pTouchStart ho hl hact hreach
  rw [if_pos hm] at h3
  refine ⟨c1, _, _, _, h1, h3, rfl, rfl, window_iff_abs _ _ _, window_iff_abs _ _ _, ?_, ?_⟩
  · intro hty
    rw [if_neg (fun hc => hty hc.1)] at h5
    simp only [startingPos, h4, h5]
  · intro hty
    have key : |(touchPosOf o.type c pX pY).x - c1.joystick.startPos.x| ≤ c.joyring.halfSize ∧
        |(touchPosOf o.type c pX pY).y - c1.joystick.startPos.y| ≤ c.joyring.halfSize := by
      by_cases hfar :
          min (K.getDistance c.joystick.startPos (touchPosOf o.type c pX pY)) c.joyring.halfSize
            < K.getDistance c.joystick.startPos (touchPosOf o.type c pX pY)
      · rw [if_pos ⟨hty, hfar⟩] at h5
        have hd := hK (touchPosOf o.type c pX pY) c.joystick.startPos _
          (le_min (hN c.joystick.startPos (touchPosOf o.type c pX pY)) hr)
        rw [← h5] at hd
        obtain ⟨ax, ay⟩ := hA (touchPosOf o.type c pX pY) c1.joystick.startPos
        rw [hd] at ax ay
        rw [abs_sub_comm] at ax ay
        exact ⟨ax.trans (min_le_right _ _), ay.trans (min_le_right _ _)⟩
      · rw [if_neg (fun hc => hfar hc.2)] at h5
        rw [h5]
        obtain ⟨ax, ay⟩ := hA c.joystick.startPos (touchPosOf o.type c pX pY)
        have hle : K.getDistance c.joystick.startPos (touchPosOf o.type c pX pY)
            ≤ c.joyring.halfSize := by
          rcases le_total (K.getDistance c.joystick.startPos (touchPosOf o.type c pX pY))
            c.joyring.halfSize with h | h
          · exact h
          · rw [min_eq_right h] at hfar
            exact le_of_not_lt hfar
        exact ⟨ax.trans hle, ay.trans hle⟩
    have ex : (startingPos o.type c1) = c1.joystick.startPos := by
      rw [hty]; simp [startingPos]
    rw [ex]
    obtain ⟨kx, ky⟩ := key
    obtain ⟨wx1, wx2⟩ := (window_iff_abs _ _ _).mpr kx
    obtain ⟨wy1, wy2⟩ := (window_iff_abs _ _ _).mpr ky
    exact ⟨kx, ky, (hW _ _ _ wx1 wx2).1, (hW _ _ _ wx1 wx2).2, (hW _ _ _ wy1 wy2).1,
      (hW _ _ _ wy1 wy2).2⟩

/-- C18, amended, at a concrete input: the touched traversal sample (anchor `(275, 275)`,
radius 50) dragged to `(400, 300)` under the taxicab kernel. The anchor is pulled to
`(325, 275)`, the lower end of the window `[325, 425]` around the touch position
`(375, 275)`, and `onMove` receives `(-1, 0)`. -/
theorem anchor_inside_normalize_window_witness :
    ∃ c1 ic, update taxicab (demoTouched .traversal .null .null) 400 300 false = .ok c1 ∧
      c1.joystick.startPos = ⟨325, 275⟩ ∧
      c1.emitted = [.onMove (-1) 0 0 ic] ∧
      |(375 : ℚ) - c1.joystick.startPos.x| ≤ 50 ∧ |(275 : ℚ) - c1.joystick.startPos.y| ≤ 50 := by
  have hev : ∃ X, update taxicab (demoTouched .traversal .null .null) 400 300 false = .ok X ∧
      X.joystick.startPos = ⟨325, 275⟩ ∧ X.joystick.anglePoint = 0 := by
    refine ⟨_, by simp [update, whileActive, demoTouched, demo]; rfl, ?_, ?_⟩ <;>
    norm_num [Controller.traverse, afterPosition, clamp, taxicab, diamondAngle, diamondDir,
      Joystick.setPos, Joyring.setPos, JSVal.isFunction, demoTouched, demo]
  obtain ⟨X, hX, hsp, han⟩ := hev
  obtain ⟨c1, nx, ny, ic, h1, h2, hnx, hny, -⟩ :=
    anchor_inside_normalize_window taxicab taxicab_roundTrip taxicab_distanceNonneg
      taxicab_axisDominated taxicab_normalizeWithin (demoTouched .traversal .null .null) _
      400 300 false rfl (by decide) rfl (Or.inl rfl) (Or.inl rfl) (by norm_num [demoTouched, demo])
  have e : c1 = X := by
    rw [h1] at hX
    exact Except.ok.inj hX
  subst e
  have hne : ¬ ControllerType.traversal = ControllerType.stationary := by decide
  simp only [startingPos, touchPosOf, if_neg hne, hsp] at hnx hny
  norm_num [demoTouched, demo, taxicab] at hnx hny
  refine ⟨c1, ic, h1, hsp, ?_, ?_, ?_⟩
  · rw [h2, hnx, hny, han]
    rfl
  · rw [hsp]
    norm_num [abs_of_pos]
  · rw [hsp]
    norm_num

/-! ## C19: `unlock` of one axis on a controller locked on the other -/

/-- C19, where the code departs from the documented behaviour ("unlocks the joystick from
being locked in the passed dimension"). The stationary sample controller built with
`lockedDimension: 'vertical'` is locked vertically and not horizontally; `unlock('horizontal')`
sets `lockedDimension` to `null`, so the vertical lock is gone, and symmetrically
`unlock('vertical')` removes a horizontal lock. This happens for every controller locked on
one axis only. The rest of the documented behaviour holds: after `unlock(d)` the axis `d` is
not locked, and `unlock('both')` clears the lock. -/
theorem unlock_of_one_axis_clears_the_other :
    (Controller.new MobileHandler.initial 0
        (some (demoOptions "stationary" (.str "vertical") .null))).2
      = .built (demo .stationary (.str "vertical") .null) ∧
    (demo .stationary (.str "vertical") .null).lockedIn "vertical" = true ∧
    (demo .stationary (.str "vertical") .null).lockedIn "horizontal" = false ∧
    (demo .stationary (.str "vertical") .null).unlock (.str "horizontal")
      = .ok { demo .stationary (.str "vertical") .null with lockedDimension := .null } ∧
    ({ demo .stationary (.str "vertical") .null with
        lockedDimension := JSVal.null }).lockedIn "vertical" = false ∧
    (demo .stationary (.str "horizontal") .null).lockedIn "horizontal" = true ∧
    (demo .stationary (.str "horizontal") .null).unlock (.str "vertical")
      = .ok { demo .stationary (.str "horizontal") .null with lockedDimension := .null } ∧
    (∀ c : Controller, c.lockedDimension = .str "vertical" →
      ∃ c1, c.unlock (.str "horizontal") = .ok c1 ∧ c1.lockedIn "vertical" = false) ∧
    (∀ c : Controller, c.lockedDimension = .str "horizontal" →
      ∃ c1, c.unlock (.str "vertical") = .ok c1 ∧ c1.lockedIn "horizontal" = false) ∧
    (∀ c : Controller,
      (∃ c1, c.unlock (.str "horizontal") = .ok c1 ∧ c1.lockedIn "horizontal" = false) ∧
      (∃ c1, c.unlock (.str "vertical") = .ok c1 ∧ c1.lockedIn "vertical" = false) ∧
      c.unlock (.str "both") = .ok { c with lockedDimension := .null }) := by
  refine ⟨?_, by decide, by decide, ?_, by decide, by decide, ?_, ?_, ?_, ?_⟩
  · simp [Controller.new, build, demoOptions, RawOptions.default, checkSize, checkType,
      claimZone, checkString, checkLockedDimension, checkScale, checkPosition, checkNumber,
      setup, Controller.fresh, Joyring.fresh, Joystick.fresh, lock, show', handleTransition,
      JSVal.asInteger?, JSVal.asString?, JSVal.asNumber?, JSVal.truthy, JSVal.isString,
      Joyring.setPos, Joystick.setPos, MobileHandler.initial, Rat.isInt, demo, toLowerCase]
    norm_num
  · simp [unlock, JSVal.truthy, JSVal.isString, toLowerCase, demo]
  · simp [unlock, JSVal.truthy, JSVal.isString, toLowerCase, demo]
  · intro c hc
    refine ⟨{ c with lockedDimension := .null }, ?_, by simp [Controller.lockedIn]⟩
    simp [unlock, JSVal.truthy, JSVal.isString, toLowerCase, hc]
  · intro c hc
    refine ⟨{ c with lockedDimension := .null }, ?_, by simp [Controller.lockedIn]⟩
    simp [unlock, JSVal.truthy, JSVal.isString, toLowerCase, hc]
  · intro c
    refine ⟨?_, ?_, ?_⟩
    · by_cases hb : c.lockedDimension = .str "both"
      · exact ⟨{ c with lockedDimension := .str "vertical" },
          by simp [unlock, JSVal.truthy, JSVal.isString, toLowerCase, hb],
          by simp [Controller.lockedIn]⟩
      · exact ⟨{ c with lockedDimension := .null },
          by simp [unlock, JSVal.truthy, JSVal.isString, toLowerCase, hb],
          by simp [Controller.lockedIn]⟩
    · by_cases hb : c.lockedDimension = .str "both"
      · exact ⟨{ c with lockedDimension := .str "horizontal" },
          by simp [unlock, JSVal.truthy, JSVal.isString, toLowerCase, hb],
          by simp [Controller.lockedIn]⟩
      · exact ⟨{ c with lockedDimension := .null },
          by simp [unlock, JSVal.truthy, JSVal.isString, toLowerCase, hb],
          by simp [Controller.lockedIn]⟩
    · simp [unlock, JSVal.truthy, JSVal.isString, toLowerCase]

/-! ## C20: unlocking one axis of a controller locked on both -/

/-- C20. For every controller locked on both axes, `unlock` of a single axis leaves the lock
on the opposing axis: `unlock('horizontal')` leaves `lockedDimension = 'vertical'` and
`unlock('vertical')` leaves `lockedDimension = 'horizontal'`, no other field changes, and the
argument is compared after `toLowerCase`. -/
theorem unlock_of_both_leaves_opposing_axis (c : Controller) (s t : String)
    (hb : c.lockedDimension = .str "both")
    (hs : toLowerCase s = "horizontal") (ht : toLowerCase t = "vertical") :
    c.unlock (.str "horizontal") = .ok { c with lockedDimension := .str "vertical" } ∧
    c.unlock (.str "vertical") = .ok { c with lockedDimension := .str "horizontal" } ∧
    c.unlock (.str s) = .ok { c with lockedDimension := .str "vertical" } ∧
    c.unlock (.str t) = .ok { c with lockedDimension := .str "horizontal" } := by
  have hs0 : s ≠ "" := by
    rintro rfl
    exact absurd hs (by decide)
  have ht0 : t ≠ "" := by
    rintro rfl
    exact absurd ht (by decide)
  refine ⟨?_, ?_, ?_, ?_⟩
  · simp [unlock, JSVal.truthy, JSVal.isString, hb, toLowerCase]
  · simp [unlock, JSVal.truthy, JSVal.isString, hb, toLowerCase]
  · simp [unlock, JSVal.truthy, JSVal.isString, hb, hs, hs0]
  · simp [unlock, JSVal.truthy, JSVal.isString, hb, ht, ht0]

/-- C20 at a concrete input: the sample controller locked on both axes (lock `'both'` on the
touched traversal sample); `unlock('Horizontal')` leaves `'vertical'` and `unlock('VERTICAL')`
leaves `'horizontal'`. -/
theorem unlock_of_both_leaves_opposing_axis_witness :
    demoLockedBoth.lockedDimension = .str "both" ∧
    demoLockedBoth.unlock (.str "horizontal")
      = .ok { demoLockedBoth with lockedDimension := .str "vertical" } ∧
    demoLockedBoth.unlock (.str "vertical")
      = .ok { demoLockedBoth with lockedDimension := .str "horizontal" } ∧
    demoLockedBoth.unlock (.str "Horizontal")
      = .ok { demoLockedBoth with lockedDimension := .str "vertical" } ∧
    demoLockedBoth.unlock (.str "VERTICAL")
      = .ok { demoLockedBoth with lockedDimension := .str "horizontal" } :=
  ⟨rfl, unlock_of_both_leaves_opposing_axis demoLockedBoth "Horizontal" "VERTICAL" rfl
    (by decide) (by decide)⟩

/-! ## Lemmas on the layers and on `setup` -/

@[simp] theorem afterPosition_layer (K : Utils) (c : Controller) (sp tp : Pos) (m : Clamp) :
    (afterPosition K c sp tp m).joystick.layer = c.joystick.layer := by
  unfold afterPosition
  simp only
  split <;> rfl

theorem whileActive_keeps (K : Utils) (c c' : Controller) (pX pY : ℚ) (pTouchStart : Bool)
    (h : whileActive K c pX pY pTouchStart = .ok c') :
    c'.joyring.originalPos = c.joyring.originalPos ∧
    c'.joystick.originalPos = c.joystick.originalPos ∧ c'.options = c.options ∧
    c'.joyring.layer = c.joyring.layer ∧ c'.joystick.layer = c.joystick.layer := by
  unfold whileActive at h
  split at h
  · cases h
  · cases h
  · rename_i o ho
    split at h
    · cases h
      simp [Joystick.setPos]
    · split_ifs at h
      · cases h
        simp [touchStart, Joystick.setPos, Joyring.setPos]
      · cases h
        refine ⟨?_, ?_, ?_, ?_, ?_⟩
        · simp [Controller.traverse, Joyring.setPos]
        · simp only [Controller.traverse, afterPosition_originalPos, Joystick.setPos]
          split_ifs <;> rfl
        · simp [Controller.traverse]
        · simp [Controller.traverse, Joyring.setPos]
        · simp only [Controller.traverse, afterPosition_layer, Joystick.setPos]
          split_ifs <;> rfl
    · split_ifs at h
      · cases h
        simp [touchStart, Joystick.setPos, Joyring.setPos]
      · cases h
        simp [Joystick.setPos]

/-- The fade that `handleTransition(true)` starts: from the ring's alpha to the inactive
alpha, or none when they agree. -/
theorem handleTransition_fade (c c' : Controller) (o : Options) (ho : c.options = .opts o)
    (h : c.handleTransition true = .ok c') :
    c'.tween =
      if c.joyring.alpha = o.inactiveAlpha then .idle
      else .animating c.joyring.alpha o.inactiveAlpha o.transitionTime := by
  have h1 : o.inactiveAlpha ≠ 0 ∨ o.inactiveAlpha = 0 := ne_or_eq _ _
  simp only [handleTransition, ho, h1, if_true] at h
  by_cases h2 : c.joyring.alpha = o.inactiveAlpha
  · rw [if_pos h2] at h
    cases h
    simp [h2]
  · rw [if_neg h2] at h
    cases h
    simp [h2]

/-- The controller `setup` leaves when it succeeds: the elements as configured from the
options, both at their original positions, and the fade to the inactive alpha started. -/
theorem setup_ok_elements (h h' : MobileHandler) (c c' : Controller)
    (hs : setup h c = (h', .ok c')) :
    ∃ o, c'.options = .opts o ∧
      c'.joyring.layer = o.layer ∧ c'.joystick.layer = o.layer + 1 ∧
      c'.joyring.originalPos = o.position ∧
      c'.joystick.originalPos = ⟨o.position.x + o.size / 2 / 2, o.position.y + o.size / 2 / 2⟩ ∧
      c'.joyringPos = o.position ∧ c'.joystickPos = c'.joystick.originalPos ∧
      c'.active = c.active ∧ c'.joyring.alpha = c.joyring.alpha ∧
      c'.tween =
        (if c.joyring.alpha = o.inactiveAlpha then .idle
        else .animating c.joyring.alpha o.inactiveAlpha o.transitionTime) := by
  unfold setup at hs
  split at hs
  · cases hs
  · cases hs
  · simp only at hs
    split at hs
    · cases hs
    · split at hs
      · cases hs
      · rename_i o hopt _ _ _ _ _ _ c2 hl
        obtain ⟨-, -, o1, r1, s1, a1⟩ := lock_fields _ _ _ hl
        simp only [Prod.mk.injEq] at hs
        obtain ⟨-, hc⟩ := hs
        simp only [show'] at hc
        obtain ⟨-, -, o2, r2, s2, a2, -⟩ := handleTransition_fields _ _ _ hc
        have ht := handleTransition_fade _ _ o (by simpa [hopt] using o1) hc
        simp only [Joyring.setPos, Joystick.setPos] at o2 r2 s2 a2 ht
        simp only at o1 a1
        refine ⟨o, by rw [o2, o1, hopt], ?_, ?_, ?_, ?_, ?_, ?_, by rw [a2, a1], ?_, ?_⟩
        · rw [r2, r1]
        · rw [s2, s1]
        · rw [r2, r1]
        · rw [s2, s1]
        · rw [joyringPos, r2, r1]
        · rw [joystickPos, s2, s1]
        · rw [r2, r1]
        · rw [ht, r1]

/-- The controller a `build` that ran to its end leaves, as far as the elements go. -/
theorem build_built_elements (h h' : MobileHandler) (c c' : Controller)
    (pOptions : Option RawOptions) (hb : build h c pOptions = (h', .built c')) :
    ∃ o, c'.options = .opts o ∧
      c'.joyring.layer = o.layer ∧ c'.joystick.layer = o.layer + 1 ∧
      c'.joyring.originalPos = o.position ∧
      c'.joystick.originalPos = ⟨o.position.x + o.size / 2 / 2, o.position.y + o.size / 2 / 2⟩ ∧
      c'.joyringPos = o.position ∧ c'.joystickPos = c'.joystick.originalPos ∧
      c'.active = c.active ∧ c'.joyring.alpha = c.joyring.alpha ∧
      c'.tween =
        (if c.joyring.alpha = o.inactiveAlpha then .idle
        else .animating c.joyring.alpha o.inactiveAlpha o.transitionTime) := by
  simp only [build] at hb
  split at hb
  · cases hb
  · rename_i h2 c1 hcz
    have hc1 : c1.active = c.active ∧ c1.joyring = c.joyring := by
      rcases claimZone_cases _ c _ _ with h0 | h0 | ⟨-, -, -, h0⟩
      · rw [h0] at hcz; cases hcz
      · rw [h0] at hcz; cases hcz; exact ⟨rfl, rfl⟩
      · rw [h0] at hcz; cases hcz; exact ⟨rfl, rfl⟩
    split at hb
    · cases hb
    · split at hb
      · rename_i h5 c3 hs
        simp only [Prod.mk.injEq, BuildResult.built.injEq] at hb
        obtain ⟨-, rfl⟩ := hb
        obtain ⟨o, e1, e2, e3, e4, e5, e6, e7, e8, e9, e10⟩ := setup_ok_elements _ _ _ _ hs
        simp only at e8 e9 e10
        rw [hc1.1] at e8
        rw [hc1.2] at e9 e10
        exact ⟨o, e1, e2, e3, e4, e5, e6, e7, e8, e9, e10⟩
      · cases hb

/-! ## Lemmas on `show`, `hide` and the touch start -/

/-- The controller `show()` leaves: both elements shown at their original positions and the
fade to the inactive alpha started. -/
theorem show_opts (c : Controller) (o : Options) (ho : c.options = .opts o) :
    c.show' = .ok { c with
      tween :=
        if c.joyring.alpha = o.inactiveAlpha then .idle
        else .animating c.joyring.alpha o.inactiveAlpha o.transitionTime,
      joyring := { c.joyring with
        xPos := c.joyring.originalPos.x, yPos := c.joyring.originalPos.y, shown := true },
      joystick := { c.joystick with
        xPos := c.joystick.originalPos.x, yPos := c.joystick.originalPos.y, shown := true } } := by
  have h1 : o.inactiveAlpha ≠ 0 ∨ o.inactiveAlpha = 0 := ne_or_eq _ _
  simp only [show', handleTransition, ho, h1, if_true, Joyring.setPos, Joystick.setPos]
  split_ifs <;> rfl

/-- The controller `hide()` leaves: both elements hidden, and the soft reset. -/
theorem hide_opts (h : MobileHandler) (c : Controller) (o : Options)
    (ho : c.options = .opts o) :
    hide h c = (h, .ok { c with
      joystick := { c.joystick with
        alpha := o.inactiveAlpha, startPos := ⟨0, 0⟩, anglePoint := 0, layer := o.layer + 10,
        shown := false },
      joyring := { c.joyring with layer := o.layer, shown := false },
      activeInZone := false, controllingFinger := none, active := false,
      emitted :=
        if c.active = true ∧ c.onRelease.isFunction = true then
          c.emitted ++ [.onRelease c.joystick.anglePoint]
        else c.emitted }) := by
  unfold hide
  exact reset_soft_opts h
    { c with
      joyring := { c.joyring with shown := false },
      joystick := { c.joystick with shown := false } } o ho

/-- With the options set, the body of `if (this.active)` runs to its end, and keeps the lock,
the active flag and the callbacks. -/
theorem whileActive_opts (K : Utils) (c : Controller) (o : Options) (pX pY : ℚ)
    (pTouchStart : Bool) (ho : c.options = .opts o) :
    ∃ c', whileActive K c pX pY pTouchStart = .ok c' ∧
      c'.lockedDimension = c.lockedDimension ∧ c'.active = c.active ∧
      c'.onRelease = c.onRelease := by
  have ha : ∀ (d : Controller) (sp tp : Pos) (m : Clamp),
      (afterPosition K d sp tp m).onRelease = d.onRelease := by
    intro d sp tp m
    unfold afterPosition
    simp only
    split <;> rfl
  unfold whileActive
  simp only [ho]
  split
  · exact ⟨_, rfl, by simp, by simp, by rw [ha]⟩
  · split_ifs
    · exact ⟨_, rfl, rfl, rfl, rfl⟩
    · exact ⟨_, rfl, by simp [Controller.traverse], by simp [Controller.traverse],
        by rw [Controller.traverse, ha]⟩
  · split_ifs
    · exact ⟨_, rfl, rfl, rfl, rfl⟩
    · exact ⟨_, rfl, by simp, by simp, by rw [ha]⟩

/-- A touch start on a set-up controller not locked on both axes succeeds and raises both
layers. -/
theorem update_touchStart_layers (K : Utils) (c : Controller) (o : Options) (pX pY : ℚ)
    (ho : c.options = .opts o) (hl : c.lockedDimension ≠ .str "both") :
    ∃ c1, update K c pX pY true = .ok c1 ∧
      c1.joyring.layer = MAX_LAYER ∧ c1.joystick.layer = MAX_LAYER + 10 ∧
      c1.options = c.options ∧ c1.lockedDimension = c.lockedDimension ∧ c1.active = true ∧
      c1.onRelease = c.onRelease := by
  obtain ⟨tw, hb⟩ := beginTouch_opts c o ho
  obtain ⟨c1, h1, l1, a1, r1⟩ := whileActive_opts K _ o pX pY true
    (show ({ c with
      tween := tw,
      joyring := { c.joyring with layer := MAX_LAYER },
      joystick := { c.joystick with layer := MAX_LAYER + 10 },
      active := true } : Controller).options = .opts o from ho)
  obtain ⟨-, -, k3, k4, k5⟩ := whileActive_keeps K _ c1 pX pY true h1
  refine ⟨c1, ?_, k4, k5, k3, l1, a1, r1⟩
  simp only [update, if_neg hl, if_true, hb]
  exact h1

/-! ## The taxicab kernel is symmetric -/

theorem taxicab_distanceSymm : taxicab.DistanceSymm := by
  intro a b
  show |b.x - a.x| + |b.y - a.y| = |a.x - b.x| + |a.y - b.y|
  rw [abs_sub_comm b.x a.x, abs_sub_comm b.y a.y]

/-! ## C21: the flag `inCenter` -/

/-- C21. Let an update reach the callback: the controller is set up with `onMove` bound, not
locked on both axes, active during the update, and the update is not the touch start of a
static or traversal controller. In every mode `onMove` is called once, and its `inCenter`
argument is true exactly when the clamped distance `min (distance anchor touch) radius` is
strictly less than a tenth of `joyring.width`. The anchor is the one the update measures
from and the touch is the touch position with the locked coordinate overwritten; the radius
`joyring.halfSize` and the distances of the kernel are assumed non-negative, so that the
absolute value the code takes of the clamped distance changes nothing. -/
theorem inCenter_iff_clamped_distance_below_tenth (K : Utils) (hN : K.DistanceNonneg)
    (c : Controller) (o : Options) (pX pY : ℚ) (pTouchStart : Bool)
    (ho : c.options = .opts o) (hl : c.lockedDimension ≠ .str "both")
    (hm : c.onMove.isFunction = true)
    (hact : c.active = true ∨ pTouchStart = true)
    (hreach : pTouchStart = false ∨ o.type = .stationary)
    (hr : 0 ≤ c.joyring.halfSize) :
    ∃ c1 nx ny inCenter, update K c pX pY pTouchStart = .ok c1 ∧
      c1.emitted = c.emitted ++ [.onMove nx ny c1.joystick.anglePoint inCenter] ∧
      (inCenter = true ↔
        |min (K.getDistance (startingPos o.type c) (touchPosOf o.type c pX pY))
          c.joyring.halfSize| < c.joyring.width * (1 / 10)) ∧
      (inCenter = true ↔
        min (K.getDistance (startingPos o.type c) (touchPosOf o.type c pX pY))
          c.joyring.halfSize < c.joyring.width * (1 / 10)) := by
  obtain ⟨c1, h1, -, -, -, -, h3, -, -⟩ :=
    update_reaches_callback K c o pX pY pTouchStart ho hl hact hreach
  rw [if_pos hm] at h3
  refine ⟨c1, _, _, _, h1, h3, decide_eq_true_iff, ?_⟩
  rw [decide_eq_true_iff, abs_of_nonneg (le_min (hN _ _) hr)]

/-- C21 at two concrete inputs: the touched static sample (anchor `(275, 275)`, radius 50,
width 100, so threshold 10) under the taxicab kernel. Dragged to `(303, 300)` the clamped
distance is 3 and `inCenter` is true; dragged to `(300, 340)` it is 40 and `inCenter` is
false. -/
theorem inCenter_iff_clamped_distance_below_tenth_witness :
    (∃ c1 nx ny, update taxicab (demoTouched .static .null .null) 303 300 false = .ok c1 ∧
      c1.emitted = [.onMove nx ny c1.joystick.anglePoint true]) ∧
    (∃ c1 nx ny, update taxicab (demoTouched .static .null .null) 300 340 false = .ok c1 ∧
      c1.emitted = [.onMove nx ny c1.joystick.anglePoint false]) := by
  have hne : ¬ ControllerType.static = ControllerType.stationary := by decide
  constructor
  · obtain ⟨c1, nx, ny, ic, h1, h2, -, h3⟩ := inCenter_iff_clamped_distance_below_tenth taxicab
      taxicab_distanceNonneg (demoTouched .static .null .null) _ 303 300 false rfl (by decide)
      rfl (Or.inl rfl) (Or.inl rfl) (by norm_num [demoTouched, demo])
    have hic : ic = true := by
      rw [h3]
      simp only [startingPos, touchPosOf, if_neg hne, lockTouchPos_null]
      norm_num [demoTouched, demo, taxicab]
    subst hic
    exact ⟨c1, nx, ny, h1, h2⟩
  · obtain ⟨c1, nx, ny, ic, h1, h2, -, h3⟩ := inCenter_iff_clamped_distance_below_tenth taxicab
      taxicab_distanceNonneg (demoTouched .static .null .null) _ 300 340 false rfl (by decide)
      rfl (Or.inl rfl) (Or.inl rfl) (by norm_num [demoTouched, demo])
    have hic : ic = false := by
      rw [← Bool.not_eq_true, h3]
      simp only [startingPos, touchPosOf, if_neg hne, lockTouchPos_null]
      norm_num [demoTouched, demo, taxicab]
    subst hic
    exact ⟨c1, nx, ny, h1, h2⟩

/-! ## C22: show, hide, show -/

/-- C22, at the failing input. The stationary sample controller is what the constructor
returns, with the ring on layer 1 and the stick on layer 2, that is `options.layer` and
`options.layer + 1`. `show()` leaves it as it is. `hide()` followed by `show()` brings both
elements back, shown, to their original positions, not active and fading to the inactive
alpha, with the ring on layer 1, but with the stick on layer 11: the soft reset inside
`hide` sets `joystick.layer` to `options.layer + 10` (line 219), where `setup` had set
`options.layer + 1` (line 152). The same holds in general: every `build` that runs to its
end leaves ring and stick at their original positions on layers `options.layer` and
`options.layer + 1`, and on every controller with its options set `show()`, `hide()`,
`show()` succeed and restore positions, ring layer, activity flag and fade, and leave the
stick on `options.layer + 10`; `show()` alone places both elements at their original
positions. -/
theorem show_hide_show_moves_stick_layer :
    Controller.new MobileHandler.initial 0 (some (demoOptions "stationary" .null .null))
      = ({ MobileHandler.initial with activeControllers := [0] },
          .built (demo .stationary .null .null)) ∧
    (demo .stationary .null .null).joyring.layer = 1 ∧
    (demo .stationary .null .null).joystick.layer = 1 + 1 ∧
    (demo .stationary .null .null).show' = .ok (demo .stationary .null .null) ∧
    (∃ c2, hide MobileHandler.initial (demo .stationary .null .null)
        = (MobileHandler.initial, .ok c2) ∧
      c2.show' = .ok { demo .stationary .null .null with
        joystick := { (demo .stationary .null .null).joystick with
          layer := 11, alpha := 1 / 2 } }) ∧
    (∀ (h0 h1 : MobileHandler) (c0 c1 : Controller) (pOptions : Option RawOptions),
      build h0 c0 pOptions = (h1, .built c1) →
      ∃ o1, c1.options = .opts o1 ∧
        c1.joyring.originalPos = o1.position ∧
        c1.joyringPos = c1.joyring.originalPos ∧ c1.joystickPos = c1.joystick.originalPos ∧
        c1.joyring.layer = o1.layer ∧ c1.joystick.layer = o1.layer + 1 ∧
        c1.active = c0.active ∧
        c1.tween =
          (if c0.joyring.alpha = o1.inactiveAlpha then .idle
          else .animating c0.joyring.alpha o1.inactiveAlpha o1.transitionTime)) ∧
    (∀ (h : MobileHandler) (c : Controller) (o : Options), c.options = .opts o →
      ∃ c1 c2 c3, c.show' = .ok c1 ∧ hide h c1 = (h, .ok c2) ∧ c2.show' = .ok c3 ∧
        c1.joyringPos = c.joyring.originalPos ∧ c1.joystickPos = c.joystick.originalPos ∧
        c3.joyringPos = c.joyring.originalPos ∧ c3.joystickPos = c.joystick.originalPos ∧
        c3.joyring.shown = true ∧ c3.joystick.shown = true ∧
        c3.joyring.layer = o.layer ∧ c3.joystick.layer = o.layer + 10 ∧
        c3.active = false ∧
        c3.tween =
          (if c.joyring.alpha = o.inactiveAlpha then .idle
          else .animating c.joyring.alpha o.inactiveAlpha o.transitionTime)) := by
  refine ⟨new_demo_stationary, rfl, by norm_num [demo], ?_, ⟨_, hide_opts _ _ _ rfl, ?_⟩, ?_, ?_⟩
  · rw [show_opts _ _ rfl]
    simp [demo]
  · rw [show_opts _ _ rfl]
    simp [demo]
    norm_num
  · intro h0 h1 c0 c1 pOptions hb
    obtain ⟨o1, e1, e2, e3, e4, -, e6, e7, e8, -, e10⟩ :=
      build_built_elements h0 h1 c0 c1 pOptions hb
    exact ⟨o1, e1, e4, e6.trans e4.symm, e7, e2, e3, e8, e10⟩
  · intro h c o ho
    exact ⟨_, _, _, show_opts c o ho, hide_opts h _ o ho, show_opts _ o ho, rfl, rfl, rfl, rfl,
      rfl, rfl, rfl, rfl, rfl, rfl⟩

/-! ## C23: the layers after a touch and a release -/

/-- C23, at the failing input. The traversal sample controller is what the constructor
returns, with the ring on layer 1 and the stick on layer 2, that is `options.layer` and
`options.layer + 1`. A touch start raises them to `MAX_LAYER` and `MAX_LAYER + 10`, and the
`release(false)` after it leaves the ring on layer 1 and the stick on layer 11: the soft
reset sets `joystick.layer` to `options.layer + 10` (line 219), not to the
`options.layer + 1` of `setup` (line 152). The same holds in general: every `build` that runs
to its end leaves the layers `options.layer` and `options.layer + 1`, and on every controller
with its options set and not locked on both axes a touch start followed by a soft release
succeeds and leaves `options.layer` and `options.layer + 10`, the stick still above the
ring. -/
theorem release_leaves_stick_ten_layers_up :
    (Controller.new MobileHandler.initial 0 (some (demoOptions "traversal" .null .null))).2
      = .built (demo .traversal .null .null) ∧
    (demo .traversal .null .null).joyring.layer = 1 ∧
    (demo .traversal .null .null).joystick.layer = 1 + 1 ∧
    (∀ K : Utils,
      update K (demo .traversal .null .null) 300 300 true
        = .ok (demoTouched .traversal .null .null)) ∧
    (demoTouched .traversal .null .null).joyring.layer = MAX_LAYER ∧
    (demoTouched .traversal .null .null).joystick.layer = MAX_LAYER + 10 ∧
    (∃ c2, release MobileHandler.initial (demoTouched .traversal .null .null) false
        = (MobileHandler.initial, .ok c2) ∧
      c2.joyring.layer = 1 ∧ c2.joystick.layer = 11 ∧ c2.joystick.layer ≠ 1 + 1) ∧
    (∀ (h0 h1 : MobileHandler) (c0 c1 : Controller) (pOptions : Option RawOptions),
      build h0 c0 pOptions = (h1, .built c1) →
      ∃ o1, c1.options = .opts o1 ∧
        c1.joyring.layer = o1.layer ∧ c1.joystick.layer = o1.layer + 1) ∧
    (∀ (K : Utils) (h : MobileHandler) (c : Controller) (o : Options) (pX pY : ℚ),
      c.options = .opts o → c.lockedDimension ≠ .str "both" →
      ∃ c1 c2, update K c pX pY true = .ok c1 ∧
        c1.joyring.layer = MAX_LAYER ∧ c1.joystick.layer = MAX_LAYER + 10 ∧
        release h c1 false = (h, .ok c2) ∧
        c2.joyring.layer = o.layer ∧ c2.joystick.layer = o.layer + 10 ∧
        c2.joyring.layer < c2.joystick.layer) := by
  obtain ⟨c2, h1, -, -, -, -, -, -, -, h2, h3, -⟩ := release_soft_fields MobileHandler.initial
    (demoTouched .traversal .null .null) _ rfl (by decide)
  have e : c2.joystick.layer = 11 := by
    rw [h3]; norm_num
  refine ⟨by rw [new_demo_traversal], rfl, by norm_num [demo],
    fun K => update_demo_touchStart K .traversal .null .null (by decide) (by decide),
    rfl, rfl, ⟨c2, h1, h2, e, by rw [e]; norm_num⟩, ?_, ?_⟩
  · intro h0 h1 c0 c1 pOptions hb
    obtain ⟨o1, e1, e2, e3, -⟩ := build_built_elements h0 h1 c0 c1 pOptions hb
    exact ⟨o1, e1, e2, e3⟩
  · intro K h c o pX pY ho hl
    obtain ⟨c1, u1, u2, u3, u4, u5, -, -⟩ := update_touchStart_layers K c o pX pY ho hl
    obtain ⟨c2, r1, -, -, -, -, -, -, -, r2, r3, -⟩ :=
      release_soft_fields h c1 o (u4.trans ho) (u5 ▸ hl)
    exact ⟨c1, c2, u1, u2, u3, r1, r2, r3, by rw [r2, r3]; linarith⟩

/-! ## C24: which value is normalised over which window -/

/-- C24, refuted as stated. The stationary sample controller (anchor `(125, 125)`, radius
50) is touched at `(190, 150)`, which asks for the stick at `(165, 125)`. For every geometry
kernel the x value passed to `onMove` is `normalizeRanged(125, 115, 215)`: the anchor's x
normalised over the window of one radius around the touch, not the touch's x over the window
`[75, 175]` around the anchor. Under the taxicab kernel, whose `normalizeRanged` is affine,
the two differ: `-4/5` against `4/5`. -/
theorem normalize_window_is_not_around_anchor :
    (demo .stationary .null .null).joystick.originalPos = ⟨125, 125⟩ ∧
    (demo .stationary .null .null).joyring.halfSize = 50 ∧
    (∀ K : Utils, ∃ c1,
      update K (demo .stationary .null .null) 190 150 true = .ok c1 ∧
      c1.emitted = [.onMove (K.normalizeRanged 125 115 215) (K.normalizeRanged 125 75 175)
        c1.joystick.anglePoint
        (decide (|min (K.getDistance ⟨125, 125⟩ ⟨165, 125⟩) 50| < 10))]) ∧
    taxicab.normalizeRanged 125 115 215 = -4 / 5 ∧
    taxicab.normalizeRanged 165 (125 - 50) (125 + 50) = 4 / 5 := by
  refine ⟨rfl, by norm_num [demo], ?_, by norm_num [taxicab], by norm_num [taxicab]⟩
  intro K
  obtain ⟨c1, h1, -, -, -, -, h3, h4, -⟩ := update_reaches_callback K
    (demo .stationary .null .null) _ 190 150 true rfl (by decide) (Or.inr rfl) (Or.inr rfl)
  refine ⟨c1, h1, ?_⟩
  rw [h3]
  simp only [startingPos, h4, touchPosOf, if_true]
  norm_num [demo, JSVal.isFunction]

/-- C24, amended. On every update that reaches the callback (the controller is set up with
`onMove` bound, not locked on both axes, active during the update, and the update is not the
touch start of a static or traversal controller), the x value passed to `onMove` is the
relevant anchor's x normalised over the window `[touch.x - radius, touch.x + radius]`, which
extends one ring radius on each side of the touch position, and likewise for y. The relevant
anchor is `joystick.originalPos` in stationary mode and `joystick.startPos`, as the update
leaves it, in static and traversal mode; in static mode the update does not move it. The
touch position is the stick position asked for, with the locked coordinate overwritten by the
anchor's. -/
theorem normalize_window_is_around_touch (K : Utils) (c : Controller) (o : Options)
    (pX pY : ℚ) (pTouchStart : Bool)
    (ho : c.options = .opts o) (hl : c.lockedDimension ≠ .str "both")
    (hm : c.onMove.isFunction = true)
    (hact : c.active = true ∨ pTouchStart = true)
    (hreach : pTouchStart = false ∨ o.type = .stationary) :
    ∃ c1 anchor inCenter, update K c pX pY pTouchStart = .ok c1 ∧
      c1.emitted = c.emitted ++ [.onMove
        (K.normalizeRanged anchor.x
          ((touchPosOf o.type c pX pY).x - c.joyring.halfSize)
          ((touchPosOf o.type c pX pY).x + c.joyring.halfSize))
        (K.normalizeRanged anchor.y
          ((touchPosOf o.type c pX pY).y - c.joyring.halfSize)
          ((touchPosOf o.type c pX pY).y + c.joyring.halfSize))
        c1.joystick.anglePoint inCenter] ∧
      (o.type = .stationary →
        anchor = c.joystick.originalPos ∧ anchor = c1.joystick.originalPos) ∧
      (o.type = .static → anchor = c.joystick.startPos ∧ anchor = c1.joystick.startPos) ∧
      (o.type = .traversal → anchor = c1.joystick.startPos) := by
  obtain ⟨c1, h1, -, -, -, -, h3, h4, h5⟩ :=
    update_reaches_callback K c o pX pY pTouchStart ho hl hact hreach
  rw [if_pos hm] at h3
  refine ⟨c1, startingPos o.type c1, _, h1, h3, ?_, ?_, ?_⟩
  · intro hty
    simp only [startingPos, hty, if_true]
    exact ⟨h4, trivial⟩
  · intro hty
    have hne : ¬ ControllerType.static = ControllerType.stationary := by decide
    have hnt : ¬ ControllerType.static = ControllerType.traversal := by decide
    rw [hty] at h5
    rw [if_neg (fun hc => hnt hc.1)] at h5
    simp only [startingPos, hty, if_neg hne]
    exact ⟨h5, trivial⟩
  · intro hty
    have hne : ¬ ControllerType.traversal = ControllerType.stationary := by decide
    simp only [startingPos, hty, if_neg hne]

/-- C24, amended, at a concrete input: the stationary sample touched at `(190, 150)` under
the taxicab kernel. The anchor `(125, 125)` is normalised over the windows `[115, 215]` and
`[75, 175]` around the touch position `(165, 125)`, and `onMove` receives `(-4/5, 0)`. -/
theorem normalize_window_is_around_touch_witness :
    ∃ c1 inCenter, update taxicab (demo .stationary .null .null) 190 150 true = .ok c1 ∧
      c1.emitted = [.onMove (-4 / 5) 0 c1.joystick.anglePoint inCenter] := by
  obtain ⟨c1, anchor, ic, h1, h2, hs, -, -⟩ := normalize_window_is_around_touch taxicab
    (demo .stationary .null .null) _ 190 150 true rfl (by decide) rfl (Or.inr rfl) (Or.inr rfl)
  obtain ⟨ha, -⟩ := hs rfl
  subst ha
  refine ⟨c1, ic, h1, ?_⟩
  rw [h2]
  simp only [touchPosOf, startingPos, if_true, lockTouchPos_null]
  norm_num [demo, taxicab]

/-! ## C25: the leash of a traversal controller -/

/-- C25, refuted as stated. The traversal sample controller as the constructor leaves it has
radius 50, anchor `joystick.startPos = (0, 0)` and the stick drawn at `(125, 125)`. It is not
active, so for every kernel an update that is not a touch start returns without any change
(line 397): afterwards the anchor and the stick are where they were, at taxicab distance 250,
beyond the radius. -/
theorem inactive_traversal_update_leaves_leash_stretched :
    (Controller.new MobileHandler.initial 0 (some (demoOptions "traversal" .null .null))).2
      = .built (demo .traversal .null .null) ∧
    (demo .traversal .null .null).getType = some .traversal ∧
    (demo .traversal .null .null).joyring.halfSize = 50 ∧
    (demo .traversal .null .null).active = false ∧
    (∀ K : Utils,
      update K (demo .traversal .null .null) 400 300 false
        = .ok (demo .traversal .null .null)) ∧
    (demo .traversal .null .null).joystick.startPos = ⟨0, 0⟩ ∧
    (demo .traversal .null .null).joystickPos = ⟨125, 125⟩ ∧
    taxicab.getDistance (demo .traversal .null .null).joystick.startPos
      (demo .traversal .null .null).joystickPos = 250 ∧
    ¬ (taxicab.getDistance (demo .traversal .null .null).joystick.startPos
      (demo .traversal .null .null).joystickPos
        ≤ (demo .traversal .null .null).joyring.halfSize) := by
  refine ⟨by rw [new_demo_traversal], rfl, by norm_num [demo], rfl,
    fun K => update_inactive K _ 400 300 rfl, rfl, rfl, ?_, ?_⟩
  · norm_num [demo, joystickPos, taxicab]
  · norm_num [demo, joystickPos, taxicab]

/-- C25, amended by the conditions under which the update runs. For every traversal
controller that is set up, active, not locked on both axes and of radius
`joyring.halfSize ≥ 0`, and whatever the anchor and the touch were before: an update that is
not a touch start succeeds, draws the stick at the touch position, and leaves the anchor
`joystick.startPos` at distance `min (distance old anchor, touch) radius` from it, which is at
most the radius. The kernel is assumed to return non-negative, symmetric distances and to
satisfy the round-trip law. -/
theorem traversal_leash_within_radius (K : Utils) (hK : K.RoundTrip)
    (hN : K.DistanceNonneg) (hS : K.DistanceSymm)
    (c : Controller) (o : Options) (pX pY : ℚ)
    (ho : c.options = .opts o) (ht : o.type = .traversal)
    (hl : c.lockedDimension ≠ .str "both") (ha : c.active = true)
    (hr : 0 ≤ c.joyring.halfSize) :
    ∃ c1, update K c pX pY false = .ok c1 ∧
      c1.joystickPos = ⟨pX - c.joystick.halfSize, pY - c.joystick.halfSize⟩ ∧
      K.getDistance c1.joystick.startPos c1.joystickPos
        = min (K.getDistance c.joystick.startPos
            ⟨pX - c.joystick.halfSize, pY - c.joystick.halfSize⟩) c.joyring.halfSize ∧
      K.getDistance c1.joystick.startPos c1.joystickPos ≤ c.joyring.halfSize ∧
      K.getDistance c1.joystickPos c1.joystick.startPos ≤ c.joyring.halfSize ∧
      c1.joyring.halfSize = c.joyring.halfSize := by
  refine ⟨_, by simp [update, whileActive, hl, ha, ho, ht]; rfl, traverse_joystickPos _ _ _, ?_⟩
  have key : K.getDistance (Controller.traverse K c
        ⟨pX - c.joystick.halfSize, pY - c.joystick.halfSize⟩).joystick.startPos
      (Controller.traverse K c
        ⟨pX - c.joystick.halfSize, pY - c.joystick.halfSize⟩).joystickPos
      = min (K.getDistance c.joystick.startPos
          ⟨pX - c.joystick.halfSize, pY - c.joystick.halfSize⟩) c.joyring.halfSize := by
    rw [traverse_joystickPos, traverse_startPos]
    split_ifs with hfar
    · rw [hS]
      exact hK _ _ _ (le_min (hN _ _) hr)
    · exact le_antisymm (not_lt.mp hfar) (min_le_left _ _)
  refine ⟨key, key ▸ min_le_right _ _, ?_, ?_⟩
  · rw [hS, key]
    exact min_le_right _ _
  · simp [Controller.traverse, Joyring.setPos]

/-- C25, amended, at a concrete input: the touched traversal sample (anchor `(275, 275)`,
radius 50) dragged to `(400, 300)` under the taxicab kernel. The touch position `(375, 275)`
is at distance 100 from the anchor; the stick is drawn there and the anchor follows to
distance 50 from it. -/
theorem traversal_leash_within_radius_witness :
    ∃ c1, update taxicab (demoTouched .traversal .null .null) 400 300 false = .ok c1 ∧
      c1.joystickPos = ⟨375, 275⟩ ∧
      taxicab.getDistance c1.joystick.startPos c1.joystickPos = 50 ∧
      taxicab.getDistance c1.joystick.startPos c1.joystickPos ≤ 50 := by
  obtain ⟨c1, h1, h2, h3, h4, -, -⟩ := traversal_leash_within_radius taxicab taxicab_roundTrip
    taxicab_distanceNonneg taxicab_distanceSymm (demoTouched .traversal .null .null) _ 400 300
    rfl rfl (by decide) rfl (by norm_num [demoTouched, demo])
  norm_num [demoTouched, demo] at h2 h4
  have h5 : taxicab.getDistance c1.joystick.startPos c1.joystickPos = 50 := by
    rw [h3]
    norm_num [demoTouched, demo, taxicab]
  exact ⟨c1, h1, h2, h5, h4⟩

end AMobile
